import Mathlib

/-!
# Phi-accrual failure detector (`detector` package)

A shallow embedding of `detector/heartbeat_history.go` and `detector/detector.go`.

Modelling conventions

* `float64` values are real numbers (`ℝ`): the properties below are statements of exact
  arithmetic.  Division is Lean's total division on `ℝ`, `math.Sqrt` is `Real.sqrt`,
  `math.Exp` is `Real.exp`, `math.Log` is `Real.log` and `math.Log10` is `Real.logb 10`.
* Go `int` values are integers (`Int`); the integer quotient `a / b` of Go truncates toward
  zero and is `Int.tdiv`; `float64(n)` is the cast `(n : ℝ)`.
* A Go pointer `*HeartbeatHistory` that may be `nil` is an `Option HeartbeatHistory`.
* A run-time panic (index out of range, nil dereference) is the result `none`.
* A Go result pair `(*T, error)` is an `Except String T` carrying the error text.
* The mutex of `HeartbeatHistory` is not modelled: it has no effect on a sequential run, and in
  the interleaved runs every update of a window is one uninterrupted step.
-/

namespace Detector

/-! ## `heartbeat_history.go` -/

/-- The sample window `HeartbeatHistory`: capacity, retained intervals (oldest first) and the
two running sums. -/
structure HeartbeatHistory where
  MaxSamples : Int
  Intervals : List ℝ
  intervalSum : ℝ
  squaredIntervalSum : ℝ

/-- `NewHeartbeatHistory(maxSamples)`: rejects a capacity `≤ 0`, otherwise the zero-valued
window (nil slice, both sums `0`) with that capacity. -/
def NewHeartbeatHistory (maxSamples : Int) : Except String HeartbeatHistory :=
  if maxSamples ≤ 0 then
    Except.error "sample capacity must be > 0"
  else
    Except.ok { MaxSamples := maxSamples, Intervals := [], intervalSum := 0, squaredIntervalSum := 0 }

/-- `hh.Mean()`: `intervalSum / float64(len(Intervals))`. -/
noncomputable def Mean (hh : HeartbeatHistory) : ℝ :=
  hh.intervalSum / (hh.Intervals.length : ℝ)

/-- `hh.Variance()`: `squaredIntervalSum / float64(len(Intervals)) - Mean() * Mean()`. -/
noncomputable def Variance (hh : HeartbeatHistory) : ℝ :=
  (hh.squaredIntervalSum / (hh.Intervals.length : ℝ)) - (Mean hh * Mean hh)

/-- `hh.StdDev()`: `math.Sqrt(Variance())`. -/
noncomputable def StdDev (hh : HeartbeatHistory) : ℝ :=
  Real.sqrt (Variance hh)

/-- `hh.DropOldestInterval()`: reads `Intervals[0]` (a panic on an empty slice), reslices to
`Intervals[1:]` and subtracts the dropped value and its square from the running sums. -/
def DropOldestInterval (hh : HeartbeatHistory) : Option HeartbeatHistory :=
  match hh.Intervals with
  | [] => none
  | intervalToDrop :: rest =>
    some { hh with
      Intervals := rest
      intervalSum := hh.intervalSum - intervalToDrop
      squaredIntervalSum := hh.squaredIntervalSum - (intervalToDrop * intervalToDrop) }

/-- `hh.AddInterval(interval)`: appends and updates the sums when there is room, otherwise
calls `DropOldestInterval` and then itself again. -/
def AddInterval (hh : HeartbeatHistory) (interval : ℝ) : Option HeartbeatHistory :=
  if (hh.Intervals.length : Int) < hh.MaxSamples then
    some { hh with
      Intervals := hh.Intervals ++ [interval]
      intervalSum := hh.intervalSum + interval
      squaredIntervalSum := hh.squaredIntervalSum + (interval * interval) }
  else
    match h : DropOldestInterval hh with
    | none => none
    | some hh1 => AddInterval hh1 interval
termination_by hh.Intervals.length
decreasing_by
  unfold DropOldestInterval at h
  split at h
  · cases h
  · next x rest hxs =>
    cases h
    simp [hxs]

/-! ## `detector.go` -/

/-- The detector state `State`: the window in force (a pointer, possibly nil) and the
timestamp of the latest heartbeat, `0` meaning that none was recorded. -/
structure State where
  History : Option HeartbeatHistory
  LatestTimestamp : ℝ

/-- The detector `FailureDetector`: its five configuration fields and the state cell. -/
structure FailureDetector where
  Threshold : ℝ
  MaxSamples : Int
  MinStdDevMilliseconds : Int
  AcceptableHeartbeatPauseMilliseconds : Int
  FirstHeartbeatEstimateMilliseconds : Int
  state : State

/-- `firstHeartbeat(firstHeartbeatEstimate, maxSamples)`: a new window seeded with the
estimate minus and plus its integer quarter.  The outer `Option` is `none` on a panic, the
`Except` is the returned `(window, error)` pair. -/
def firstHeartbeat (firstHeartbeatEstimate maxSamples : Int) :
    Option (Except String HeartbeatHistory) :=
  let stdDev := Int.tdiv firstHeartbeatEstimate 4
  match NewHeartbeatHistory maxSamples with
  | Except.error err => some (Except.error err)
  | Except.ok hh =>
    match AddInterval hh ((firstHeartbeatEstimate : ℝ) - (stdDev : ℝ)) with
    | none => none
    | some hh1 =>
      match AddInterval hh1 ((firstHeartbeatEstimate : ℝ) + (stdDev : ℝ)) with
      | none => none
      | some hh2 => some (Except.ok hh2)

/-- `NewFailureDetector(...)`: validates the five parameters in order, then stores the
bootstrap window with `LatestTimestamp = 0`. -/
noncomputable def NewFailureDetector (threshold : ℝ)
    (maxSamples minStdDev acceptableHeartbeatPause firstHeartbeatEstimate : Int) :
    Option (Except String FailureDetector) :=
  if threshold ≤ 0 then
    some (Except.error "threshold must be > 0")
  else if maxSamples ≤ 0 then
    some (Except.error "maxSamples must be > 0")
  else if minStdDev ≤ 0 then
    some (Except.error "minStdDev must be > 0")
  else if acceptableHeartbeatPause < 0 then
    some (Except.error "acceptableHeartbeatPause must be > 0")
  else if firstHeartbeatEstimate ≤ 0 then
    some (Except.error "firstHeartbeatEstimate must be > 0")
  else
    match firstHeartbeat firstHeartbeatEstimate maxSamples with
    | none => none
    | some (Except.error err) => some (Except.error err)
    | some (Except.ok fhb) =>
      some (Except.ok
        { Threshold := threshold
          MaxSamples := maxSamples
          MinStdDevMilliseconds := minStdDev
          AcceptableHeartbeatPauseMilliseconds := acceptableHeartbeatPause
          FirstHeartbeatEstimateMilliseconds := firstHeartbeatEstimate
          state := { History := some fhb, LatestTimestamp := 0 } })

/-- `fd.ensureValidStdDev(stdDev)`: `math.Max(stdDev, float64(MinStdDevMilliseconds))`. -/
noncomputable def ensureValidStdDev (fd : FailureDetector) (stdDev : ℝ) : ℝ :=
  max stdDev (fd.MinStdDevMilliseconds : ℝ)

/-- `calcPhi(timeDiff, mean, stdDev)`: the logistic approximation, with its two branches. -/
noncomputable def calcPhi (timeDiff mean stdDev : ℝ) : ℝ :=
  let y := (timeDiff - mean) / stdDev
  let y1 : ℝ := 0.07056
  let y2 : ℝ := 1.5976
  let e := Real.exp (-y * (y2 + y1 * y * y))
  if timeDiff > mean then
    -Real.logb 10 (e / (1.0 + e))
  else
    -Real.log (1.0 - 1.0 / (1.0 + e))

/-- `fd.phi(timestamp)`: loads the state and evaluates `calcPhi` on the time since the latest
heartbeat, the window mean plus the acceptable pause, and the floored standard deviation.
A nil window panics on `Mean()`. -/
noncomputable def phi (fd : FailureDetector) (timestamp : ℝ) : Option ℝ :=
  let lastState := fd.state
  let lastTimestamp := lastState.LatestTimestamp
  let timeDiff := timestamp - lastTimestamp
  match lastState.History with
  | none => none
  | some lastHistory =>
    let mean := Mean lastHistory
    let stdDev := ensureValidStdDev fd (StdDev lastHistory)
    some (calcPhi timeDiff (mean + (fd.AcceptableHeartbeatPauseMilliseconds : ℝ)) stdDev)

/-- `fd.isAvailable(timestamp)`: `phi(timestamp) < Threshold`. -/
noncomputable def isAvailable (fd : FailureDetector) (timestamp : ℝ) : Option Bool :=
  match phi fd timestamp with
  | none => none
  | some phi_val => some (decide (phi_val < fd.Threshold))

/-- `fd.Heartbeat()` in a sequential run, with the clock reading `timestamp` that
`getTimeMs()` returned.  No other caller changes the state cell between the load and the
compare-and-swap, so the swap succeeds and the retry is not taken; the window of the old
state is updated in place and the new state refers to it.  The result is the detector after
the call together with the returned error (always nil); `none` is a panic. -/
noncomputable def Heartbeat (fd : FailureDetector) (timestamp : ℝ) :
    Option (FailureDetector × Option String) :=
  let oldState := fd.state
  if oldState.LatestTimestamp = 0 then
    match firstHeartbeat fd.FirstHeartbeatEstimateMilliseconds fd.MaxSamples with
    | none => none
    | some (Except.error _) =>
      some ({ fd with state := { History := none, LatestTimestamp := timestamp } }, none)
    | some (Except.ok history) =>
      some ({ fd with state := { History := some history, LatestTimestamp := timestamp } }, none)
  else
    let latestTimestamp := oldState.LatestTimestamp
    let interval := timestamp - latestTimestamp
    match isAvailable fd timestamp with
    | none => none
    | some true =>
      match oldState.History with
      | none => none
      | some history =>
        match AddInterval history interval with
        | none => none
        | some history1 =>
          some ({ fd with state := { History := some history1, LatestTimestamp := timestamp } }, none)
    | some false =>
      some ({ fd with state := { History := oldState.History, LatestTimestamp := timestamp } }, none)

/-! ## Auxiliary definitions for the statements -/

/-- The running-sum invariant of a window: both sums agree with the retained intervals. -/
def SumInv (hh : HeartbeatHistory) : Prop :=
  hh.intervalSum = hh.Intervals.sum ∧
    hh.squaredIntervalSum = (hh.Intervals.map (fun x => x * x)).sum

/-- Feeds the values of a list one by one to `AddInterval`, oldest first. -/
def addIntervals (hh : HeartbeatHistory) : List ℝ → Option HeartbeatHistory
  | [] => some hh
  | x :: xs =>
    match AddInterval hh x with
    | none => none
    | some hh1 => addIntervals hh1 xs

/-- One mutating call on a window: `AddInterval(interval)` or `DropOldestInterval()`. -/
inductive WindowOp where
  | add (interval : ℝ)
  | dropOldest

/-- Applies a sequence of mutating calls to a window, in order; `none` as soon as one
panics. -/
def runOps (hh : HeartbeatHistory) : List WindowOp → Option HeartbeatHistory
  | [] => some hh
  | WindowOp.add x :: ops =>
    match AddInterval hh x with
    | none => none
    | some hh1 => runOps hh1 ops
  | WindowOp.dropOldest :: ops =>
    match DropOldestInterval hh with
    | none => none
    | some hh1 => runOps hh1 ops

/-- The bootstrap window of the test configuration `(8, 200, 500, 0, 500)`: the samples are
`500 - 125` and `500 + 125`. -/
noncomputable def testWindow : HeartbeatHistory where
  MaxSamples := 200
  Intervals := [375, 625]
  intervalSum := 1000
  squaredIntervalSum := 531250

/-- The detector that `NewFailureDetector(8, 200, 500, 0, 500)` returns. -/
noncomputable def testDetector : FailureDetector where
  Threshold := 8
  MaxSamples := 200
  MinStdDevMilliseconds := 500
  AcceptableHeartbeatPauseMilliseconds := 0
  FirstHeartbeatEstimateMilliseconds := 500
  state := { History := some testWindow, LatestTimestamp := 0 }

/-- A seeded detector of the configuration `(8, 3, 10, 0, 10)`: its window still holds the
two bootstrap samples `10 - 2` and `10 + 2`, the latest heartbeat was at 100. -/
noncomputable def seededDetector : FailureDetector where
  Threshold := 8
  MaxSamples := 3
  MinStdDevMilliseconds := 10
  AcceptableHeartbeatPauseMilliseconds := 0
  FirstHeartbeatEstimateMilliseconds := 10
  state :=
    { History := some { MaxSamples := 3, Intervals := [8, 12], intervalSum := 20,
                        squaredIntervalSum := 208 }
      LatestTimestamp := 100 }

/-- Records heartbeats at the given clock readings, one sequential `Heartbeat` call each, in
order; `none` as soon as one call panics. -/
noncomputable def runHeartbeats (fd : FailureDetector) : List ℝ → Option FailureDetector
  | [] => some fd
  | t :: ts =>
    match Heartbeat fd t with
    | none => none
    | some (fd1, _) => runHeartbeats fd1 ts

/-- The detector states reachable from a successful `NewFailureDetector` by sequential
`Heartbeat` calls at arbitrary clock readings. -/
inductive Reachable : FailureDetector → Prop where
  | init (threshold : ℝ)
      (maxSamples minStdDev acceptableHeartbeatPause firstHeartbeatEstimate : Int)
      (fd : FailureDetector)
      (h : NewFailureDetector threshold maxSamples minStdDev acceptableHeartbeatPause
        firstHeartbeatEstimate = some (Except.ok fd)) : Reachable fd
  | heartbeat (fd fd1 : FailureDetector) (t : ℝ) (err : Option String)
      (hfd : Reachable fd) (h : Heartbeat fd t = some (fd1, err)) : Reachable fd1

/-- The configuration constraints that `NewFailureDetector` enforces. -/
def ValidConfig (fd : FailureDetector) : Prop :=
  0 < fd.Threshold ∧ 0 < fd.MaxSamples ∧ 0 < fd.MinStdDevMilliseconds ∧
    0 ≤ fd.AcceptableHeartbeatPauseMilliseconds ∧ 0 < fd.FirstHeartbeatEstimateMilliseconds

/-- The state invariant of a detector: a valid configuration and a window of the configured
capacity that holds between one and `MaxSamples` intervals, with consistent running sums. -/
def DetectorInv (fd : FailureDetector) : Prop :=
  ValidConfig fd ∧
    ∃ w, fd.state.History = some w ∧ w.MaxSamples = fd.MaxSamples ∧
      1 ≤ w.Intervals.length ∧ (w.Intervals.length : Int) ≤ fd.MaxSamples ∧ SumInv w

/-- The window of capacity `maxSamples` that retains the intervals `xs`, with the running
sums that belong to them. -/
noncomputable def windowOf (maxSamples : Int) (xs : List ℝ) : HeartbeatHistory where
  MaxSamples := maxSamples
  Intervals := xs
  intervalSum := xs.sum
  squaredIntervalSum := (xs.map (fun x => x * x)).sum

/-- The detector of the given configuration whose state holds the window
`windowOf maxSamples xs` and the latest timestamp `last`. -/
noncomputable def detectorOf (threshold : ℝ)
    (maxSamples minStdDev acceptableHeartbeatPause firstHeartbeatEstimate : Int)
    (xs : List ℝ) (last : ℝ) : FailureDetector where
  Threshold := threshold
  MaxSamples := maxSamples
  MinStdDevMilliseconds := minStdDev
  AcceptableHeartbeatPauseMilliseconds := acceptableHeartbeatPause
  FirstHeartbeatEstimateMilliseconds := firstHeartbeatEstimate
  state := { History := some (windowOf maxSamples xs), LatestTimestamp := last }

/-- The intervals of the bootstrap window: the estimate minus and plus its integer quarter,
of which a window of capacity 1 retains the second only. -/
noncomputable def bootstrapIntervals (firstHeartbeatEstimate maxSamples : Int) : List ℝ :=
  ([(firstHeartbeatEstimate : ℝ) - (Int.tdiv firstHeartbeatEstimate 4 : ℝ),
    (firstHeartbeatEstimate : ℝ) + (Int.tdiv firstHeartbeatEstimate 4 : ℝ)] : List ℝ).drop
    (2 - maxSamples.toNat)

/-- The clock readings of a steady cadence of period `d`: `t0, t0 + d, ..., t0 + k·d`. -/
noncomputable def cadence (t0 d : ℝ) (k : Nat) : List ℝ :=
  (List.range (k + 1)).map (fun (i : Nat) => t0 + (i : ℝ) * d)

/-- Every suffix of `xs` has a sum of at least `d` times its length (a mean of at least `d`
when it is not empty). -/
def SuffixMeanGE (d : ℝ) (xs : List ℝ) : Prop :=
  ∀ n : Nat, d * ((xs.drop n).length : ℝ) ≤ (xs.drop n).sum

/-- The upstream logistic method that the doc comment of `calcPhi` refers to, in the words of
the specification: `−log10(1 − F(timeDiff))` with `F(timeDiff) = 1/(1+e)`,
`e = exp(−y·(1.5976 + 0.07056·y²))` and `y = (timeDiff − mean)/stdDev`, on both sides of the
mean. -/
noncomputable def logisticPhi (timeDiff mean stdDev : ℝ) : ℝ :=
  let y := (timeDiff - mean) / stdDev
  let e := Real.exp (-y * (1.5976 + 0.07056 * y ^ 2))
  let F := 1 / (1 + e)
  (-Real.logb 10 (1 - F))

/-! ### Interleaved `Heartbeat` calls

Several callers run `Heartbeat` on one detector.  The `State` values that they load, compare
and store hold a pointer to the window; the windows live in a heap and are updated in place.
A run is a sequence of events, each executed without interruption: a caller reads the clock
and loads the state cell; a caller runs the body between the load and the compare-and-swap
(the bootstrap, or the availability check on the current cell and `AddInterval` on the window
of its old state); a caller runs the compare-and-swap, after which it has returned or starts
over.  The program can be interrupted at more places than these, so every run below is a run
of the program. -/

/-- A `State` value as a caller holds it: the window is a pointer, an index into the heap of
windows or nil. -/
structure StateRef where
  History : Option Nat
  LatestTimestamp : ℝ

/-- Where a caller stands in `Heartbeat`: before the load, after the load, after the body, or
returned. -/
inductive Pc where
  | start
  | loaded
  | updated
  | returned
  deriving DecidableEq

/-- The local variables of one caller of `Heartbeat`, with the number of compare-and-swaps it
has lost so far. -/
structure Caller where
  pc : Pc
  timestamp : ℝ
  oldState : StateRef
  history : Option Nat
  lostSwaps : Nat

/-- The detector as its concurrent callers share it: the configuration, the heap of windows,
the state cell and the callers. -/
structure Shared where
  config : FailureDetector
  heap : List HeartbeatHistory
  cell : StateRef
  callers : List Caller

/-- One event of a run: caller `i` reads the clock (`t`) and loads the cell, runs the body, or
runs the compare-and-swap. -/
inductive Event where
  | load (i : Nat) (t : ℝ)
  | update (i : Nat)
  | swap (i : Nat)

/-- The detector that `phi` sees when it loads the state cell: the configuration with the
current cell, its window pointer followed into the heap. -/
def Shared.view (sh : Shared) : FailureDetector :=
  { sh.config with
    state :=
      { History :=
          match sh.cell.History with
          | none => none
          | some a => sh.heap[a]?
        LatestTimestamp := sh.cell.LatestTimestamp } }

/-- Executes one event; `none` when the caller is not at that point of `Heartbeat` or the
step panics. -/
noncomputable def stepEvent (sh : Shared) : Event → Option Shared
  | Event.load i t =>
    match sh.callers[i]? with
    | none => none
    | some c =>
      if c.pc = Pc.start then
        some { sh with
          callers := sh.callers.set i
            { c with pc := Pc.loaded, timestamp := t, oldState := sh.cell } }
      else none
  | Event.update i =>
    match sh.callers[i]? with
    | none => none
    | some c =>
      if c.pc = Pc.loaded then
        if c.oldState.LatestTimestamp = 0 then
          match firstHeartbeat sh.config.FirstHeartbeatEstimateMilliseconds
              sh.config.MaxSamples with
          | none => none
          | some (Except.error _) =>
            some { sh with
              callers := sh.callers.set i { c with pc := Pc.updated, history := none } }
          | some (Except.ok w) =>
            some { sh with
              heap := sh.heap ++ [w]
              callers := sh.callers.set i
                { c with pc := Pc.updated, history := some sh.heap.length } }
        else
          let interval := c.timestamp - c.oldState.LatestTimestamp
          match isAvailable sh.view c.timestamp with
          | none => none
          | some true =>
            match c.oldState.History with
            | none => none
            | some a =>
              match sh.heap[a]? with
              | none => none
              | some w =>
                match AddInterval w interval with
                | none => none
                | some w1 =>
                  some { sh with
                    heap := sh.heap.set a w1
                    callers := sh.callers.set i
                      { c with pc := Pc.updated, history := c.oldState.History } }
          | some false =>
            some { sh with
              callers := sh.callers.set i
                { c with pc := Pc.updated, history := c.oldState.History } }
      else none
  | Event.swap i =>
    match sh.callers[i]? with
    | none => none
    | some c =>
      if c.pc = Pc.updated then
        if sh.cell.History = c.oldState.History ∧
            sh.cell.LatestTimestamp = c.oldState.LatestTimestamp then
          some { sh with
            cell := { History := c.history, LatestTimestamp := c.timestamp }
            callers := sh.callers.set i { c with pc := Pc.returned } }
        else
          some { sh with
            callers := sh.callers.set i
              { c with pc := Pc.start, lostSwaps := c.lostSwaps + 1 } }
      else none

/-- Executes the events of a run in order. -/
noncomputable def runEvents (sh : Shared) : List Event → Option Shared
  | [] => some sh
  | e :: es =>
    match stepEvent sh e with
    | none => none
    | some sh1 => runEvents sh1 es

/-- A caller that has not started yet. -/
noncomputable def freshCaller : Caller where
  pc := Pc.start
  timestamp := 0
  oldState := { History := none, LatestTimestamp := 0 }
  history := none
  lostSwaps := 0

/-- The shared detector of configuration `(8, 3, 10, 0, 10)` after a first heartbeat at 100:
the cell points to the window at address 0, which holds the bootstrap samples 8 and 12; two
callers are about to call `Heartbeat`. -/
noncomputable def racingDetector : Shared where
  config := detectorOf 8 3 10 0 10 [8, 12] 100
  heap := [windowOf 3 [8, 12]]
  cell := { History := some 0, LatestTimestamp := 100 }
  callers := [freshCaller, freshCaller]

/-- The shared detector of `racingDetector` at a later point of a run: the window at address 0
retains `xs`, the cell points to it with the latest timestamp `last`, and the two callers are
`c0` and `c1`. -/
noncomputable def racingAt (xs : List ℝ) (last : ℝ) (c0 c1 : Caller) : Shared where
  config := detectorOf 8 3 10 0 10 [8, 12] 100
  heap := [windowOf 3 xs]
  cell := { History := some 0, LatestTimestamp := last }
  callers := [c0, c1]

/-! ### The detector on IEEE-754 doubles

A second embedding of the same source, in which a `float64` is a double.  A finite double is
`m · 2 ^ e` with `m` odd, or `0 · 2 ^ 0`; every arithmetic operation rounds its exact result
to the nearest double, ties to even.  The sign of a zero is not modelled (`-0` and `0` are the
same value, as they are for Go's `==`); a division by zero takes the zero as `+0`. -/

namespace Float64

/-- A double: not-a-number, an infinity, or the finite value `m · 2 ^ e`. -/
inductive F64 where
  | nan
  | inf (neg : Bool)
  | fin (m : Int) (e : Int)
  deriving DecidableEq

/-- The integer nearest to `n / d`, ties to even. -/
def roundHalfEven (n d : Nat) : Nat :=
  let f := n / d
  let r := n % d
  if 2 * r < d then f else if d < 2 * r then f + 1 else if f % 2 = 0 then f else f + 1

/-- The position of the highest set bit of `n` (0 for `n < 2`), by halving at most `fuel`
times. -/
def ilog2 : Nat → Nat → Nat
  | 0, _ => 0
  | fuel + 1, n => if n < 2 then 0 else ilog2 fuel (n / 2) + 1

/-- Writes `m · 2 ^ e` with an odd `m`, halving `m` at most `fuel` times. -/
def normalize : Nat → Int → Int → F64
  | 0, m, e => F64.fin m e
  | fuel + 1, m, e =>
    if m = 0 then F64.fin 0 0
    else if m % 2 = 0 then normalize fuel (m / 2) (e + 1) else F64.fin m e

/-- The double nearest to `± n / d` (ties to even) for `d > 0`: 53 significant bits, not below
the exponent `-1074` of the subnormal doubles, an infinity from `2 ^ 1024` on. -/
def rnd (negative : Bool) (n d : Nat) : F64 :=
  if n = 0 then F64.fin 0 0
  else
    let e0 : Int := (ilog2 2200 n : Int) - (ilog2 2200 d : Int)
    let e : Int := if n * 2 ^ (-e0).toNat < d * 2 ^ e0.toNat then e0 - 1 else e0
    let p : Int := max (e - 52) (-1074)
    let m : Nat := roundHalfEven (n * 2 ^ (-p).toNat) (d * 2 ^ p.toNat)
    if 1024 ≤ (ilog2 2200 m : Int) + p then F64.inf negative
    else normalize 64 (if negative then -(m : Int) else (m : Int)) p

/-- The exact dyadic value `m · 2 ^ e`, rounded to a double. -/
def rndDyadic (m e : Int) : F64 :=
  rnd (decide (m < 0)) (m.natAbs * 2 ^ e.toNat) (2 ^ (-e).toNat)

/-- Go's `float64(n)` for an `int`. -/
def ofInt (n : Int) : F64 := rndDyadic n 0

/-- A decimal constant `n / d` of the source, as the compiler rounds it. -/
def ofRatio (n d : Nat) : F64 := rnd false n d

/-- Go's `-x` on doubles. -/
def neg : F64 → F64
  | F64.nan => F64.nan
  | F64.inf a => F64.inf (!a)
  | F64.fin m e => F64.fin (-m) e

/-- Go's `x + y` on doubles. -/
def add : F64 → F64 → F64
  | F64.nan, _ => F64.nan
  | _, F64.nan => F64.nan
  | F64.inf a, F64.inf b => if a = b then F64.inf a else F64.nan
  | F64.inf a, F64.fin _ _ => F64.inf a
  | F64.fin _ _, F64.inf b => F64.inf b
  | F64.fin m1 e1, F64.fin m2 e2 =>
    let e := min e1 e2
    rndDyadic (m1 * 2 ^ (e1 - e).toNat + m2 * 2 ^ (e2 - e).toNat) e

/-- Go's `x - y` on doubles. -/
def sub (x y : F64) : F64 := add x (neg y)

/-- Go's `x * y` on doubles. -/
def mul : F64 → F64 → F64
  | F64.nan, _ => F64.nan
  | _, F64.nan => F64.nan
  | F64.inf a, F64.inf b => F64.inf (xor a b)
  | F64.inf a, F64.fin m _ => if m = 0 then F64.nan else F64.inf (xor a (decide (m < 0)))
  | F64.fin m _, F64.inf b => if m = 0 then F64.nan else F64.inf (xor (decide (m < 0)) b)
  | F64.fin m1 e1, F64.fin m2 e2 => rndDyadic (m1 * m2) (e1 + e2)

/-- Go's `x / y` on doubles. -/
def div : F64 → F64 → F64
  | F64.nan, _ => F64.nan
  | _, F64.nan => F64.nan
  | F64.inf _, F64.inf _ => F64.nan
  | F64.inf a, F64.fin m _ => F64.inf (xor a (decide (m < 0)))
  | F64.fin _ _, F64.inf _ => F64.fin 0 0
  | F64.fin m1 e1, F64.fin m2 e2 =>
    if m2 = 0 then (if m1 = 0 then F64.nan else F64.inf (decide (m1 < 0)))
    else
      rnd (xor (decide (m1 < 0)) (decide (m2 < 0)))
        (m1.natAbs * 2 ^ (e1 - e2).toNat) (m2.natAbs * 2 ^ (e2 - e1).toNat)

/-- Go's `x < y` on doubles: false when an operand is not a number. -/
def lt : F64 → F64 → Bool
  | F64.nan, _ => false
  | _, F64.nan => false
  | F64.inf a, F64.inf b => a && !b
  | F64.inf a, F64.fin _ _ => a
  | F64.fin _ _, F64.inf b => !b
  | F64.fin m1 e1, F64.fin m2 e2 =>
    let e := min e1 e2
    decide (m1 * 2 ^ (e1 - e).toNat < m2 * 2 ^ (e2 - e).toNat)

/-- Go's `x == y` on doubles: false when an operand is not a number. -/
def eq : F64 → F64 → Bool
  | F64.nan, _ => false
  | _, F64.nan => false
  | x, y => decide (x = y)

/-- Go's `math.Max`: not-a-number when an operand is, otherwise the larger. -/
def Max : F64 → F64 → F64
  | F64.nan, _ => F64.nan
  | _, F64.nan => F64.nan
  | x, y => if lt x y then y else x


/-- The functions of Go's `math` package that the detector calls besides `math.Max`. -/
structure MathLib where
  Sqrt : F64 → F64
  Exp : F64 → F64
  Log : F64 → F64
  Log10 : F64 → F64

/-- What the statements below assume of the `math` package: the special cases that its
documentation lists (`Sqrt(x) = NaN` for `x < 0`, `Sqrt(0) = 0`, and `Sqrt`, `Exp`, `Log`,
`Log10` of not-a-number are not-a-number), the overflow of `Exp` to `+Inf` from 710 on
(its threshold is 709.78...), and the exact value `Log(1) = 0`. -/
structure MathLib.SpecialCases (lib : MathLib) : Prop where
  Sqrt_neg : ∀ m e, m < 0 → lib.Sqrt (F64.fin m e) = F64.nan
  Sqrt_zero : lib.Sqrt (F64.fin 0 0) = F64.fin 0 0
  Sqrt_nan : lib.Sqrt F64.nan = F64.nan
  Exp_nan : lib.Exp F64.nan = F64.nan
  Exp_overflow : ∀ m e, lt (F64.fin 355 1) (F64.fin m e) = true →
    lib.Exp (F64.fin m e) = F64.inf false
  Log_nan : lib.Log F64.nan = F64.nan
  Log_one : lib.Log (F64.fin 1 0) = F64.fin 0 0
  Log10_nan : lib.Log10 F64.nan = F64.nan

/-- The sample window `HeartbeatHistory` on doubles. -/
structure HeartbeatHistory where
  MaxSamples : Int
  Intervals : List F64
  intervalSum : F64
  squaredIntervalSum : F64
  deriving DecidableEq

/-- `NewHeartbeatHistory(maxSamples)` on doubles. -/
def NewHeartbeatHistory (maxSamples : Int) : Except String HeartbeatHistory :=
  if maxSamples ≤ 0 then
    Except.error "sample capacity must be > 0"
  else
    Except.ok
      { MaxSamples := maxSamples, Intervals := [], intervalSum := F64.fin 0 0,
        squaredIntervalSum := F64.fin 0 0 }

/-- `hh.Mean()` on doubles. -/
def Mean (hh : HeartbeatHistory) : F64 :=
  div hh.intervalSum (ofInt hh.Intervals.length)

/-- `hh.Variance()` on doubles. -/
def Variance (hh : HeartbeatHistory) : F64 :=
  sub (div hh.squaredIntervalSum (ofInt hh.Intervals.length)) (mul (Mean hh) (Mean hh))

/-- `hh.StdDev()` on doubles. -/
def StdDev (lib : MathLib) (hh : HeartbeatHistory) : F64 :=
  lib.Sqrt (Variance hh)

/-- `hh.DropOldestInterval()` on doubles; `none` is the panic on an empty slice. -/
def DropOldestInterval (hh : HeartbeatHistory) : Option HeartbeatHistory :=
  match hh.Intervals with
  | [] => none
  | intervalToDrop :: rest =>
    some { hh with
      Intervals := rest
      intervalSum := sub hh.intervalSum intervalToDrop
      squaredIntervalSum := sub hh.squaredIntervalSum (mul intervalToDrop intervalToDrop) }

/-- `hh.AddInterval(interval)` on doubles, with the number of nested calls bounded by
`calls`. -/
def AddIntervalWithin : Nat → HeartbeatHistory → F64 → Option HeartbeatHistory
  | 0, _, _ => none
  | calls + 1, hh, interval =>
    if (hh.Intervals.length : Int) < hh.MaxSamples then
      some { hh with
        Intervals := hh.Intervals ++ [interval]
        intervalSum := add hh.intervalSum interval
        squaredIntervalSum := add hh.squaredIntervalSum (mul interval interval) }
    else
      match DropOldestInterval hh with
      | none => none
      | some hh1 => AddIntervalWithin calls hh1 interval

/-- `hh.AddInterval(interval)` on doubles.  Every nested call follows a
`DropOldestInterval`, which panics on the empty window, so there are at most
`len(Intervals) + 1` calls and the bound is never what ends the recursion. -/
def AddInterval (hh : HeartbeatHistory) (interval : F64) : Option HeartbeatHistory :=
  AddIntervalWithin (hh.Intervals.length + 1) hh interval

/-- The detector state `State` on doubles. -/
structure State where
  History : Option HeartbeatHistory
  LatestTimestamp : F64
  deriving DecidableEq

/-- The detector `FailureDetector` on doubles. -/
structure FailureDetector where
  Threshold : F64
  MaxSamples : Int
  MinStdDevMilliseconds : Int
  AcceptableHeartbeatPauseMilliseconds : Int
  FirstHeartbeatEstimateMilliseconds : Int
  state : State
  deriving DecidableEq

/-- `firstHeartbeat(firstHeartbeatEstimate, maxSamples)` on doubles. -/
def firstHeartbeat (firstHeartbeatEstimate maxSamples : Int) :
    Option (Except String HeartbeatHistory) :=
  let stdDev := Int.tdiv firstHeartbeatEstimate 4
  match NewHeartbeatHistory maxSamples with
  | Except.error err => some (Except.error err)
  | Except.ok hh =>
    match AddInterval hh (sub (ofInt firstHeartbeatEstimate) (ofInt stdDev)) with
    | none => none
    | some hh1 =>
      match AddInterval hh1 (add (ofInt firstHeartbeatEstimate) (ofInt stdDev)) with
      | none => none
      | some hh2 => some (Except.ok hh2)

/-- `NewFailureDetector(...)` on doubles. -/
def NewFailureDetector (threshold : F64)
    (maxSamples minStdDev acceptableHeartbeatPause firstHeartbeatEstimate : Int) :
    Option (Except String FailureDetector) :=
  if lt threshold (F64.fin 0 0) || eq threshold (F64.fin 0 0) then
    some (Except.error "threshold must be > 0")
  else if maxSamples ≤ 0 then
    some (Except.error "maxSamples must be > 0")
  else if minStdDev ≤ 0 then
    some (Except.error "minStdDev must be > 0")
  else if acceptableHeartbeatPause < 0 then
    some (Except.error "acceptableHeartbeatPause must be > 0")
  else if firstHeartbeatEstimate ≤ 0 then
    some (Except.error "firstHeartbeatEstimate must be > 0")
  else
    match firstHeartbeat firstHeartbeatEstimate maxSamples with
    | none => none
    | some (Except.error err) => some (Except.error err)
    | some (Except.ok fhb) =>
      some (Except.ok
        { Threshold := threshold
          MaxSamples := maxSamples
          MinStdDevMilliseconds := minStdDev
          AcceptableHeartbeatPauseMilliseconds := acceptableHeartbeatPause
          FirstHeartbeatEstimateMilliseconds := firstHeartbeatEstimate
          state := { History := some fhb, LatestTimestamp := F64.fin 0 0 } })

/-- `fd.ensureValidStdDev(stdDev)` on doubles. -/
def ensureValidStdDev (fd : FailureDetector) (stdDev : F64) : F64 :=
  Max stdDev (ofInt fd.MinStdDevMilliseconds)

/-- `calcPhi(timeDiff, mean, stdDev)` on doubles. -/
def calcPhi (lib : MathLib) (timeDiff mean stdDev : F64) : F64 :=
  let y := div (sub timeDiff mean) stdDev
  let y1 := ofRatio 7056 100000
  let y2 := ofRatio 15976 10000
  let e := lib.Exp (mul (neg y) (add y2 (mul (mul y1 y) y)))
  if lt mean timeDiff then
    neg (lib.Log10 (div e (add (F64.fin 1 0) e)))
  else
    neg (lib.Log (sub (F64.fin 1 0) (div (F64.fin 1 0) (add (F64.fin 1 0) e))))

/-- `fd.phi(timestamp)` on doubles; `none` is the panic on a nil window. -/
def phi (lib : MathLib) (fd : FailureDetector) (timestamp : F64) : Option F64 :=
  let lastState := fd.state
  let lastTimestamp := lastState.LatestTimestamp
  let timeDiff := sub timestamp lastTimestamp
  match lastState.History with
  | none => none
  | some lastHistory =>
    let mean := Mean lastHistory
    let stdDev := ensureValidStdDev fd (StdDev lib lastHistory)
    some (calcPhi lib timeDiff (add mean (ofInt fd.AcceptableHeartbeatPauseMilliseconds))
      stdDev)

/-- `fd.isAvailable(timestamp)` on doubles. -/
def isAvailable (lib : MathLib) (fd : FailureDetector) (timestamp : F64) : Option Bool :=
  match phi lib fd timestamp with
  | none => none
  | some phi_val => some (lt phi_val fd.Threshold)

/-- `fd.Heartbeat()` on doubles, in a sequential run with the clock reading `timestamp`. -/
def Heartbeat (lib : MathLib) (fd : FailureDetector) (timestamp : F64) :
    Option (FailureDetector × Option String) :=
  let oldState := fd.state
  if eq oldState.LatestTimestamp (F64.fin 0 0) then
    match firstHeartbeat fd.FirstHeartbeatEstimateMilliseconds fd.MaxSamples with
    | none => none
    | some (Except.error _) =>
      some ({ fd with state := { History := none, LatestTimestamp := timestamp } }, none)
    | some (Except.ok history) =>
      some ({ fd with state := { History := some history, LatestTimestamp := timestamp } }, none)
  else
    let latestTimestamp := oldState.LatestTimestamp
    let interval := sub timestamp latestTimestamp
    match isAvailable lib fd timestamp with
    | none => none
    | some true =>
      match oldState.History with
      | none => none
      | some history =>
        match AddInterval history interval with
        | none => none
        | some history1 =>
          some ({ fd with state := { History := some history1, LatestTimestamp := timestamp } }, none)
    | some false =>
      some ({ fd with state := { History := oldState.History, LatestTimestamp := timestamp } }, none)

/-- Feeds the values of a list one by one to `AddInterval`, oldest first. -/
def addIntervals (hh : HeartbeatHistory) : List F64 → Option HeartbeatHistory
  | [] => some hh
  | x :: xs =>
    match AddInterval hh x with
    | none => none
    | some hh1 => addIntervals hh1 xs

/-- A sequential run of `Heartbeat` calls with the given clock readings, from a detector. -/
def runHeartbeats (lib : MathLib) (fd : FailureDetector) : List F64 → Option FailureDetector
  | [] => some fd
  | t :: ts =>
    match Heartbeat lib fd t with
    | none => none
    | some (fd1, _) => runHeartbeats lib fd1 ts

end Float64

namespace Float64

/-- What the runs below assume of the `math` package besides its special cases: the exact
value `Exp(0) = 1`, that `-Log(1/2)` (about 0.69) is below 8, and that `math.Sqrt` is
correctly rounded, which fixes its value at the variances the runs reach. -/
structure MathLib.Accurate (lib : MathLib) : Prop where
  Exp_zero : lib.Exp (F64.fin 0 0) = F64.fin 1 0
  Log_half : lt (neg (lib.Log (F64.fin 1 (-1)))) (F64.fin 1 3) = true
  Sqrt_a1 : lib.Sqrt (ofInt 625000000000000) = ofInt 25000000
  Sqrt_a2 : lib.Sqrt (ofInt 416666666666666) = F64.fin 1369853950148593 (-26)
  Sqrt_a3 : lib.Sqrt (ofInt 138888888888888) = F64.fin 6327084374950083 (-29)
  Sqrt_b1 : lib.Sqrt (ofInt 225000030000001) = ofInt 15000001
  Sqrt_b2 : lib.Sqrt (F64.fin 300000040000001 (-1)) = F64.fin 410956212441657 (-25)
  Sqrt_b3 : lib.Sqrt (ofInt 50000006666666) = F64.fin 7592501756106807 (-30)
  early_a : lt (neg (lib.Log (sub (F64.fin 1 0) (div (F64.fin 1 0) (add (F64.fin 1 0)
    (lib.Exp (F64.fin 2599973622800645 (-51)))))))) (F64.fin 1 3) = true
  early_b : lt (neg (lib.Log (sub (F64.fin 1 0) (div (F64.fin 1 0) (add (F64.fin 1 0)
    (lib.Exp (F64.fin 81249196054953 (-46)))))))) (F64.fin 1 3) = true

/-- The detector with the given configuration, window contents, running sums and latest
timestamp. -/
def detectorAt (threshold : F64) (M s p E : Int) (xs : List F64) (sum sq last : F64) :
    FailureDetector :=
  { Threshold := threshold
    MaxSamples := M
    MinStdDevMilliseconds := s
    AcceptableHeartbeatPauseMilliseconds := p
    FirstHeartbeatEstimateMilliseconds := E
    state :=
      { History := some
          { MaxSamples := M, Intervals := xs, intervalSum := sum, squaredIntervalSum := sq }
        LatestTimestamp := last } }

/-- A table of the `math` functions: the documented special cases, and at the arguments that
the runs below reach the values of an IEEE-754 implementation; not-a-number elsewhere. -/
def tableMath : MathLib where
  Sqrt := fun x =>
    match x with
    | F64.nan => F64.nan
    | F64.inf a => if a then F64.nan else F64.inf false
    | F64.fin m e =>
      if m < 0 then F64.nan
      else if m = 0 ∧ e = 0 then F64.fin 0 0
      else if m = 152587890625 ∧ e = 12 then F64.fin 390625 6
      else if m = 208333333333333 ∧ e = 1 then F64.fin 1369853950148593 (-26)
      else if m = 17361111111111 ∧ e = 3 then F64.fin 6327084374950083 (-29)
      else if m = 225000030000001 ∧ e = 0 then F64.fin 15000001 0
      else if m = 300000040000001 ∧ e = -1 then F64.fin 410956212441657 (-25)
      else if m = 25000003333333 ∧ e = 1 then F64.fin 7592501756106807 (-30)
      else F64.nan
  Exp := fun x =>
    match x with
    | F64.nan => F64.nan
    | F64.inf a => if a then F64.fin 0 0 else F64.inf false
    | F64.fin m e =>
      if lt (F64.fin 355 1) (F64.fin m e) then F64.inf false
      else if m = 0 ∧ e = 0 then F64.fin 1 0
      else if m = 2599973622800645 ∧ e = -51 then F64.fin 7144551551327027 (-51)
      else if m = 81249196054953 ∧ e = -46 then F64.fin 7144553616698277 (-51)
      else F64.nan
  Log := fun x =>
    match x with
    | F64.nan => F64.nan
    | F64.inf a => if a then F64.nan else F64.inf false
    | F64.fin m e =>
      if m < 0 then F64.nan
      else if m = 0 then F64.inf true
      else if m = 1 ∧ e = 0 then F64.fin 0 0
      else if m = 1 ∧ e = -1 then F64.fin (-6243314768165359) (-53)
      else if m = 6848658261992029 ∧ e = -53 then F64.fin (-2467715132573291) (-53)
      else if m = 1712164684112865 ∧ e = -51 then F64.fin (-4935429017150165) (-54)
      else F64.nan
  Log10 := fun x =>
    match x with
    | F64.nan => F64.nan
    | F64.inf a => if a then F64.nan else F64.inf false
    | F64.fin m e =>
      if m < 0 then F64.nan
      else if m = 0 then F64.inf true
      else if m = 1 ∧ e = 0 then F64.fin 0 0
      else F64.nan

end Float64

/-! ## The interval window -/

/-- A successful `DropOldestInterval` leaves exactly one interval fewer. -/
theorem DropOldestInterval_length {hh hh1 : HeartbeatHistory}
    (h : DropOldestInterval hh = some hh1) :
    hh1.Intervals.length + 1 = hh.Intervals.length := by
  unfold DropOldestInterval at h
  split at h
  · cases h
  · next x rest hxs =>
    cases h
    simp [hxs]


theorem AddInterval_of_lt (hh : HeartbeatHistory) (x : ℝ)
    (h : (hh.Intervals.length : Int) < hh.MaxSamples) :
    AddInterval hh x = some { hh with
      Intervals := hh.Intervals ++ [x]
      intervalSum := hh.intervalSum + x
      squaredIntervalSum := hh.squaredIntervalSum + (x * x) } := by
  rw [AddInterval]
  simp [h]

theorem AddInterval_of_not_lt (hh : HeartbeatHistory) (x : ℝ)
    (h : ¬ (hh.Intervals.length : Int) < hh.MaxSamples) :
    AddInterval hh x = (DropOldestInterval hh).bind (fun hh1 => AddInterval hh1 x) := by
  rw [AddInterval]
  simp only [h, if_false]
  split <;> simp_all

theorem SumInv_append {hh : HeartbeatHistory} (x : ℝ) (h : SumInv hh) :
    SumInv { hh with
      Intervals := hh.Intervals ++ [x]
      intervalSum := hh.intervalSum + x
      squaredIntervalSum := hh.squaredIntervalSum + (x * x) } := by
  obtain ⟨h1, h2⟩ := h
  constructor
  · simp [h1]
  · simp [h2]

theorem DropOldestInterval_SumInv {hh hh1 : HeartbeatHistory}
    (h : DropOldestInterval hh = some hh1) (hinv : SumInv hh) : SumInv hh1 := by
  unfold DropOldestInterval at h
  split at h
  · cases h
  · next a rest hxs =>
    cases h
    obtain ⟨h1, h2⟩ := hinv
    constructor
    · simp [h1, hxs]
    · simp [h2, hxs]

/-- The full effect of `AddInterval` on a window of positive capacity: it returns, keeps the
capacity, retains the newest `MaxSamples - 1` old intervals followed by the new one, and
preserves the running-sum invariant. -/
theorem AddInterval_spec (n : Nat) : ∀ (hh : HeartbeatHistory) (x : ℝ),
    hh.Intervals.length = n → 0 < hh.MaxSamples →
    ∃ hh1, AddInterval hh x = some hh1 ∧ hh1.MaxSamples = hh.MaxSamples ∧
      hh1.Intervals =
        hh.Intervals.drop (hh.Intervals.length + 1 - hh.MaxSamples.toNat) ++ [x] ∧
      (SumInv hh → SumInv hh1) := by
  induction n with
  | zero =>
    intro hh x hlen hpos
    have hlt : (hh.Intervals.length : Int) < hh.MaxSamples := by rw [hlen]; simpa using hpos
    refine ⟨_, AddInterval_of_lt hh x hlt, rfl, ?_, fun h => SumInv_append x h⟩
    have : hh.Intervals.length + 1 - hh.MaxSamples.toNat = 0 := by omega
    simp [this]
  | succ k ih =>
    intro hh x hlen hpos
    by_cases hlt : (hh.Intervals.length : Int) < hh.MaxSamples
    · refine ⟨_, AddInterval_of_lt hh x hlt, rfl, ?_, fun h => SumInv_append x h⟩
      have : hh.Intervals.length + 1 - hh.MaxSamples.toNat = 0 := by omega
      simp [this]
    · rw [AddInterval_of_not_lt hh x hlt]
      cases hxs : hh.Intervals with
      | nil => rw [hxs] at hlen; simp at hlen
      | cons a rest =>
        have hdrop : DropOldestInterval hh = some { hh with
            Intervals := rest
            intervalSum := hh.intervalSum - a
            squaredIntervalSum := hh.squaredIntervalSum - (a * a) } := by
          unfold DropOldestInterval
          split
          · next h0 => rw [hxs] at h0; cases h0
          · next b r h0 => rw [hxs] at h0; cases h0; rfl
        have hrest : rest.length = k := by rw [hxs] at hlen; simpa using hlen
        obtain ⟨hh1, h1, h2, h3, h4⟩ := ih { hh with
            Intervals := rest
            intervalSum := hh.intervalSum - a
            squaredIntervalSum := hh.squaredIntervalSum - (a * a) } x hrest hpos
        refine ⟨hh1, ?_, h2, ?_, fun h => h4 (DropOldestInterval_SumInv hdrop h)⟩
        · rw [hdrop]; exact h1
        · rw [h3]
          have hlen2 : hh.Intervals.length = rest.length + 1 := by rw [hxs]; simp
          have : (rest.length + 1) + 1 - hh.MaxSamples.toNat
              = (rest.length + 1 - hh.MaxSamples.toNat) + 1 := by omega
          simp only [List.length_cons, this, List.drop_succ_cons]

/-- The effect of a run of `AddInterval` calls on a window of positive capacity that does not
exceed its capacity: every call returns and the window ends with the newest `MaxSamples`
values of the old intervals followed by the inserted ones. -/
theorem addIntervals_spec : ∀ (xs : List ℝ) (hh : HeartbeatHistory),
    0 < hh.MaxSamples → hh.Intervals.length ≤ hh.MaxSamples.toNat →
    ∃ hh1, addIntervals hh xs = some hh1 ∧ hh1.MaxSamples = hh.MaxSamples ∧
      hh1.Intervals =
        (hh.Intervals ++ xs).drop ((hh.Intervals ++ xs).length - hh.MaxSamples.toNat) ∧
      hh1.Intervals.length ≤ hh.MaxSamples.toNat ∧
      (SumInv hh → SumInv hh1) := by
  intro xs
  induction xs with
  | nil =>
    intro hh _ hle
    refine ⟨hh, rfl, rfl, ?_, hle, id⟩
    have : hh.Intervals.length - hh.MaxSamples.toNat = 0 := by omega
    simp [this]
  | cons x xs ih =>
    intro hh hpos hle
    obtain ⟨w, hw, hwM, hwI, hwS⟩ := AddInterval_spec _ hh x rfl hpos
    have hwlen : w.Intervals.length ≤ w.MaxSamples.toNat := by
      rw [hwI, hwM]
      simp only [List.length_append, List.length_drop, List.length_singleton]
      omega
    obtain ⟨hh1, h1, h1M, h1I, h1L, h1S⟩ := ih w (hwM ▸ hpos) hwlen
    refine ⟨hh1, ?_, h1M.trans hwM, ?_, hwM ▸ h1L, fun h => h1S (hwS h)⟩
    · simp only [addIntervals, hw]
      exact h1
    · rw [h1I, hwM, hwI]
      have hd : hh.Intervals.length + 1 - hh.MaxSamples.toNat ≤ hh.Intervals.length := by omega
      rw [show hh.Intervals ++ x :: xs = hh.Intervals ++ [x] ++ xs by simp]
      rw [← List.drop_append_of_le_length hd]
      rw [← List.drop_append_of_le_length
        (show hh.Intervals.length + 1 - hh.MaxSamples.toNat ≤ (hh.Intervals ++ [x]).length by
          simp)]
      rw [List.drop_drop]
      congr 1
      simp only [List.length_append, List.length_drop, List.length_singleton]
      omega

theorem DropOldestInterval_MaxSamples {hh hh1 : HeartbeatHistory}
    (h : DropOldestInterval hh = some hh1) : hh1.MaxSamples = hh.MaxSamples := by
  unfold DropOldestInterval at h
  split at h
  · cases h
  · cases h; rfl

theorem runOps_inv : ∀ (ops : List WindowOp) (hh hh1 : HeartbeatHistory),
    0 < hh.MaxSamples → SumInv hh → runOps hh ops = some hh1 →
    0 < hh1.MaxSamples ∧ SumInv hh1 := by
  intro ops
  induction ops with
  | nil =>
    intro hh hh1 hpos hinv hrun
    cases hrun
    exact ⟨hpos, hinv⟩
  | cons op ops ih =>
    intro hh hh1 hpos hinv hrun
    cases op with
    | add x =>
      obtain ⟨w, hw, hwM, _, hwS⟩ := AddInterval_spec _ hh x rfl hpos
      simp only [runOps, hw] at hrun
      exact ih w hh1 (hwM ▸ hpos) (hwS hinv) hrun
    | dropOldest =>
      cases hd : DropOldestInterval hh with
      | none => simp [runOps, hd] at hrun
      | some w =>
        simp only [runOps, hd] at hrun
        exact ih w hh1 (DropOldestInterval_MaxSamples hd ▸ hpos)
          (DropOldestInterval_SumInv hd hinv) hrun

theorem NewHeartbeatHistory_ok {maxSamples : Int} {hh0 : HeartbeatHistory}
    (h : NewHeartbeatHistory maxSamples = Except.ok hh0) :
    0 < maxSamples ∧
      hh0 = { MaxSamples := maxSamples, Intervals := [], intervalSum := 0,
              squaredIntervalSum := 0 } := by
  unfold NewHeartbeatHistory at h
  split at h
  · cases h
  · next hle =>
    cases h
    exact ⟨by omega, rfl⟩

theorem NewHeartbeatHistory_of_pos {maxSamples : Int} (h : 0 < maxSamples) :
    NewHeartbeatHistory maxSamples =
      Except.ok { MaxSamples := maxSamples, Intervals := [], intervalSum := 0,
                  squaredIntervalSum := 0 } := by
  unfold NewHeartbeatHistory
  rw [if_neg (by omega)]

theorem sum_sq_dev (m : ℝ) : ∀ xs : List ℝ,
    (xs.map (fun x => (x - m) ^ 2)).sum =
      (xs.map (fun x => x * x)).sum - 2 * m * xs.sum + (xs.length : ℝ) * m ^ 2 := by
  intro xs
  induction xs with
  | nil => simp
  | cons a xs ih =>
    simp only [List.map_cons, List.sum_cons, List.length_cons, ih]
    push_cast
    ring

/-- On a window that satisfies the running-sum invariant and holds at least one interval,
`Variance` is the population variance of the retained intervals. -/
theorem Variance_eq_of_SumInv {hh : HeartbeatHistory} (hinv : SumInv hh)
    (hn : 1 ≤ hh.Intervals.length) :
    Variance hh =
      (1 / (hh.Intervals.length : ℝ)) *
        (hh.Intervals.map (fun x => (x - Mean hh) ^ 2)).sum := by
  obtain ⟨h1, h2⟩ := hinv
  have hn0 : (hh.Intervals.length : ℝ) ≠ 0 := by
    have : (0 : ℝ) < (hh.Intervals.length : ℝ) := by exact_mod_cast hn
    exact ne_of_gt this
  rw [sum_sq_dev]
  have hS : hh.Intervals.sum = (hh.Intervals.length : ℝ) * Mean hh := by
    unfold Mean
    rw [h1]
    field_simp
  rw [hS, ← h2]
  unfold Variance
  field_simp
  ring

/-! ## Claims about the interval window -/

/-- C5: for every capacity `C ≥ 1` and every sequence of `N ≥ 1` values passed one by one to
`AddInterval` on the window of `NewHeartbeatHistory(C)`, every call returns, the final
`Intervals` has length `min N C` and is the last `min N C` inserted values in insertion
order, and a call made after any number of the insertions evicts at most one element: its
result is the old intervals, or the old intervals without the oldest, followed by the new
value. -/
theorem C5_window_keeps_last_inserted (C : Int) (hC : 1 ≤ C) (xs : List ℝ)
    (hN : 1 ≤ xs.length) :
    ∃ hh0 hh, NewHeartbeatHistory C = Except.ok hh0 ∧ addIntervals hh0 xs = some hh ∧
      hh.Intervals.length = min xs.length C.toNat ∧
      hh.Intervals = xs.drop (xs.length - min xs.length C.toNat) ∧
      ∀ (k : Nat) (x : ℝ), ∃ w w1, addIntervals hh0 (xs.take k) = some w ∧
        AddInterval w x = some w1 ∧
        (w1.Intervals = w.Intervals ++ [x] ∨ w1.Intervals = w.Intervals.tail ++ [x]) := by
  have hpos : 0 < C := by omega
  obtain ⟨hh, h1, _, h3, _, _⟩ := addIntervals_spec xs
    { MaxSamples := C, Intervals := [], intervalSum := 0, squaredIntervalSum := 0 }
    hpos (by simp)
  simp only [List.nil_append] at h3
  refine ⟨_, hh, NewHeartbeatHistory_of_pos hpos, h1, ?_, ?_, ?_⟩
  · rw [h3, List.length_drop]
    omega
  · rw [h3]
    congr 1
    omega
  · intro k x
    obtain ⟨w, hw1, hwM, _, hwL, _⟩ := addIntervals_spec (xs.take k)
      { MaxSamples := C, Intervals := [], intervalSum := 0, squaredIntervalSum := 0 }
      hpos (by simp)
    simp only at hwM hwL
    obtain ⟨w1, hw2, _, hw3, _⟩ := AddInterval_spec _ w x rfl (hwM ▸ hpos)
    refine ⟨w, w1, hw1, hw2, ?_⟩
    rw [hw3, hwM]
    by_cases hfull : w.Intervals.length + 1 ≤ C.toNat
    · left
      have : w.Intervals.length + 1 - C.toNat = 0 := by omega
      simp [this]
    · right
      have : w.Intervals.length + 1 - C.toNat = 1 := by omega
      simp [this]

/-- C5, checked on the windows of the tests: capacity 3 fed 1, 2, 3 retains `[1, 2, 3]`, and
fed 1, 2, 3, 4 retains `[2, 3, 4]`. -/
theorem C5_window_keeps_last_inserted_witness :
    (1 ≤ (3 : Int) ∧ 1 ≤ ([1, 2, 3] : List ℝ).length ∧
      ∃ hh0 hh, NewHeartbeatHistory 3 = Except.ok hh0 ∧
        addIntervals hh0 [1, 2, 3] = some hh ∧ hh.Intervals = [1, 2, 3]) ∧
    (1 ≤ (3 : Int) ∧ 1 ≤ ([1, 2, 3, 4] : List ℝ).length ∧
      ∃ hh0 hh, NewHeartbeatHistory 3 = Except.ok hh0 ∧
        addIntervals hh0 [1, 2, 3, 4] = some hh ∧ hh.Intervals = [2, 3, 4]) := by
  refine ⟨⟨by decide, by simp, ?_⟩, ⟨by decide, by simp, ?_⟩⟩
  · obtain ⟨hh0, hh, h0, h1, _, h3, _⟩ :=
      C5_window_keeps_last_inserted 3 (by decide) [1, 2, 3] (by simp)
    exact ⟨hh0, hh, h0, h1, by simpa using h3⟩
  · obtain ⟨hh0, hh, h0, h1, _, h3, _⟩ :=
      C5_window_keeps_last_inserted 3 (by decide) [1, 2, 3, 4] (by simp)
    exact ⟨hh0, hh, h0, h1, by simpa using h3⟩

/-- C6: every window created by `NewHeartbeatHistory` and changed only by `AddInterval` and
`DropOldestInterval` (which returns only on a non-empty window) has, after every operation,
`intervalSum` equal to the sum of the retained intervals and `squaredIntervalSum` equal to
the sum of their squares; on such a window `AddInterval` always returns, and
`DropOldestInterval` returns whenever the window is not empty. -/
theorem C6_running_sums_invariant (maxSamples : Int) (hh0 : HeartbeatHistory)
    (h0 : NewHeartbeatHistory maxSamples = Except.ok hh0) (ops : List WindowOp)
    (hh : HeartbeatHistory) (hrun : runOps hh0 ops = some hh) :
    hh.intervalSum = hh.Intervals.sum ∧
      hh.squaredIntervalSum = (hh.Intervals.map (fun x => x * x)).sum ∧
      (∀ x, ∃ hh1, AddInterval hh x = some hh1 ∧ SumInv hh1) ∧
      (hh.Intervals ≠ [] → ∃ hh1, DropOldestInterval hh = some hh1 ∧ SumInv hh1) := by
  obtain ⟨hpos, rfl⟩ := NewHeartbeatHistory_ok h0
  have hinv0 : SumInv
      { MaxSamples := maxSamples, Intervals := [], intervalSum := 0, squaredIntervalSum := 0 } :=
    ⟨by simp, by simp⟩
  obtain ⟨hM, hS⟩ := runOps_inv ops _ hh hpos hinv0 hrun
  refine ⟨hS.1, hS.2, ?_, ?_⟩
  · intro x
    obtain ⟨hh1, h1, _, _, h4⟩ := AddInterval_spec _ hh x rfl hM
    exact ⟨hh1, h1, h4 hS⟩
  · intro hne
    cases hxs : hh.Intervals with
    | nil => exact absurd hxs hne
    | cons a rest =>
      have hd : DropOldestInterval hh = some { hh with
          Intervals := rest
          intervalSum := hh.intervalSum - a
          squaredIntervalSum := hh.squaredIntervalSum - (a * a) } := by
        unfold DropOldestInterval
        split
        · next h1 => rw [hxs] at h1; cases h1
        · next b r h1 => rw [hxs] at h1; cases h1; rfl
      exact ⟨_, hd, DropOldestInterval_SumInv hd hS⟩

/-- C6, checked on capacity 3 after adding 1, 2, 3, 4 and dropping the oldest: the window
retains `[3, 4]` with sums 7 and 25. -/
theorem C6_running_sums_invariant_witness :
    NewHeartbeatHistory 3 = Except.ok
        { MaxSamples := 3, Intervals := [], intervalSum := 0, squaredIntervalSum := 0 } ∧
      runOps { MaxSamples := 3, Intervals := [], intervalSum := 0, squaredIntervalSum := 0 }
          [WindowOp.add 1, WindowOp.add 2, WindowOp.add 3, WindowOp.add 4,
            WindowOp.dropOldest] =
        some { MaxSamples := 3, Intervals := [3, 4], intervalSum := 7,
               squaredIntervalSum := 25 } ∧
      (7 : ℝ) = ([3, 4] : List ℝ).sum ∧
      (25 : ℝ) = (([3, 4] : List ℝ).map (fun x => x * x)).sum := by
  have h0 : NewHeartbeatHistory 3 = Except.ok
      { MaxSamples := 3, Intervals := [], intervalSum := 0, squaredIntervalSum := 0 } := rfl
  have hrun : runOps
      { MaxSamples := 3, Intervals := [], intervalSum := 0, squaredIntervalSum := 0 }
      [WindowOp.add 1, WindowOp.add 2, WindowOp.add 3, WindowOp.add 4, WindowOp.dropOldest] =
      some { MaxSamples := 3, Intervals := [3, 4], intervalSum := 7,
             squaredIntervalSum := 25 } := by
    simp [runOps, AddInterval, DropOldestInterval]
    norm_num
  have h := C6_running_sums_invariant 3 _ h0 _ _ hrun
  exact ⟨h0, hrun, h.1, h.2.1⟩

theorem addIntervals_SumInv_of_new {maxSamples : Int} {hh0 hh : HeartbeatHistory}
    (h0 : NewHeartbeatHistory maxSamples = Except.ok hh0) {xs : List ℝ}
    (hrun : addIntervals hh0 xs = some hh) : 0 < hh.MaxSamples ∧ SumInv hh := by
  obtain ⟨hpos, rfl⟩ := NewHeartbeatHistory_ok h0
  obtain ⟨hh1, h1, h1M, _, _, h1S⟩ := addIntervals_spec xs
    { MaxSamples := maxSamples, Intervals := [], intervalSum := 0, squaredIntervalSum := 0 }
    hpos (by simp)
  rw [hrun] at h1
  cases h1
  exact ⟨h1M ▸ hpos, h1S ⟨by simp, by simp⟩⟩

/-- C7: on every window built by `NewHeartbeatHistory` and `AddInterval` that holds `n ≥ 1`
intervals, `Mean()` is their sum divided by `n`, `Variance()` is their population variance
`(1/n)·Σ (x_i − Mean())²` and so is `≥ 0`, and `StdDev()` is the square root of that
variance; when the window holds exactly 1, 2, 3 the mean is 2, the variance is 2/3 and the
standard deviation is `sqrt(2/3)`, which lies between 0.8164 and 0.8166. -/
theorem C7_mean_variance_stddev (maxSamples : Int) (hh0 : HeartbeatHistory)
    (h0 : NewHeartbeatHistory maxSamples = Except.ok hh0) (xs : List ℝ)
    (hh : HeartbeatHistory) (hrun : addIntervals hh0 xs = some hh)
    (hn : 1 ≤ hh.Intervals.length) :
    Mean hh = hh.Intervals.sum / (hh.Intervals.length : ℝ) ∧
      Variance hh =
        (1 / (hh.Intervals.length : ℝ)) *
          (hh.Intervals.map (fun x => (x - Mean hh) ^ 2)).sum ∧
      0 ≤ Variance hh ∧
      StdDev hh =
        Real.sqrt ((1 / (hh.Intervals.length : ℝ)) *
          (hh.Intervals.map (fun x => (x - Mean hh) ^ 2)).sum) ∧
      (hh.Intervals = [1, 2, 3] →
        Mean hh = 2 ∧ Variance hh = 2 / 3 ∧ StdDev hh = Real.sqrt (2 / 3) ∧
          0.8164 < StdDev hh ∧ StdDev hh < 0.8166) := by
  obtain ⟨_, hinv⟩ := addIntervals_SumInv_of_new h0 hrun
  have hvar := Variance_eq_of_SumInv hinv hn
  have hmean : Mean hh = hh.Intervals.sum / (hh.Intervals.length : ℝ) := by
    unfold Mean
    rw [hinv.1]
  have hnonneg : 0 ≤ Variance hh := by
    rw [hvar]
    apply mul_nonneg
    · positivity
    · apply List.sum_nonneg
      intro y hy
      obtain ⟨x, _, rfl⟩ := List.mem_map.mp hy
      positivity
  refine ⟨hmean, hvar, hnonneg, ?_, ?_⟩
  · unfold StdDev
    rw [hvar]
  · intro h123
    have hm : Mean hh = 2 := by
      rw [hmean, h123]
      norm_num
    have hv : Variance hh = 2 / 3 := by
      rw [hvar, hm, h123]
      norm_num
    have hs : StdDev hh = Real.sqrt (2 / 3) := by
      unfold StdDev
      rw [hv]
    refine ⟨hm, hv, hs, ?_, ?_⟩
    · rw [hs]
      apply Real.lt_sqrt_of_sq_lt
      norm_num
    · rw [hs]
      rw [Real.sqrt_lt' (by norm_num)]
      norm_num

/-- C7, checked on the window of the tests: capacity 3 fed 1, 2, 3. -/
theorem C7_mean_variance_stddev_witness :
    NewHeartbeatHistory 3 = Except.ok
        { MaxSamples := 3, Intervals := [], intervalSum := 0, squaredIntervalSum := 0 } ∧
      addIntervals
          { MaxSamples := 3, Intervals := [], intervalSum := 0, squaredIntervalSum := 0 }
          [1, 2, 3] =
        some { MaxSamples := 3, Intervals := [1, 2, 3], intervalSum := 6,
               squaredIntervalSum := 14 } ∧
      Mean { MaxSamples := 3, Intervals := [1, 2, 3], intervalSum := 6,
             squaredIntervalSum := 14 } = 2 ∧
      Variance { MaxSamples := 3, Intervals := [1, 2, 3], intervalSum := 6,
                 squaredIntervalSum := 14 } = 2 / 3 ∧
      StdDev { MaxSamples := 3, Intervals := [1, 2, 3], intervalSum := 6,
               squaredIntervalSum := 14 } = Real.sqrt (2 / 3) := by
  have h0 : NewHeartbeatHistory 3 = Except.ok
      { MaxSamples := 3, Intervals := [], intervalSum := 0, squaredIntervalSum := 0 } := rfl
  have hrun : addIntervals
      { MaxSamples := 3, Intervals := [], intervalSum := 0, squaredIntervalSum := 0 }
      [1, 2, 3] =
      some { MaxSamples := 3, Intervals := [1, 2, 3], intervalSum := 6,
             squaredIntervalSum := 14 } := by
    simp [addIntervals, AddInterval]
    norm_num
  have h := C7_mean_variance_stddev 3 _ h0 [1, 2, 3] _ hrun (by simp)
  obtain ⟨hm, hv, hs, _, _⟩ := h.2.2.2.2 rfl
  exact ⟨h0, hrun, hm, hv, hs⟩

/-! ## Bootstrap and construction -/

theorem firstHeartbeat_of_nonpos (E M : Int) (h : M ≤ 0) :
    firstHeartbeat E M = some (Except.error "sample capacity must be > 0") := by
  simp [firstHeartbeat, NewHeartbeatHistory, h]

/-- With room for two samples the bootstrap window holds the estimate minus and plus its
integer quarter. -/
theorem firstHeartbeat_of_two_le (E M : Int) (h : 2 ≤ M) :
    firstHeartbeat E M = some (Except.ok
      { MaxSamples := M
        Intervals := [(E : ℝ) - (Int.tdiv E 4 : ℝ), (E : ℝ) + (Int.tdiv E 4 : ℝ)]
        intervalSum := 0 + ((E : ℝ) - (Int.tdiv E 4 : ℝ)) + ((E : ℝ) + (Int.tdiv E 4 : ℝ))
        squaredIntervalSum :=
          0 + ((E : ℝ) - (Int.tdiv E 4 : ℝ)) * ((E : ℝ) - (Int.tdiv E 4 : ℝ)) +
            ((E : ℝ) + (Int.tdiv E 4 : ℝ)) * ((E : ℝ) + (Int.tdiv E 4 : ℝ)) }) := by
  have h1 : ¬ M ≤ 0 := by omega
  have h2 : (0 : Int) < M := by omega
  have h3 : (1 : Int) < M := by omega
  simp [firstHeartbeat, NewHeartbeatHistory, h1, AddInterval, h2, h3]

/-- With capacity one the second bootstrap sample evicts the first. -/
theorem firstHeartbeat_of_one (E : Int) :
    firstHeartbeat E 1 = some (Except.ok
      { MaxSamples := 1
        Intervals := [(E : ℝ) + (Int.tdiv E 4 : ℝ)]
        intervalSum :=
          0 + ((E : ℝ) - (Int.tdiv E 4 : ℝ)) - ((E : ℝ) - (Int.tdiv E 4 : ℝ)) +
            ((E : ℝ) + (Int.tdiv E 4 : ℝ))
        squaredIntervalSum :=
          0 + ((E : ℝ) - (Int.tdiv E 4 : ℝ)) * ((E : ℝ) - (Int.tdiv E 4 : ℝ)) -
              ((E : ℝ) - (Int.tdiv E 4 : ℝ)) * ((E : ℝ) - (Int.tdiv E 4 : ℝ)) +
            ((E : ℝ) + (Int.tdiv E 4 : ℝ)) * ((E : ℝ) + (Int.tdiv E 4 : ℝ)) }) := by
  simp [firstHeartbeat, NewHeartbeatHistory, AddInterval, DropOldestInterval]

/-- The bootstrap never panics: it returns an error for a capacity `≤ 0` and otherwise a
window of that capacity holding one or two intervals, with consistent running sums. -/
theorem firstHeartbeat_total (E M : Int) :
    (M ≤ 0 ∧ firstHeartbeat E M = some (Except.error "sample capacity must be > 0")) ∨
      (0 < M ∧ ∃ w, firstHeartbeat E M = some (Except.ok w) ∧ w.MaxSamples = M ∧
        1 ≤ w.Intervals.length ∧ (w.Intervals.length : Int) ≤ M ∧ SumInv w) := by
  by_cases h : M ≤ 0
  · exact Or.inl ⟨h, firstHeartbeat_of_nonpos E M h⟩
  · right
    refine ⟨by omega, ?_⟩
    by_cases h2 : 2 ≤ M
    · refine ⟨_, firstHeartbeat_of_two_le E M h2, rfl, by simp, by simpa using h2, ?_⟩
      constructor <;> simp
    · have h1 : M = 1 := by omega
      subst h1
      refine ⟨_, firstHeartbeat_of_one E, rfl, by simp, by simp, ?_⟩
      constructor <;> simp

/-- On valid parameters the constructor returns a detector carrying those parameters, the
bootstrap window and `LatestTimestamp = 0`. -/
theorem NewFailureDetector_of_valid (threshold : ℝ)
    (maxSamples minStdDev acceptableHeartbeatPause firstHeartbeatEstimate : Int)
    (h1 : 0 < threshold) (h2 : 0 < maxSamples) (h3 : 0 < minStdDev)
    (h4 : 0 ≤ acceptableHeartbeatPause) (h5 : 0 < firstHeartbeatEstimate) :
    ∃ w, firstHeartbeat firstHeartbeatEstimate maxSamples = some (Except.ok w) ∧
      NewFailureDetector threshold maxSamples minStdDev acceptableHeartbeatPause
          firstHeartbeatEstimate =
        some (Except.ok
          { Threshold := threshold
            MaxSamples := maxSamples
            MinStdDevMilliseconds := minStdDev
            AcceptableHeartbeatPauseMilliseconds := acceptableHeartbeatPause
            FirstHeartbeatEstimateMilliseconds := firstHeartbeatEstimate
            state := { History := some w, LatestTimestamp := 0 } }) := by
  rcases firstHeartbeat_total firstHeartbeatEstimate maxSamples with ⟨hle, _⟩ | ⟨_, w, hw, _⟩
  · omega
  · refine ⟨w, hw, ?_⟩
    unfold NewFailureDetector
    rw [if_neg (not_le.mpr h1), if_neg (by omega), if_neg (by omega), if_neg (by omega),
      if_neg (by omega), hw]

/-- C4: `NewFailureDetector` returns an error exactly when `threshold ≤ 0` or
`maxSamples ≤ 0` or `minStdDev ≤ 0` or `acceptableHeartbeatPause < 0` or
`firstHeartbeatEstimate ≤ 0` (a pause of 0 is accepted); the error is the one naming the
first violated parameter in that order; every other input yields a detector and no error. -/
theorem C4_constructor_validation (threshold : ℝ)
    (maxSamples minStdDev acceptableHeartbeatPause firstHeartbeatEstimate : Int) :
    ((∃ err, NewFailureDetector threshold maxSamples minStdDev acceptableHeartbeatPause
          firstHeartbeatEstimate = some (Except.error err)) ↔
        (threshold ≤ 0 ∨ maxSamples ≤ 0 ∨ minStdDev ≤ 0 ∨ acceptableHeartbeatPause < 0 ∨
          firstHeartbeatEstimate ≤ 0)) ∧
      (threshold ≤ 0 →
        NewFailureDetector threshold maxSamples minStdDev acceptableHeartbeatPause
          firstHeartbeatEstimate = some (Except.error "threshold must be > 0")) ∧
      (0 < threshold → maxSamples ≤ 0 →
        NewFailureDetector threshold maxSamples minStdDev acceptableHeartbeatPause
          firstHeartbeatEstimate = some (Except.error "maxSamples must be > 0")) ∧
      (0 < threshold → 0 < maxSamples → minStdDev ≤ 0 →
        NewFailureDetector threshold maxSamples minStdDev acceptableHeartbeatPause
          firstHeartbeatEstimate = some (Except.error "minStdDev must be > 0")) ∧
      (0 < threshold → 0 < maxSamples → 0 < minStdDev → acceptableHeartbeatPause < 0 →
        NewFailureDetector threshold maxSamples minStdDev acceptableHeartbeatPause
          firstHeartbeatEstimate =
            some (Except.error "acceptableHeartbeatPause must be > 0")) ∧
      (0 < threshold → 0 < maxSamples → 0 < minStdDev → 0 ≤ acceptableHeartbeatPause →
        firstHeartbeatEstimate ≤ 0 →
        NewFailureDetector threshold maxSamples minStdDev acceptableHeartbeatPause
          firstHeartbeatEstimate =
            some (Except.error "firstHeartbeatEstimate must be > 0")) ∧
      (0 < threshold → 0 < maxSamples → 0 < minStdDev → 0 ≤ acceptableHeartbeatPause →
        0 < firstHeartbeatEstimate →
        ∃ fd, NewFailureDetector threshold maxSamples minStdDev acceptableHeartbeatPause
          firstHeartbeatEstimate = some (Except.ok fd)) := by
  have e1 : threshold ≤ 0 →
      NewFailureDetector threshold maxSamples minStdDev acceptableHeartbeatPause
        firstHeartbeatEstimate = some (Except.error "threshold must be > 0") := by
    intro h
    unfold NewFailureDetector
    rw [if_pos h]
  have e2 : 0 < threshold → maxSamples ≤ 0 →
      NewFailureDetector threshold maxSamples minStdDev acceptableHeartbeatPause
        firstHeartbeatEstimate = some (Except.error "maxSamples must be > 0") := by
    intro h1 h
    unfold NewFailureDetector
    rw [if_neg (not_le.mpr h1), if_pos h]
  have e3 : 0 < threshold → 0 < maxSamples → minStdDev ≤ 0 →
      NewFailureDetector threshold maxSamples minStdDev acceptableHeartbeatPause
        firstHeartbeatEstimate = some (Except.error "minStdDev must be > 0") := by
    intro h1 h2 h
    unfold NewFailureDetector
    rw [if_neg (not_le.mpr h1), if_neg (by omega), if_pos h]
  have e4 : 0 < threshold → 0 < maxSamples → 0 < minStdDev → acceptableHeartbeatPause < 0 →
      NewFailureDetector threshold maxSamples minStdDev acceptableHeartbeatPause
        firstHeartbeatEstimate =
          some (Except.error "acceptableHeartbeatPause must be > 0") := by
    intro h1 h2 h3 h
    unfold NewFailureDetector
    rw [if_neg (not_le.mpr h1), if_neg (by omega), if_neg (by omega), if_pos h]
  have e5 : 0 < threshold → 0 < maxSamples → 0 < minStdDev → 0 ≤ acceptableHeartbeatPause →
      firstHeartbeatEstimate ≤ 0 →
      NewFailureDetector threshold maxSamples minStdDev acceptableHeartbeatPause
        firstHeartbeatEstimate =
          some (Except.error "firstHeartbeatEstimate must be > 0") := by
    intro h1 h2 h3 h4 h
    unfold NewFailureDetector
    rw [if_neg (not_le.mpr h1), if_neg (by omega), if_neg (by omega), if_neg (by omega),
      if_pos h]
  have e6 : 0 < threshold → 0 < maxSamples → 0 < minStdDev → 0 ≤ acceptableHeartbeatPause →
      0 < firstHeartbeatEstimate →
      ∃ fd, NewFailureDetector threshold maxSamples minStdDev acceptableHeartbeatPause
        firstHeartbeatEstimate = some (Except.ok fd) := by
    intro h1 h2 h3 h4 h5
    obtain ⟨w, _, hw⟩ := NewFailureDetector_of_valid threshold maxSamples minStdDev
      acceptableHeartbeatPause firstHeartbeatEstimate h1 h2 h3 h4 h5
    exact ⟨_, hw⟩
  refine ⟨⟨?_, ?_⟩, e1, e2, e3, e4, e5, e6⟩
  · rintro ⟨err, herr⟩
    by_contra hcon
    push_neg at hcon
    obtain ⟨c1, c2, c3, c4, c5⟩ := hcon
    obtain ⟨fd, hfd⟩ := e6 c1 c2 c3 c4 c5
    rw [hfd] at herr
    cases herr
  · intro h
    by_cases c1 : threshold ≤ 0
    · exact ⟨_, e1 c1⟩
    by_cases c2 : maxSamples ≤ 0
    · exact ⟨_, e2 (not_le.mp c1) c2⟩
    by_cases c3 : minStdDev ≤ 0
    · exact ⟨_, e3 (not_le.mp c1) (by omega) c3⟩
    by_cases c4 : acceptableHeartbeatPause < 0
    · exact ⟨_, e4 (not_le.mp c1) (by omega) (by omega) c4⟩
    by_cases c5 : firstHeartbeatEstimate ≤ 0
    · exact ⟨_, e5 (not_le.mp c1) (by omega) (by omega) (by omega) c5⟩
    · rcases h with h | h | h | h | h
      · exact absurd h c1
      · exact absurd h c2
      · exact absurd h c3
      · exact absurd h c4
      · exact absurd h c5

/-- C4, checked on the configuration of the tests (accepted, with a pause of 0) and on a
threshold of 0 (rejected with the threshold error although `maxSamples` is invalid too). -/
theorem C4_constructor_validation_witness :
    (∃ fd, NewFailureDetector 8 200 500 0 500 = some (Except.ok fd)) ∧
      NewFailureDetector 0 0 500 0 500 = some (Except.error "threshold must be > 0") :=
  ⟨(C4_constructor_validation 8 200 500 0 500).2.2.2.2.2.2 (by norm_num) (by decide)
      (by decide) (by decide) (by decide),
    (C4_constructor_validation 0 0 500 0 500).2.1 (le_refl 0)⟩

/-- For a valid configuration with room for two samples the constructor returns a detector
with `LatestTimestamp = 0` and a window of capacity `maxSamples` holding exactly the estimate
minus and plus its integer quarter. -/
theorem NewFailureDetector_bootstrap_of_two_le (threshold : ℝ)
    (maxSamples minStdDev acceptableHeartbeatPause firstHeartbeatEstimate : Int)
    (h1 : 0 < threshold) (h2 : 2 ≤ maxSamples) (h3 : 0 < minStdDev)
    (h4 : 0 ≤ acceptableHeartbeatPause) (h5 : 0 < firstHeartbeatEstimate) :
    ∃ fd w, NewFailureDetector threshold maxSamples minStdDev acceptableHeartbeatPause
        firstHeartbeatEstimate = some (Except.ok fd) ∧
      fd.state.LatestTimestamp = 0 ∧ fd.state.History = some w ∧
      w.MaxSamples = maxSamples ∧
      w.Intervals =
        [(firstHeartbeatEstimate : ℝ) - (Int.tdiv firstHeartbeatEstimate 4 : ℝ),
          (firstHeartbeatEstimate : ℝ) + (Int.tdiv firstHeartbeatEstimate 4 : ℝ)] := by
  obtain ⟨w, hw, hfd⟩ := NewFailureDetector_of_valid threshold maxSamples minStdDev
    acceptableHeartbeatPause firstHeartbeatEstimate h1 (by omega) h3 h4 h5
  rw [firstHeartbeat_of_two_le _ _ h2] at hw
  cases hw
  exact ⟨_, _, hfd, rfl, rfl, rfl, rfl⟩

/-- C8, evaluated at `NewFailureDetector(8, 1, 10, 0, 10)`: the configuration is accepted and
the detector has `LatestTimestamp = 0` and a window of capacity 1, but the window holds the
single interval 12 (`10 + 10/4`), not the two intervals 8 and 12: the second bootstrap sample
evicted the first. -/
theorem C8_bootstrap_capacity_one_keeps_one_sample :
    ∃ fd w, NewFailureDetector 8 1 10 0 10 = some (Except.ok fd) ∧
      fd.state.LatestTimestamp = 0 ∧ fd.state.History = some w ∧
      w.MaxSamples = 1 ∧ w.Intervals = [12] ∧ w.Intervals.length = 1 ∧
      w.Intervals ≠ [(10 : ℝ) - (Int.tdiv 10 4 : ℝ), (10 : ℝ) + (Int.tdiv 10 4 : ℝ)] := by
  obtain ⟨w, hw, hfd⟩ := NewFailureDetector_of_valid 8 1 10 0 10 (by norm_num) (by decide)
    (by decide) (by decide) (by decide)
  rw [firstHeartbeat_of_one] at hw
  cases hw
  have hq : Int.tdiv 10 4 = 2 := by decide
  refine ⟨_, _, hfd, rfl, rfl, rfl, ?_, rfl, ?_⟩
  · simp only [hq]
    norm_num
  · simp

/-- With an estimate of at least 4 and room for two samples the bootstrap window has the
integer quarter of the estimate as its standard deviation, which is at least 1. -/
theorem firstHeartbeat_StdDev_of_four_le (E M : Int) (hE : 4 ≤ E) (hM : 2 ≤ M) :
    ∃ w, firstHeartbeat E M = some (Except.ok w) ∧ StdDev w = (Int.tdiv E 4 : ℝ) ∧
      1 ≤ StdDev w := by
  have hq1 : (1 : Int) ≤ Int.tdiv E 4 := by
    have h : Int.tdiv E 4 = E / 4 := Int.tdiv_eq_ediv (by omega) (by decide)
    omega
  have hq : (1 : ℝ) ≤ (Int.tdiv E 4 : ℝ) := by exact_mod_cast hq1
  refine ⟨_, firstHeartbeat_of_two_le E M hM, ?_⟩
  have hv : StdDev
      { MaxSamples := M
        Intervals := [(E : ℝ) - (Int.tdiv E 4 : ℝ), (E : ℝ) + (Int.tdiv E 4 : ℝ)]
        intervalSum := 0 + ((E : ℝ) - (Int.tdiv E 4 : ℝ)) + ((E : ℝ) + (Int.tdiv E 4 : ℝ))
        squaredIntervalSum :=
          0 + ((E : ℝ) - (Int.tdiv E 4 : ℝ)) * ((E : ℝ) - (Int.tdiv E 4 : ℝ)) +
            ((E : ℝ) + (Int.tdiv E 4 : ℝ)) * ((E : ℝ) + (Int.tdiv E 4 : ℝ)) } =
      (Int.tdiv E 4 : ℝ) := by
    simp only [StdDev, Variance, Mean, List.length_cons, List.length_nil]
    rw [show (0 + ((E : ℝ) - (Int.tdiv E 4 : ℝ)) * ((E : ℝ) - (Int.tdiv E 4 : ℝ)) +
          ((E : ℝ) + (Int.tdiv E 4 : ℝ)) * ((E : ℝ) + (Int.tdiv E 4 : ℝ))) /
          ((0 + 1 + 1 : Nat) : ℝ) -
        (0 + ((E : ℝ) - (Int.tdiv E 4 : ℝ)) + ((E : ℝ) + (Int.tdiv E 4 : ℝ))) /
            ((0 + 1 + 1 : Nat) : ℝ) *
          ((0 + ((E : ℝ) - (Int.tdiv E 4 : ℝ)) + ((E : ℝ) + (Int.tdiv E 4 : ℝ))) /
            ((0 + 1 + 1 : Nat) : ℝ)) = (Int.tdiv E 4 : ℝ) ^ 2 by
      push_cast
      ring]
    exact Real.sqrt_sq (by linarith)
  rw [hv]
  exact ⟨rfl, hq⟩

/-- C9, evaluated at `firstHeartbeat(3, 200)` and `firstHeartbeat(500, 1)`: with an estimate
below 4 the integer quarter is 0, both samples equal the estimate and `StdDev()` is 0; with
capacity 1 only one sample is retained and `StdDev()` is 0 as well. -/
theorem C9_bootstrap_stddev_can_be_zero :
    (∃ w, firstHeartbeat 3 200 = some (Except.ok w) ∧ w.Intervals = [3, 3] ∧
        StdDev w = 0) ∧
      (∃ w, firstHeartbeat 500 1 = some (Except.ok w) ∧ w.Intervals = [625] ∧
        StdDev w = 0) := by
  have hq3 : Int.tdiv 3 4 = 0 := by decide
  have hq500 : Int.tdiv 500 4 = 125 := by decide
  constructor
  · refine ⟨_, firstHeartbeat_of_two_le 3 200 (by decide), ?_, ?_⟩
    · simp [hq3]
    · simp only [StdDev, Variance, Mean, hq3]
      norm_num
  · refine ⟨_, firstHeartbeat_of_one 500, ?_, ?_⟩
    · simp only [hq500]
      norm_num
    · simp only [StdDev, Variance, Mean, hq500]
      norm_num

/-! ## The suspicion level -/

theorem calcPhi_of_gt (timeDiff mean stdDev : ℝ) (h : timeDiff > mean) :
    calcPhi timeDiff mean stdDev =
      -Real.logb 10
        (Real.exp (-((timeDiff - mean) / stdDev) *
            (1.5976 + 0.07056 * ((timeDiff - mean) / stdDev) * ((timeDiff - mean) / stdDev))) /
          (1.0 + Real.exp (-((timeDiff - mean) / stdDev) *
            (1.5976 + 0.07056 * ((timeDiff - mean) / stdDev) *
              ((timeDiff - mean) / stdDev))))) := by
  unfold calcPhi
  simp only [if_pos h]

theorem calcPhi_of_le (timeDiff mean stdDev : ℝ) (h : timeDiff ≤ mean) :
    calcPhi timeDiff mean stdDev =
      -Real.log (1.0 - 1.0 /
        (1.0 + Real.exp (-((timeDiff - mean) / stdDev) *
            (1.5976 + 0.07056 * ((timeDiff - mean) / stdDev) *
              ((timeDiff - mean) / stdDev))))) := by
  unfold calcPhi
  simp only [if_neg (not_lt.mpr h)]

/-- Up to the adjusted mean the suspicion level is at most `ln 2`. -/
theorem calcPhi_le_log_two (timeDiff mean stdDev : ℝ) (h : timeDiff ≤ mean)
    (hs : 0 < stdDev) : calcPhi timeDiff mean stdDev ≤ Real.log 2 := by
  rw [calcPhi_of_le _ _ _ h]
  have hy : (timeDiff - mean) / stdDev ≤ 0 :=
    div_nonpos_of_nonpos_of_nonneg (by linarith) hs.le
  set y := (timeDiff - mean) / stdDev with hydef
  have hz : 0 ≤ -y * (1.5976 + 0.07056 * y * y) := by
    apply mul_nonneg
    · linarith
    · nlinarith [mul_self_nonneg y]
  have he : 1 ≤ Real.exp (-y * (1.5976 + 0.07056 * y * y)) := Real.one_le_exp hz
  set e := Real.exp (-y * (1.5976 + 0.07056 * y * y)) with hedef
  have hhalf : (2 : ℝ)⁻¹ ≤ 1.0 - 1.0 / (1.0 + e) := by
    have hpos : (0 : ℝ) < 1 + e := by linarith
    have : (1.0 : ℝ) - 1.0 / (1.0 + e) = e / (1 + e) := by
      norm_num
      field_simp
    rw [this, le_div_iff₀ hpos]
    linarith
  have hlog := Real.log_le_log (by norm_num : (0 : ℝ) < 2⁻¹) hhalf
  rw [Real.log_inv] at hlog
  linarith

/-- From 51 floored standard deviations past the adjusted mean on, the suspicion level is at
least 8. -/
theorem calcPhi_ge_eight (timeDiff mean stdDev : ℝ) (hs : 0 < stdDev)
    (h : mean + 51 * stdDev ≤ timeDiff) : 8 ≤ calcPhi timeDiff mean stdDev := by
  have hgt : timeDiff > mean := by nlinarith
  rw [calcPhi_of_gt _ _ _ hgt]
  have hy : 51 ≤ (timeDiff - mean) / stdDev := by
    rw [le_div_iff₀ hs]
    linarith
  set y := (timeDiff - mean) / stdDev with hydef
  have hz : 80 ≤ y * (1.5976 + 0.07056 * y * y) := by
    nlinarith [mul_self_nonneg y]
  have hepos : 0 < Real.exp (-y * (1.5976 + 0.07056 * y * y)) := Real.exp_pos _
  have hval : Real.logb 10 (Real.exp (-y * (1.5976 + 0.07056 * y * y))) ≤ -8 := by
    have hl10 : Real.log 10 ≤ 9 := by
      have := Real.log_le_sub_one_of_pos (by norm_num : (0 : ℝ) < 10)
      linarith
    have hl10pos : 0 < Real.log 10 := Real.log_pos (by norm_num)
    rw [Real.logb, Real.log_exp, div_le_iff₀ hl10pos]
    nlinarith
  set e := Real.exp (-y * (1.5976 + 0.07056 * y * y)) with hedef
  have h10 : (1.0 : ℝ) = 1 := by norm_num
  rw [h10]
  have hfrac : e / (1 + e) ≤ e := div_le_self hepos.le (by linarith)
  have hfpos : 0 < e / (1 + e) := div_pos hepos (by linarith)
  have hlogb := Real.logb_le_logb_of_le (b := 10) (by norm_num) hfpos hfrac
  linarith

theorem phi_of_history (fd : FailureDetector) (w : HeartbeatHistory) (t : ℝ)
    (hw : fd.state.History = some w) :
    phi fd t = some (calcPhi (t - fd.state.LatestTimestamp)
      (Mean w + (fd.AcceptableHeartbeatPauseMilliseconds : ℝ))
      (ensureValidStdDev fd (StdDev w))) := by
  unfold phi
  simp only [hw]

theorem isAvailable_of_history (fd : FailureDetector) (w : HeartbeatHistory) (t : ℝ)
    (hw : fd.state.History = some w) :
    isAvailable fd t = some (decide (calcPhi (t - fd.state.LatestTimestamp)
      (Mean w + (fd.AcceptableHeartbeatPauseMilliseconds : ℝ))
      (ensureValidStdDev fd (StdDev w)) < fd.Threshold)) := by
  unfold isAvailable
  rw [phi_of_history fd w t hw]

/-- C3: for every detector state that holds a window and every timestamp `t`, `phi(t)` is the
reference value computed from `timeDiff = t − LatestTimestamp`,
`adjustedMean = Mean() + AcceptableHeartbeatPauseMilliseconds`,
`stdDev = max(StdDev(), MinStdDevMilliseconds)`, `y = (timeDiff − adjustedMean)/stdDev` and
`e = exp(−y·(1.5976 + 0.07056·y²))`: `−log10(e/(1+e))` when `timeDiff > adjustedMean` and
`−ln(1 − 1/(1+e))` otherwise. -/
theorem C3_phi_reference_value (fd : FailureDetector) (w : HeartbeatHistory) (t : ℝ)
    (hw : fd.state.History = some w) :
    phi fd t = some (
      let timeDiff := t - fd.state.LatestTimestamp
      let adjustedMean := Mean w + (fd.AcceptableHeartbeatPauseMilliseconds : ℝ)
      let stdDev := max (StdDev w) (fd.MinStdDevMilliseconds : ℝ)
      let y := (timeDiff - adjustedMean) / stdDev
      let e := Real.exp (-y * (1.5976 + 0.07056 * y ^ 2))
      if timeDiff > adjustedMean then -Real.logb 10 (e / (1 + e))
      else -Real.log (1 - 1 / (1 + e))) := by
  rw [phi_of_history fd w t hw]
  simp only [calcPhi, ensureValidStdDev]
  have h10 : (1.0 : ℝ) = 1 := by norm_num
  rw [h10]
  have hexp : ∀ y : ℝ, -y * (1.5976 + 0.07056 * y * y) = -y * (1.5976 + 0.07056 * y ^ 2) := by
    intro y
    ring
  simp only [hexp]

/-- C3, checked on the fresh detector of the tests queried at `t = 500`: the time since the
sentinel equals the adjusted mean, so `y = 0`, `e = 1` and `phi = −ln(1/2) = ln 2`. -/
theorem C3_phi_reference_value_witness :
    testDetector.state.History = some testWindow ∧
      phi testDetector 500 = some (Real.log 2) := by
  have h := C3_phi_reference_value testDetector testWindow 500 rfl
  refine ⟨rfl, ?_⟩
  rw [h]
  have hm : Mean testWindow = 500 := by
    simp only [Mean, testWindow]
    norm_num
  simp only [hm, testDetector]
  norm_num
  rw [Real.log_div (by norm_num) (by norm_num)]
  simp

/-! ## Recording a heartbeat -/

/-- C1: on a seeded detector (`LatestTimestamp = last ≠ 0`, window `w`) and for every
timestamp `t`, `isAvailable(t)` is decided on the old state; if it holds, `heartbeat(t)`
yields the state with `LatestTimestamp = t` whose window is `w` with the interval `t − last`
added by `AddInterval` (which returns on every window of positive capacity); if it does not
hold, it yields the state with `LatestTimestamp = t` and the window `w` unchanged, intervals
and both sums included.  The returned error is nil. -/
theorem C1_heartbeat_on_seeded_detector (fd : FailureDetector) (w : HeartbeatHistory) (t : ℝ)
    (hlast : fd.state.LatestTimestamp ≠ 0) (hw : fd.state.History = some w) :
    (isAvailable fd t = some true ∨ isAvailable fd t = some false) ∧
      (isAvailable fd t = some true →
        Heartbeat fd t =
          (AddInterval w (t - fd.state.LatestTimestamp)).map
            (fun w1 =>
              ({ fd with state := { History := some w1, LatestTimestamp := t } }, none))) ∧
      (isAvailable fd t = some false →
        Heartbeat fd t =
          some ({ fd with state := { History := some w, LatestTimestamp := t } }, none)) ∧
      (0 < w.MaxSamples →
        ∃ w1, AddInterval w (t - fd.state.LatestTimestamp) = some w1 ∧
          w1.MaxSamples = w.MaxSamples) := by
  refine ⟨?_, ?_, ?_, ?_⟩
  · rw [isAvailable_of_history fd w t hw]
    cases decide (calcPhi (t - fd.state.LatestTimestamp)
      (Mean w + (fd.AcceptableHeartbeatPauseMilliseconds : ℝ))
      (ensureValidStdDev fd (StdDev w)) < fd.Threshold)
    · exact Or.inr rfl
    · exact Or.inl rfl
  · intro hav
    unfold Heartbeat
    simp only [if_neg hlast, hav, hw]
    cases AddInterval w (t - fd.state.LatestTimestamp) <;> rfl
  · intro hav
    unfold Heartbeat
    simp only [if_neg hlast, hav, hw]
  · intro hpos
    obtain ⟨w1, h1, h2, _⟩ := AddInterval_spec _ w (t - fd.state.LatestTimestamp) rfl hpos
    exact ⟨w1, h1, h2⟩

/-- C1, checked on the seeded detector `(8, 3, 10, 0, 10)` with window `[8, 12]` and latest
heartbeat at 100: a heartbeat at 110 finds the detector available and appends the interval
10. -/
theorem C1_heartbeat_on_seeded_detector_witness :
    seededDetector.state.LatestTimestamp ≠ 0 ∧
      isAvailable seededDetector 110 = some true ∧
      Heartbeat seededDetector 110 =
        some ({ seededDetector with
                state :=
                  { History := some { MaxSamples := 3, Intervals := [8, 12, 10],
                                      intervalSum := 30, squaredIntervalSum := 308 }
                    LatestTimestamp := 110 } }, none) := by
  have hlast : seededDetector.state.LatestTimestamp ≠ 0 := by
    simp [seededDetector]
  have hav : isAvailable seededDetector 110 = some true := by
    rw [isAvailable_of_history seededDetector _ 110 rfl]
    have hle := calcPhi_le_log_two (110 - seededDetector.state.LatestTimestamp)
      (Mean { MaxSamples := 3, Intervals := [8, 12], intervalSum := 20,
              squaredIntervalSum := 208 } +
        (seededDetector.AcceptableHeartbeatPauseMilliseconds : ℝ))
      (ensureValidStdDev seededDetector
        (StdDev { MaxSamples := 3, Intervals := [8, 12], intervalSum := 20,
                  squaredIntervalSum := 208 }))
      (by simp only [Mean, seededDetector]; norm_num)
      (by
        unfold ensureValidStdDev
        apply lt_max_of_lt_right
        simp [seededDetector])
    have h2 := Real.log_two_lt_d9
    have hlt : calcPhi (110 - seededDetector.state.LatestTimestamp)
        (Mean { MaxSamples := 3, Intervals := [8, 12], intervalSum := 20,
                squaredIntervalSum := 208 } +
          (seededDetector.AcceptableHeartbeatPauseMilliseconds : ℝ))
        (ensureValidStdDev seededDetector
          (StdDev { MaxSamples := 3, Intervals := [8, 12], intervalSum := 20,
                    squaredIntervalSum := 208 })) < seededDetector.Threshold := by
      have : seededDetector.Threshold = 8 := rfl
      rw [this]
      linarith
    simp [hlt]
  refine ⟨hlast, hav, ?_⟩
  rw [(C1_heartbeat_on_seeded_detector seededDetector _ 110 hlast rfl).2.1 hav]
  simp [AddInterval, seededDetector]
  norm_num

/-- C2: on an unseeded detector (`LatestTimestamp = 0`, whatever its window holds) and for
every timestamp `t`, `heartbeat(t)` does not panic, returns no error and yields the state with
`LatestTimestamp = t` whose window is the one that
`firstHeartbeat(FirstHeartbeatEstimateMilliseconds, MaxSamples)` returns; for a capacity
`MaxSamples > 0` that is a fresh window of this capacity, holding bootstrap samples only. -/
theorem C2_heartbeat_on_unseeded_detector (fd : FailureDetector) (t : ℝ)
    (h0 : fd.state.LatestTimestamp = 0) :
    ∃ r, firstHeartbeat fd.FirstHeartbeatEstimateMilliseconds fd.MaxSamples = some r ∧
      Heartbeat fd t =
        some ({ fd with state := { History := r.toOption, LatestTimestamp := t } }, none) ∧
      (0 < fd.MaxSamples →
        ∃ w, r = Except.ok w ∧ w.MaxSamples = fd.MaxSamples ∧ 1 ≤ w.Intervals.length ∧
          (Heartbeat fd t).map (fun p => p.1.state) =
            some { History := some w, LatestTimestamp := t }) := by
  rcases firstHeartbeat_total fd.FirstHeartbeatEstimateMilliseconds fd.MaxSamples with
    ⟨hle, herr⟩ | ⟨hpos, w, hw, hM, hlen, _⟩
  · refine ⟨_, herr, ?_, ?_⟩
    · unfold Heartbeat
      simp only [if_pos h0, herr]
      rfl
    · intro hpos
      omega
  · have hb : Heartbeat fd t =
        some ({ fd with state := { History := some w, LatestTimestamp := t } }, none) := by
      unfold Heartbeat
      simp only [if_pos h0, hw]
    refine ⟨_, hw, ?_, ?_⟩
    · rw [hb]
      rfl
    · intro _
      refine ⟨w, rfl, hM, hlen, ?_⟩
      rw [hb]
      rfl

/-- C2, checked on the fresh detector of the tests: a first heartbeat at a clock reading of
1700000000000 ms stores the bootstrap window `[375, 625]` and that timestamp. -/
theorem C2_heartbeat_on_unseeded_detector_witness :
    testDetector.state.LatestTimestamp = 0 ∧
      ∃ w, firstHeartbeat 500 200 = some (Except.ok w) ∧ w.Intervals = [375, 625] ∧
        Heartbeat testDetector 1700000000000 =
          some ({ testDetector with
                  state := { History := some w, LatestTimestamp := 1700000000000 } },
                none) := by
  obtain ⟨r, hr, hb, _⟩ := C2_heartbeat_on_unseeded_detector testDetector 1700000000000 rfl
  have hfh := firstHeartbeat_of_two_le 500 200 (by decide)
  have hr2 : firstHeartbeat 500 200 = some r := hr
  rw [hfh] at hr2
  cases hr2
  have hq : Int.tdiv 500 4 = 125 := by decide
  refine ⟨rfl, _, hfh, ?_, hb⟩
  simp only [hq]
  norm_num

/-! ## The fresh detector -/

/-- The mean of the bootstrap window is at least the estimate (equal to it when the window
has room for both samples). -/
theorem firstHeartbeat_mean_ge (E M : Int) (hM : 0 < M) (hE : 0 < E) :
    ∃ w, firstHeartbeat E M = some (Except.ok w) ∧ (E : ℝ) ≤ Mean w := by
  by_cases h2 : 2 ≤ M
  · refine ⟨_, firstHeartbeat_of_two_le E M h2, ?_⟩
    simp only [Mean, List.length_cons, List.length_nil]
    norm_num
  · have h1 : M = 1 := by omega
    subst h1
    refine ⟨_, firstHeartbeat_of_one E, ?_⟩
    simp only [Mean, List.length_cons, List.length_nil]
    norm_num
    exact Int.tdiv_nonneg hE.le (by decide)

/-- C10, evaluated at the configuration `(8, 200, 500, 0, 500)` and a clock reading of
1700000000000 ms since the epoch: the fresh detector has `LatestTimestamp = 0`, which
`Heartbeat` reads as "no heartbeat yet" and `phi` subtracts as a timestamp, so the time since
the latest heartbeat is the clock reading itself, and `isAvailable` is false. -/
theorem C10_fresh_detector_unavailable_at_epoch_clock :
    ∃ fd, NewFailureDetector 8 200 500 0 500 = some (Except.ok fd) ∧
      fd.state.LatestTimestamp = 0 ∧ isAvailable fd 1700000000000 = some false := by
  obtain ⟨w, hw, hfd⟩ := NewFailureDetector_of_valid 8 200 500 0 500 (by norm_num)
    (by decide) (by decide) (by decide) (by decide)
  rw [firstHeartbeat_of_two_le 500 200 (by decide)] at hw
  cases hw
  refine ⟨_, hfd, rfl, ?_⟩
  rw [isAvailable_of_history _ _ _ rfl]
  have hq : Int.tdiv 500 4 = 125 := by decide
  simp only [hq, Mean, StdDev, Variance, ensureValidStdDev, List.length_cons,
    List.length_nil]
  norm_num
  have hsqrt : Real.sqrt 15625 = 125 := by
    rw [show (15625 : ℝ) = 125 ^ 2 by norm_num]
    exact Real.sqrt_sq (by norm_num)
  rw [hsqrt]
  have hmax : max (125 : ℝ) 500 = 500 := by norm_num
  rw [hmax]
  have := calcPhi_ge_eight 1700000000000 500 500 (by norm_num) (by norm_num)
  linarith

/-! ## Reachable detector states -/

theorem Heartbeat_of_unseeded (fd : FailureDetector) (t : ℝ)
    (h0 : fd.state.LatestTimestamp = 0) (w : HeartbeatHistory)
    (hw : firstHeartbeat fd.FirstHeartbeatEstimateMilliseconds fd.MaxSamples =
      some (Except.ok w)) :
    Heartbeat fd t =
      some ({ fd with state := { History := some w, LatestTimestamp := t } }, none) := by
  unfold Heartbeat
  simp only [if_pos h0, hw]

theorem Heartbeat_of_available (fd : FailureDetector) (w w1 : HeartbeatHistory) (t : ℝ)
    (hlast : fd.state.LatestTimestamp ≠ 0) (hw : fd.state.History = some w)
    (hav : isAvailable fd t = some true)
    (hadd : AddInterval w (t - fd.state.LatestTimestamp) = some w1) :
    Heartbeat fd t =
      some ({ fd with state := { History := some w1, LatestTimestamp := t } }, none) := by
  unfold Heartbeat
  simp only [if_neg hlast, hav, hw, hadd]

theorem Heartbeat_of_unavailable (fd : FailureDetector) (t : ℝ)
    (hlast : fd.state.LatestTimestamp ≠ 0) (hav : isAvailable fd t = some false) :
    Heartbeat fd t =
      some ({ fd with state := { History := fd.state.History, LatestTimestamp := t } },
        none) := by
  unfold Heartbeat
  simp only [if_neg hlast, hav]

theorem isAvailable_cases (fd : FailureDetector) (w : HeartbeatHistory) (t : ℝ)
    (hw : fd.state.History = some w) :
    isAvailable fd t = some true ∨ isAvailable fd t = some false := by
  rw [isAvailable_of_history fd w t hw]
  cases decide (calcPhi (t - fd.state.LatestTimestamp)
    (Mean w + (fd.AcceptableHeartbeatPauseMilliseconds : ℝ))
    (ensureValidStdDev fd (StdDev w)) < fd.Threshold)
  · exact Or.inr rfl
  · exact Or.inl rfl

/-- The constructor establishes the state invariant, with `LatestTimestamp = 0`. -/
theorem DetectorInv_of_new {threshold : ℝ}
    {maxSamples minStdDev acceptableHeartbeatPause firstHeartbeatEstimate : Int}
    {fd : FailureDetector}
    (h : NewFailureDetector threshold maxSamples minStdDev acceptableHeartbeatPause
      firstHeartbeatEstimate = some (Except.ok fd)) :
    DetectorInv fd ∧ fd.state.LatestTimestamp = 0 := by
  by_cases c1 : threshold ≤ 0
  · unfold NewFailureDetector at h
    rw [if_pos c1] at h
    cases h
  by_cases c2 : maxSamples ≤ 0
  · unfold NewFailureDetector at h
    rw [if_neg c1, if_pos c2] at h
    cases h
  by_cases c3 : minStdDev ≤ 0
  · unfold NewFailureDetector at h
    rw [if_neg c1, if_neg c2, if_pos c3] at h
    cases h
  by_cases c4 : acceptableHeartbeatPause < 0
  · unfold NewFailureDetector at h
    rw [if_neg c1, if_neg c2, if_neg c3, if_pos c4] at h
    cases h
  by_cases c5 : firstHeartbeatEstimate ≤ 0
  · unfold NewFailureDetector at h
    rw [if_neg c1, if_neg c2, if_neg c3, if_neg c4, if_pos c5] at h
    cases h
  rcases firstHeartbeat_total firstHeartbeatEstimate maxSamples with
    ⟨hle, _⟩ | ⟨_, w, hw, hM, hlen, hcap, hS⟩
  · exact absurd hle c2
  · unfold NewFailureDetector at h
    rw [if_neg c1, if_neg c2, if_neg c3, if_neg c4, if_neg c5, hw] at h
    cases h
    exact ⟨⟨⟨not_le.mp c1, not_le.mp c2, not_le.mp c3, not_lt.mp c4, not_le.mp c5⟩,
      w, rfl, hM, hlen, hcap, hS⟩, rfl⟩

/-- On a state that satisfies the invariant every heartbeat returns with a nil error, keeps
the configuration, stores the timestamp and re-establishes the invariant. -/
theorem DetectorInv_Heartbeat {fd : FailureDetector} (hinv : DetectorInv fd) (t : ℝ) :
    ∃ fd1, Heartbeat fd t = some (fd1, none) ∧ DetectorInv fd1 ∧
      fd1.state.LatestTimestamp = t ∧
      fd1.Threshold = fd.Threshold ∧ fd1.MaxSamples = fd.MaxSamples ∧
      fd1.MinStdDevMilliseconds = fd.MinStdDevMilliseconds ∧
      fd1.AcceptableHeartbeatPauseMilliseconds = fd.AcceptableHeartbeatPauseMilliseconds ∧
      fd1.FirstHeartbeatEstimateMilliseconds = fd.FirstHeartbeatEstimateMilliseconds := by
  obtain ⟨hcfg, w, hw, hM, hlen, hcap, hS⟩ := hinv
  by_cases h0 : fd.state.LatestTimestamp = 0
  · rcases firstHeartbeat_total fd.FirstHeartbeatEstimateMilliseconds fd.MaxSamples with
      ⟨hle, _⟩ | ⟨_, b, hb, hbM, hblen, hbcap, hbS⟩
    · exact absurd hcfg.2.1 (by omega)
    · exact ⟨_, Heartbeat_of_unseeded fd t h0 b hb, ⟨hcfg, b, rfl, hbM, hblen, hbcap, hbS⟩,
        rfl, rfl, rfl, rfl, rfl, rfl⟩
  · rcases isAvailable_cases fd w t hw with hav | hav
    · have hpos : 0 < w.MaxSamples := by rw [hM]; exact hcfg.2.1
      obtain ⟨w1, h1, h1M, h1I, h1S⟩ :=
        AddInterval_spec _ w (t - fd.state.LatestTimestamp) rfl hpos
      refine ⟨_, Heartbeat_of_available fd w w1 t h0 hw hav h1,
        ⟨hcfg, w1, rfl, h1M.trans hM, ?_, ?_, h1S hS⟩, rfl, rfl, rfl, rfl, rfl, rfl⟩
      · rw [h1I]
        simp
      · rw [h1I]
        simp only [List.length_append, List.length_drop, List.length_singleton]
        have hp := hcfg.2.1
        rw [hM]
        omega
    · refine ⟨_, Heartbeat_of_unavailable fd t h0 hav,
        ⟨hcfg, w, hw, hM, hlen, hcap, hS⟩, rfl, rfl, rfl, rfl, rfl, rfl⟩

theorem DetectorInv_of_Reachable {fd : FailureDetector} (h : Reachable fd) :
    DetectorInv fd := by
  induction h with
  | init threshold maxSamples minStdDev pause estimate fd h => exact (DetectorInv_of_new h).1
  | heartbeat fd fd1 t err _ h ih =>
    obtain ⟨fd2, h2, hinv, _⟩ := DetectorInv_Heartbeat ih t
    rw [h2] at h
    cases h
    exact hinv

/-- The suspicion level is strictly positive for all arguments (real arithmetic). -/
theorem calcPhi_pos (timeDiff mean stdDev : ℝ) : 0 < calcPhi timeDiff mean stdDev := by
  have h10 : (1.0 : ℝ) = 1 := by norm_num
  by_cases h : timeDiff > mean
  · rw [calcPhi_of_gt _ _ _ h, h10]
    set e := Real.exp (-((timeDiff - mean) / stdDev) *
      (1.5976 + 0.07056 * ((timeDiff - mean) / stdDev) * ((timeDiff - mean) / stdDev)))
      with hedef
    have he : 0 < e := Real.exp_pos _
    have h1 : 0 < e / (1 + e) := div_pos he (by linarith)
    have h2 : e / (1 + e) < 1 := by
      rw [div_lt_one (by linarith)]
      linarith
    have := Real.logb_neg (b := 10) (by norm_num) h1 h2
    linarith
  · rw [calcPhi_of_le _ _ _ (not_lt.mp h), h10]
    set e := Real.exp (-((timeDiff - mean) / stdDev) *
      (1.5976 + 0.07056 * ((timeDiff - mean) / stdDev) * ((timeDiff - mean) / stdDev)))
      with hedef
    have he : 0 < e := Real.exp_pos _
    have heq : 1 - 1 / (1 + e) = e / (1 + e) := by
      field_simp
    rw [heq]
    have h1 : 0 < e / (1 + e) := div_pos he (by linarith)
    have h2 : e / (1 + e) < 1 := by
      rw [div_lt_one (by linarith)]
      linarith
    have := Real.log_neg h1 h2
    linarith

theorem Reachable_runHeartbeats : ∀ (ts : List ℝ) (fd fd1 : FailureDetector),
    Reachable fd → runHeartbeats fd ts = some fd1 → Reachable fd1 := by
  intro ts
  induction ts with
  | nil =>
    intro fd fd1 hr h
    cases h
    exact hr
  | cons t ts ih =>
    intro fd fd1 hr h
    cases hb : Heartbeat fd t with
    | none => simp [runHeartbeats, hb] at h
    | some p =>
      obtain ⟨fd2, err⟩ := p
      simp only [runHeartbeats, hb] at h
      exact ih fd2 fd1 (Reachable.heartbeat fd fd2 t err hr hb) h

/-- From a state that satisfies the invariant every sequence of heartbeats runs to the
end. -/
theorem runHeartbeats_total : ∀ (ts : List ℝ) (fd : FailureDetector),
    DetectorInv fd → ∃ fd1, runHeartbeats fd ts = some fd1 ∧ DetectorInv fd1 := by
  intro ts
  induction ts with
  | nil =>
    intro fd hinv
    exact ⟨fd, rfl, hinv⟩
  | cons t ts ih =>
    intro fd hinv
    obtain ⟨fd2, h2, hinv2, _⟩ := DetectorInv_Heartbeat hinv t
    obtain ⟨fd1, h1, hinv1⟩ := ih fd2 hinv2
    refine ⟨fd1, ?_, hinv1⟩
    simp only [runHeartbeats, h2]
    exact h1

/-! ## Claims about reachable states -/

/-- C17: `NewHeartbeatHistory(maxSamples)` returns the error "sample capacity must be > 0"
(and no window) exactly when `maxSamples ≤ 0`; for every `maxSamples > 0` it returns no error
and the empty window (no intervals, both running sums 0) with `MaxSamples = maxSamples`. -/
theorem C17_new_window_validation (maxSamples : Int) :
    (maxSamples ≤ 0 →
        NewHeartbeatHistory maxSamples = Except.error "sample capacity must be > 0") ∧
      (0 < maxSamples →
        NewHeartbeatHistory maxSamples =
          Except.ok { MaxSamples := maxSamples, Intervals := [], intervalSum := 0,
                      squaredIntervalSum := 0 }) ∧
      ((∃ err, NewHeartbeatHistory maxSamples = Except.error err) ↔ maxSamples ≤ 0) := by
  refine ⟨?_, fun h => NewHeartbeatHistory_of_pos h, ?_, ?_⟩
  · intro h
    unfold NewHeartbeatHistory
    rw [if_pos h]
  · rintro ⟨err, herr⟩
    by_contra hcon
    rw [NewHeartbeatHistory_of_pos (not_le.mp hcon)] at herr
    cases herr
  · intro h
    refine ⟨"sample capacity must be > 0", ?_⟩
    unfold NewHeartbeatHistory
    rw [if_pos h]

/-- C17, checked on the capacities 0 (the test: rejected with that message) and 3. -/
theorem C17_new_window_validation_witness :
    NewHeartbeatHistory 0 = Except.error "sample capacity must be > 0" ∧
      NewHeartbeatHistory 3 =
        Except.ok { MaxSamples := 3, Intervals := [], intervalSum := 0,
                    squaredIntervalSum := 0 } :=
  ⟨(C17_new_window_validation 0).1 (le_refl 0),
    (C17_new_window_validation 3).2.1 (by decide)⟩

/-- In exact arithmetic (a `float64` read as a real number): in every state reachable from a successful `NewFailureDetector` by sequential
`heartbeat(t)` calls at arbitrary timestamps, the window exists and holds at least 1 and at
most `MaxSamples` intervals, so the count that `Mean` and `Variance` divide by is not zero,
`DropOldestInterval` returns whenever `AddInterval` calls it (the window is full), and
`AddInterval` returns; the standard deviation passed to `calcPhi` is
`≥ MinStdDevMilliseconds > 0`; `phi` and `isAvailable` return; and `Heartbeat` returns nil
at every timestamp. -/
theorem exact_reachable_state_invariant (fd : FailureDetector) (hr : Reachable fd) :
    ∃ w, fd.state.History = some w ∧
      1 ≤ w.Intervals.length ∧ (w.Intervals.length : Int) ≤ fd.MaxSamples ∧
      (w.Intervals.length : ℝ) ≠ 0 ∧
      (¬ (w.Intervals.length : Int) < w.MaxSamples →
        ∃ w1, DropOldestInterval w = some w1) ∧
      (∀ x, ∃ w1, AddInterval w x = some w1) ∧
      (0 : ℝ) < (fd.MinStdDevMilliseconds : ℝ) ∧
      (fd.MinStdDevMilliseconds : ℝ) ≤ ensureValidStdDev fd (StdDev w) ∧
      (∀ t, ∃ p b, phi fd t = some p ∧ isAvailable fd t = some b) ∧
      (∀ t, ∃ fd1, Heartbeat fd t = some (fd1, none)) := by
  have hinv := DetectorInv_of_Reachable hr
  obtain ⟨hcfg, w, hw, hM, hlen, hcap, hS⟩ := hinv
  have hpos : 0 < w.MaxSamples := by rw [hM]; exact hcfg.2.1
  refine ⟨w, hw, hlen, hcap, ?_, ?_, ?_, ?_, ?_, ?_, ?_⟩
  · have : (0 : ℝ) < (w.Intervals.length : ℝ) := by exact_mod_cast hlen
    exact ne_of_gt this
  · intro _
    cases hxs : w.Intervals with
    | nil => rw [hxs] at hlen; simp at hlen
    | cons a rest =>
      refine ⟨{ w with
        Intervals := rest
        intervalSum := w.intervalSum - a
        squaredIntervalSum := w.squaredIntervalSum - (a * a) }, ?_⟩
      unfold DropOldestInterval
      split
      · next h1 => rw [hxs] at h1; cases h1
      · next b r h1 => rw [hxs] at h1; cases h1; rfl
  · intro x
    obtain ⟨w1, h1, _⟩ := AddInterval_spec _ w x rfl hpos
    exact ⟨w1, h1⟩
  · exact_mod_cast hcfg.2.2.1
  · unfold ensureValidStdDev
    exact le_max_right _ _
  · intro t
    exact ⟨_, _, phi_of_history fd w t hw, isAvailable_of_history fd w t hw⟩
  · intro t
    obtain ⟨fd1, h1, _⟩ := DetectorInv_Heartbeat ⟨hcfg, w, hw, hM, hlen, hcap, hS⟩ t
    exact ⟨fd1, h1⟩

/-- The exact-arithmetic invariant, checked on the detector of `NewFailureDetector(8, 200, 500, 0, 500)` after
heartbeats at the clock readings 0, 1000, 900 and 5000000. -/
theorem exact_reachable_state_invariant_witness :
    ∃ fd0 fd, NewFailureDetector 8 200 500 0 500 = some (Except.ok fd0) ∧
      runHeartbeats fd0 [0, 1000, 900, 5000000] = some fd ∧ Reachable fd ∧
      ∃ w, fd.state.History = some w ∧ 1 ≤ w.Intervals.length ∧
        (w.Intervals.length : Int) ≤ fd.MaxSamples ∧
        ∃ fd1, Heartbeat fd 5000001 = some (fd1, none) := by
  obtain ⟨fd0, h0⟩ := (NewFailureDetector_of_valid 8 200 500 0 500 (by norm_num) (by decide)
    (by decide) (by decide) (by decide)).imp (fun _ h => h.2)
  obtain ⟨fd, hrun, _⟩ := runHeartbeats_total [0, 1000, 900, 5000000] _
    (DetectorInv_of_new h0).1
  have hr : Reachable fd :=
    Reachable_runHeartbeats _ _ _ (Reachable.init _ _ _ _ _ _ h0) hrun
  obtain ⟨w, hw, h1, h2, _, _, _, _, _, _, h3⟩ := exact_reachable_state_invariant fd hr
  exact ⟨_, fd, h0, hrun, hr, w, hw, h1, h2, h3 5000001⟩

/-- In exact arithmetic (a `float64` read as a real number): in every state reachable from a successful `NewFailureDetector` by heartbeats and
for every timestamp `t`, `phi(t)` is defined and strictly positive, hence not zero. -/
theorem exact_phi_is_positive (fd : FailureDetector) (hr : Reachable fd) (t : ℝ) :
    ∃ p, phi fd t = some p ∧ 0 < p ∧ p ≠ 0 := by
  obtain ⟨_, w, hw, _⟩ := DetectorInv_of_Reachable hr
  exact ⟨_, phi_of_history fd w t hw, calcPhi_pos _ _ _, ne_of_gt (calcPhi_pos _ _ _)⟩

/-- The exact-arithmetic positivity of `phi`, checked on the fresh detector of `NewFailureDetector(8, 200, 500, 0, 500)` and on
the same detector after two heartbeats. -/
theorem exact_phi_is_positive_witness :
    ∃ fd0 fd2, NewFailureDetector 8 200 500 0 500 = some (Except.ok fd0) ∧
      (∃ p, phi fd0 1700000000000 = some p ∧ p ≠ 0) ∧
      runHeartbeats fd0 [1700000000000, 1700000000100] = some fd2 ∧
      (∃ p, phi fd2 1700000000200 = some p ∧ p ≠ 0) := by
  obtain ⟨fd0, h0⟩ := (NewFailureDetector_of_valid 8 200 500 0 500 (by norm_num) (by decide)
    (by decide) (by decide) (by decide)).imp (fun _ h => h.2)
  obtain ⟨fd2, hrun, _⟩ := runHeartbeats_total [1700000000000, 1700000000100] _
    (DetectorInv_of_new h0).1
  have hr0 : Reachable _ := Reachable.init _ _ _ _ _ _ h0
  have hr2 : Reachable fd2 := Reachable_runHeartbeats _ _ _ hr0 hrun
  obtain ⟨p0, hp0, _, hne0⟩ := exact_phi_is_positive _ hr0 1700000000000
  obtain ⟨p2, hp2, _, hne2⟩ := exact_phi_is_positive fd2 hr2 1700000000200
  exact ⟨_, fd2, h0, ⟨p0, hp0, hne0⟩, hrun, ⟨p2, hp2, hne2⟩⟩

/-! ## Windows and detectors in normal form -/

theorem windowOf_SumInv (M : Int) (xs : List ℝ) : SumInv (windowOf M xs) :=
  ⟨rfl, rfl⟩

theorem eq_windowOf {w : HeartbeatHistory} (hS : SumInv w) :
    w = windowOf w.MaxSamples w.Intervals := by
  obtain ⟨h1, h2⟩ := hS
  cases w
  simp only [windowOf] at *
  simp [h1, h2]

theorem AddInterval_windowOf (M : Int) (xs : List ℝ) (x : ℝ) (hM : 0 < M) :
    AddInterval (windowOf M xs) x =
      some (windowOf M (xs.drop (xs.length + 1 - M.toNat) ++ [x])) := by
  obtain ⟨w1, h1, h2, h3, h4⟩ := AddInterval_spec _ (windowOf M xs) x rfl hM
  rw [h1, eq_windowOf (h4 (windowOf_SumInv M xs)), h2, h3]
  rfl

theorem firstHeartbeat_windowOf (E M : Int) (hM : 0 < M) :
    firstHeartbeat E M = some (Except.ok (windowOf M (bootstrapIntervals E M))) := by
  by_cases h2 : 2 ≤ M
  · rw [firstHeartbeat_of_two_le E M h2]
    have : 2 - M.toNat = 0 := by omega
    simp [windowOf, bootstrapIntervals, this]
  · have h1 : M = 1 := by omega
    subst h1
    rw [firstHeartbeat_of_one]
    simp [windowOf, bootstrapIntervals]

theorem NewFailureDetector_detectorOf (threshold : ℝ) (M s p E : Int)
    (h1 : 0 < threshold) (h2 : 0 < M) (h3 : 0 < s) (h4 : 0 ≤ p) (h5 : 0 < E) :
    NewFailureDetector threshold M s p E =
      some (Except.ok (detectorOf threshold M s p E (bootstrapIntervals E M) 0)) := by
  obtain ⟨w, hw, hfd⟩ := NewFailureDetector_of_valid threshold M s p E h1 h2 h3 h4 h5
  rw [firstHeartbeat_windowOf E M h2] at hw
  cases hw
  rw [hfd]
  rfl

/-- The first heartbeat of a detector in normal form stores a fresh bootstrap window. -/
theorem Heartbeat_detectorOf_unseeded (threshold : ℝ) (M s p E : Int) (xs : List ℝ) (t : ℝ)
    (hM : 0 < M) :
    Heartbeat (detectorOf threshold M s p E xs 0) t =
      some (detectorOf threshold M s p E (bootstrapIntervals E M) t, none) := by
  rw [Heartbeat_of_unseeded _ t rfl _ (firstHeartbeat_windowOf E M hM)]
  rfl

/-- Within the grace period a detector in normal form is available. -/
theorem isAvailable_detectorOf_grace (threshold : ℝ) (M s p E : Int) (xs : List ℝ)
    (last t : ℝ) (hs : 0 < s) (hthr : Real.log 2 < threshold)
    (ht : t - last ≤ xs.sum / (xs.length : ℝ) + (p : ℝ)) :
    isAvailable (detectorOf threshold M s p E xs last) t = some true := by
  rw [isAvailable_of_history _ (windowOf M xs) t rfl]
  have hstd : (0 : ℝ) <
      ensureValidStdDev (detectorOf threshold M s p E xs last) (StdDev (windowOf M xs)) := by
    unfold ensureValidStdDev
    apply lt_max_of_lt_right
    show (0 : ℝ) < (s : ℝ)
    exact_mod_cast hs
  have hle := calcPhi_le_log_two
    (t - (detectorOf threshold M s p E xs last).state.LatestTimestamp)
    (Mean (windowOf M xs) +
      ((detectorOf threshold M s p E xs last).AcceptableHeartbeatPauseMilliseconds : ℝ))
    _ ht hstd
  have hlt : calcPhi
      (t - (detectorOf threshold M s p E xs last).state.LatestTimestamp)
      (Mean (windowOf M xs) +
        ((detectorOf threshold M s p E xs last).AcceptableHeartbeatPauseMilliseconds : ℝ))
      (ensureValidStdDev (detectorOf threshold M s p E xs last) (StdDev (windowOf M xs))) <
      (detectorOf threshold M s p E xs last).Threshold := lt_of_le_of_lt hle hthr
  simp [hlt]

/-- Within the grace period a heartbeat on a seeded detector in normal form learns the
interval. -/
theorem Heartbeat_detectorOf_grace (threshold : ℝ) (M s p E : Int) (xs : List ℝ)
    (last t : ℝ) (hM : 0 < M) (hs : 0 < s) (hthr : Real.log 2 < threshold)
    (hlast : last ≠ 0) (ht : t - last ≤ xs.sum / (xs.length : ℝ) + (p : ℝ)) :
    Heartbeat (detectorOf threshold M s p E xs last) t =
      some (detectorOf threshold M s p E
        (xs.drop (xs.length + 1 - M.toNat) ++ [t - last]) t, none) := by
  rw [Heartbeat_of_available _ (windowOf M xs) _ t hlast rfl
    (isAvailable_detectorOf_grace threshold M s p E xs last t hs hthr ht)
    (AddInterval_windowOf M xs (t - last) hM)]
  rfl

/-- A heartbeat on a seeded detector in normal form that is judged unavailable keeps the
window. -/
theorem Heartbeat_detectorOf_unavailable (threshold : ℝ) (M s p E : Int) (xs : List ℝ)
    (last t : ℝ) (hlast : last ≠ 0)
    (hav : isAvailable (detectorOf threshold M s p E xs last) t = some false) :
    Heartbeat (detectorOf threshold M s p E xs last) t =
      some (detectorOf threshold M s p E xs t, none) := by
  rw [Heartbeat_of_unavailable _ t hlast hav]
  rfl

/-- In exact arithmetic (a `float64` read as a real number): in every reachable detector state and for every timestamp `t` within the grace
period, `t − LatestTimestamp ≤ Mean() + AcceptableHeartbeatPauseMilliseconds`, `phi(t)` is at
most `ln 2`; hence `isAvailable(t)` is true whenever `Threshold > ln 2`. -/
theorem exact_grace_period (fd : FailureDetector) (hr : Reachable fd) (w : HeartbeatHistory)
    (hw : fd.state.History = some w) (t : ℝ)
    (ht : t - fd.state.LatestTimestamp ≤
      Mean w + (fd.AcceptableHeartbeatPauseMilliseconds : ℝ)) :
    (∃ p, phi fd t = some p ∧ p ≤ Real.log 2) ∧
      (Real.log 2 < fd.Threshold → isAvailable fd t = some true) := by
  obtain ⟨hcfg, _⟩ := DetectorInv_of_Reachable hr
  have hstd : (0 : ℝ) < ensureValidStdDev fd (StdDev w) := by
    unfold ensureValidStdDev
    apply lt_max_of_lt_right
    exact_mod_cast hcfg.2.2.1
  have hle := calcPhi_le_log_two (t - fd.state.LatestTimestamp)
    (Mean w + (fd.AcceptableHeartbeatPauseMilliseconds : ℝ)) _ ht hstd
  refine ⟨⟨_, phi_of_history fd w t hw, hle⟩, ?_⟩
  intro hthr
  rw [isAvailable_of_history fd w t hw]
  have hlt := lt_of_le_of_lt hle hthr
  simp [hlt]

theorem bootstrapIntervals_ten (M : Int) (hM : 2 ≤ M) :
    bootstrapIntervals 10 M = [8, 12] := by
  have hq : Int.tdiv 10 4 = 2 := by decide
  have : 2 - M.toNat = 0 := by omega
  simp only [bootstrapIntervals, hq, this, List.drop_zero]
  norm_num

/-- The run of the tests with three heartbeats 10 ms apart on a detector with estimate 10:
both intervals are learned. -/
theorem runHeartbeats_three_beats (threshold : ℝ) (M s p : Int) (hthr : Real.log 2 < threshold)
    (hM : 4 ≤ M) (hs : 0 < s) (hp : 0 ≤ p) :
    NewFailureDetector threshold M s p 10 =
        some (Except.ok (detectorOf threshold M s p 10 [8, 12] 0)) ∧
      runHeartbeats (detectorOf threshold M s p 10 [8, 12] 0) [1000, 1010, 1020] =
        some (detectorOf threshold M s p 10 [8, 12, 10, 10] 1020) := by
  have hthr0 : 0 < threshold := lt_trans (Real.log_pos (by norm_num)) hthr
  have hpR : (0 : ℝ) ≤ (p : ℝ) := by exact_mod_cast hp
  have hnew := NewFailureDetector_detectorOf threshold M s p 10 hthr0 (by omega) hs hp
    (by decide)
  rw [bootstrapIntervals_ten M (by omega)] at hnew
  have h1 := Heartbeat_detectorOf_unseeded threshold M s p 10 [8, 12] 1000 (by omega)
  rw [bootstrapIntervals_ten M (by omega)] at h1
  have h2 : Heartbeat (detectorOf threshold M s p 10 [8, 12] 1000) 1010 =
      some (detectorOf threshold M s p 10 [8, 12, 10] 1010, none) := by
    rw [Heartbeat_detectorOf_grace threshold M s p 10 [8, 12] 1000 1010 (by omega) hs hthr
      (by norm_num) (by norm_num; linarith)]
    have : ([8, 12] : List ℝ).length + 1 - M.toNat = 0 := by simp; omega
    rw [this]
    norm_num
  have h3 : Heartbeat (detectorOf threshold M s p 10 [8, 12, 10] 1010) 1020 =
      some (detectorOf threshold M s p 10 [8, 12, 10, 10] 1020, none) := by
    rw [Heartbeat_detectorOf_grace threshold M s p 10 [8, 12, 10] 1010 1020 (by omega) hs hthr
      (by norm_num) (by norm_num; linarith)]
    have : ([8, 12, 10] : List ℝ).length + 1 - M.toNat = 0 := by simp; omega
    rw [this]
    norm_num
  refine ⟨hnew, ?_⟩
  simp only [runHeartbeats, h1, h2, h3]

/-- The exact-arithmetic grace period, checked on the run of the tests: configuration `(8, 100, 1, 10, 10)`, heartbeats at
1000, 1010 and 1020, queried at 1020 and at 1040; the detector is available both times. -/
theorem exact_grace_period_witness :
    ∃ fd0 fd, NewFailureDetector 8 100 1 10 10 = some (Except.ok fd0) ∧
      runHeartbeats fd0 [1000, 1010, 1020] = some fd ∧
      isAvailable fd 1020 = some true ∧ isAvailable fd 1040 = some true := by
  have h8 : Real.log 2 < 8 := lt_trans Real.log_two_lt_d9 (by norm_num)
  obtain ⟨hnew, hrun⟩ := runHeartbeats_three_beats 8 100 1 10 h8 (by decide) (by decide)
    (by decide)
  have hr : Reachable (detectorOf 8 100 1 10 10 [8, 12, 10, 10] 1020) :=
    Reachable_runHeartbeats _ _ _ (Reachable.init _ _ _ _ _ _ hnew) hrun
  refine ⟨_, _, hnew, hrun, ?_, ?_⟩
  · exact (exact_grace_period _ hr (windowOf 100 [8, 12, 10, 10]) rfl 1020
      (by simp only [detectorOf, Mean, windowOf]; norm_num)).2 h8
  · exact (exact_grace_period _ hr (windowOf 100 [8, 12, 10, 10]) rfl 1040
      (by simp only [detectorOf, Mean, windowOf]; norm_num)).2 h8

/-! ## Silence -/

theorem log_ten_lt : Real.log 10 < 2.7725887232 := by
  have h16 : Real.log 10 ≤ Real.log 16 := Real.log_le_log (by norm_num) (by norm_num)
  have h4 : Real.log 16 = 4 * Real.log 2 := by
    rw [show (16 : ℝ) = 2 ^ 4 by norm_num, Real.log_pow]
    norm_num
  have h2 := Real.log_two_lt_d9
  linarith

/-- From `c` floored standard deviations past the adjusted mean on, the suspicion level is at
least `T`, provided `T·ln 10 ≤ c·(1.5976 + 0.07056·c²)`. -/
theorem calcPhi_ge (T c timeDiff mean stdDev : ℝ) (hT : 0 ≤ T) (hc : 0 < c)
    (hTc : T * 2.7725887232 ≤ c * (1.5976 + 0.07056 * c * c)) (hs : 0 < stdDev)
    (h : mean + c * stdDev ≤ timeDiff) : T ≤ calcPhi timeDiff mean stdDev := by
  have hgt : timeDiff > mean := by nlinarith
  rw [calcPhi_of_gt _ _ _ hgt]
  have hy : c ≤ (timeDiff - mean) / stdDev := by
    rw [le_div_iff₀ hs]
    linarith
  set y := (timeDiff - mean) / stdDev with hydef
  have hypos : 0 < y := lt_of_lt_of_le hc hy
  have hz : c * (1.5976 + 0.07056 * c * c) ≤ y * (1.5976 + 0.07056 * y * y) := by
    have hcc : c * c ≤ y * y := mul_le_mul hy hy hc.le hypos.le
    have hccc : c * (c * c) ≤ y * (y * y) :=
      mul_le_mul hy hcc (mul_nonneg hc.le hc.le) hypos.le
    nlinarith
  have hepos : 0 < Real.exp (-y * (1.5976 + 0.07056 * y * y)) := Real.exp_pos _
  have hval : Real.logb 10 (Real.exp (-y * (1.5976 + 0.07056 * y * y))) ≤ -T := by
    have hl10 := log_ten_lt
    have hl10pos : 0 < Real.log 10 := Real.log_pos (by norm_num)
    rw [Real.logb, Real.log_exp, div_le_iff₀ hl10pos]
    nlinarith
  set e := Real.exp (-y * (1.5976 + 0.07056 * y * y)) with hedef
  have h10 : (1.0 : ℝ) = 1 := by norm_num
  rw [h10]
  have hfrac : e / (1 + e) ≤ e := div_le_self hepos.le (by linarith)
  have hfpos : 0 < e / (1 + e) := div_pos hepos (by linarith)
  have hlogb := Real.logb_le_logb_of_le (b := 10) (by norm_num) hfpos hfrac
  linarith

/-- C14: for every reachable detector state there is a silence duration `D > 0` such that
`isAvailable(t)` is false for every timestamp `t` with `t − LatestTimestamp ≥ D` (real
arithmetic). -/
theorem C14_silence_is_detected (fd : FailureDetector) (hr : Reachable fd) :
    ∃ D : ℝ, 0 < D ∧
      ∀ t : ℝ, D ≤ t - fd.state.LatestTimestamp → isAvailable fd t = some false := by
  obtain ⟨hcfg, w, hw, _⟩ := DetectorInv_of_Reachable hr
  have hstd : (0 : ℝ) < ensureValidStdDev fd (StdDev w) := by
    unfold ensureValidStdDev
    apply lt_max_of_lt_right
    exact_mod_cast hcfg.2.2.1
  have hT : 0 < fd.Threshold := hcfg.1
  refine ⟨max 1 (Mean w + (fd.AcceptableHeartbeatPauseMilliseconds : ℝ) +
    (2 * fd.Threshold) * ensureValidStdDev fd (StdDev w)), lt_max_of_lt_left one_pos, ?_⟩
  intro t ht
  have ht2 : Mean w + (fd.AcceptableHeartbeatPauseMilliseconds : ℝ) +
      (2 * fd.Threshold) * ensureValidStdDev fd (StdDev w) ≤ t - fd.state.LatestTimestamp :=
    le_trans (le_max_right _ _) ht
  have hge := calcPhi_ge fd.Threshold (2 * fd.Threshold) (t - fd.state.LatestTimestamp)
    (Mean w + (fd.AcceptableHeartbeatPauseMilliseconds : ℝ))
    (ensureValidStdDev fd (StdDev w)) hT.le (by linarith)
    (by nlinarith [mul_pos hT hT, mul_pos (mul_pos hT hT) hT]) hstd ht2
  rw [isAvailable_of_history fd w t hw]
  simp [not_lt.mpr hge]

/-- C14, checked on the run of the tests: configuration `(8, 100, 1, 0, 10)`, heartbeats at
1000, 1010 and 1020; the detector is available at 1020 and unavailable at 1040. -/
theorem C14_silence_is_detected_witness :
    ∃ fd0 fd, NewFailureDetector 8 100 1 0 10 = some (Except.ok fd0) ∧
      runHeartbeats fd0 [1000, 1010, 1020] = some fd ∧
      isAvailable fd 1020 = some true ∧ isAvailable fd 1040 = some false ∧
      ∃ D : ℝ, 0 < D ∧
        ∀ t : ℝ, D ≤ t - fd.state.LatestTimestamp → isAvailable fd t = some false := by
  have h8 : Real.log 2 < 8 := lt_trans Real.log_two_lt_d9 (by norm_num)
  obtain ⟨hnew, hrun⟩ := runHeartbeats_three_beats 8 100 1 0 h8 (by decide) (by decide)
    (by decide)
  have hr : Reachable (detectorOf 8 100 1 0 10 [8, 12, 10, 10] 1020) :=
    Reachable_runHeartbeats _ _ _ (Reachable.init _ _ _ _ _ _ hnew) hrun
  refine ⟨_, _, hnew, hrun, ?_, ?_, C14_silence_is_detected _ hr⟩
  · exact isAvailable_detectorOf_grace 8 100 1 0 10 [8, 12, 10, 10] 1020 1020 (by decide) h8
      (by norm_num)
  · rw [isAvailable_of_history _ (windowOf 100 [8, 12, 10, 10]) 1040 rfl]
    have hmean : Mean (windowOf 100 [8, 12, 10, 10]) = 10 := by
      simp only [Mean, windowOf]
      norm_num
    have hvar : Variance (windowOf 100 [8, 12, 10, 10]) = 2 := by
      simp only [Variance, Mean, windowOf]
      norm_num
    have hsd : StdDev (windowOf 100 [8, 12, 10, 10]) ≤ 1.5 := by
      unfold StdDev
      rw [hvar, Real.sqrt_le_left (by norm_num)]
      norm_num
    have hstd : ensureValidStdDev (detectorOf 8 100 1 0 10 [8, 12, 10, 10] 1020)
        (StdDev (windowOf 100 [8, 12, 10, 10])) ≤ 1.5 := by
      unfold ensureValidStdDev
      apply max_le hsd
      simp only [detectorOf]
      norm_num
    have hpos : (0 : ℝ) < ensureValidStdDev (detectorOf 8 100 1 0 10 [8, 12, 10, 10] 1020)
        (StdDev (windowOf 100 [8, 12, 10, 10])) := by
      unfold ensureValidStdDev
      apply lt_max_of_lt_right
      simp only [detectorOf]
      norm_num
    generalize ensureValidStdDev (detectorOf 8 100 1 0 10 [8, 12, 10, 10] 1020)
      (StdDev (windowOf 100 [8, 12, 10, 10])) = sd at hstd hpos ⊢
    rw [hmean]
    simp only [detectorOf]
    have hge := calcPhi_ge 8 6.66 (1040 - 1020) (10 + ((0 : Int) : ℝ)) sd (by norm_num)
      (by norm_num) (by norm_num) hpos (by norm_num; linarith)
    simp only [Int.cast_zero, add_zero] at hge
    simpa using hge

/-! ## Steady cadence -/

theorem runHeartbeats_append (fd : FailureDetector) (ts : List ℝ) (t : ℝ)
    (fd1 fd2 : FailureDetector) (err : Option String)
    (h1 : runHeartbeats fd ts = some fd1) (h2 : Heartbeat fd1 t = some (fd2, err)) :
    runHeartbeats fd (ts ++ [t]) = some fd2 := by
  induction ts generalizing fd with
  | nil =>
    cases h1
    simp [runHeartbeats, h2]
  | cons a ts ih =>
    cases hb : Heartbeat fd a with
    | none => simp [runHeartbeats, hb] at h1
    | some q =>
      obtain ⟨fd3, e3⟩ := q
      simp only [runHeartbeats, hb] at h1
      simp only [List.cons_append, runHeartbeats, hb]
      exact ih fd3 h1

theorem addIntervals_append (w : HeartbeatHistory) (xs : List ℝ) (x : ℝ)
    (w1 w2 : HeartbeatHistory) (h1 : addIntervals w xs = some w1)
    (h2 : AddInterval w1 x = some w2) : addIntervals w (xs ++ [x]) = some w2 := by
  induction xs generalizing w with
  | nil =>
    cases h1
    simp [addIntervals, h2]
  | cons a xs ih =>
    cases hb : AddInterval w a with
    | none => simp [addIntervals, hb] at h1
    | some w3 =>
      simp only [addIntervals, hb] at h1
      simp only [List.cons_append, addIntervals, hb]
      exact ih w3 h1

theorem bootstrapIntervals_ne_nil (E M : Int) (hM : 0 < M) : bootstrapIntervals E M ≠ [] := by
  unfold bootstrapIntervals
  by_cases h2 : 2 ≤ M
  · have : 2 - M.toNat = 0 := by omega
    simp [this]
  · have : 2 - M.toNat = 1 := by omega
    simp [this]

theorem SuffixMeanGE_drop {d : ℝ} {xs : List ℝ} (h : SuffixMeanGE d xs) (m : Nat) :
    SuffixMeanGE d (xs.drop m) := by
  intro n
  rw [List.drop_drop]
  exact h (m + n)

theorem SuffixMeanGE_bootstrap (E M : Int) (hE : 0 < E) :
    SuffixMeanGE (E : ℝ) (bootstrapIntervals E M) := by
  have hq : (0 : ℝ) ≤ (Int.tdiv E 4 : ℝ) := by
    have : 0 ≤ Int.tdiv E 4 := Int.tdiv_nonneg hE.le (by decide)
    exact_mod_cast this
  unfold bootstrapIntervals
  apply SuffixMeanGE_drop
  intro n
  match n with
  | 0 =>
    simp only [List.drop_zero, List.length_cons, List.length_nil, List.sum_cons, List.sum_nil]
    push_cast
    linarith
  | 1 =>
    simp only [List.drop_succ_cons, List.drop_zero, List.length_cons, List.length_nil,
      List.sum_cons, List.sum_nil]
    push_cast
    linarith
  | k + 2 =>
    simp

/-- Learning an interval equal to `d` keeps every suffix mean at least `d`. -/
theorem SuffixMeanGE_step {d : ℝ} {xs : List ℝ} (h : SuffixMeanGE d xs) (m : Nat) :
    SuffixMeanGE d (xs.drop m ++ [d]) := by
  intro n
  rw [List.drop_append_eq_append_drop, List.length_append, List.sum_append, List.drop_drop]
  have h1 := h (m + n)
  have h2 : d * (((([d] : List ℝ).drop (n - (xs.drop m).length)).length : Nat) : ℝ) ≤
      (([d] : List ℝ).drop (n - (xs.drop m).length)).sum := by
    cases n - (xs.drop m).length with
    | zero => simp
    | succ j => simp
  push_cast
  linarith

theorem mean_ge_of_SuffixMeanGE {d : ℝ} {xs : List ℝ} (h : SuffixMeanGE d xs)
    (hne : xs ≠ []) : d ≤ xs.sum / (xs.length : ℝ) := by
  have hpos : (0 : ℝ) < (xs.length : ℝ) := by
    have : 0 < xs.length := List.length_pos.mpr hne
    exact_mod_cast this
  rw [le_div_iff₀ hpos]
  simpa using h 0

/-- The run of a steady cadence of period `E` (the heartbeat estimate) from the fresh
detector: after the heartbeats at `t0, ..., t0 + k·E` the window is the bootstrap window with
`k` intervals `E` added, and its suffix means are at least `E`. -/
theorem steady_run (threshold : ℝ) (M s p E : Int) (hthr : Real.log 2 < threshold)
    (hM : 0 < M) (hs : 0 < s) (hp : 0 ≤ p) (hE : 0 < E) (t0 : ℝ) (ht0 : 0 < t0) :
    ∀ k : Nat, ∃ xs,
      runHeartbeats (detectorOf threshold M s p E (bootstrapIntervals E M) 0)
          (cadence t0 E k) =
        some (detectorOf threshold M s p E xs (t0 + (k : ℝ) * (E : ℝ))) ∧
      addIntervals (windowOf M (bootstrapIntervals E M)) (List.replicate k (E : ℝ)) =
        some (windowOf M xs) ∧
      SuffixMeanGE (E : ℝ) xs ∧ xs ≠ [] := by
  have hER : (0 : ℝ) < (E : ℝ) := by exact_mod_cast hE
  have hpR : (0 : ℝ) ≤ (p : ℝ) := by exact_mod_cast hp
  intro k
  induction k with
  | zero =>
    refine ⟨bootstrapIntervals E M, ?_, rfl, SuffixMeanGE_bootstrap E M hE,
      bootstrapIntervals_ne_nil E M hM⟩
    simp only [cadence, List.range_succ, List.range_zero, List.nil_append, List.map_cons,
      List.map_nil, runHeartbeats]
    rw [Heartbeat_detectorOf_unseeded threshold M s p E _ _ hM]
  | succ k ih =>
    obtain ⟨xs, hrun, hadd, hsuf, hne⟩ := ih
    have hlast : t0 + (k : ℝ) * (E : ℝ) ≠ 0 := by
      have : 0 ≤ (k : ℝ) * (E : ℝ) := mul_nonneg (Nat.cast_nonneg k) hER.le
      linarith
    have hdiff : t0 + ((k + 1 : Nat) : ℝ) * (E : ℝ) - (t0 + (k : ℝ) * (E : ℝ)) = (E : ℝ) := by
      push_cast
      ring
    have hmean := mean_ge_of_SuffixMeanGE hsuf hne
    have hb := Heartbeat_detectorOf_grace threshold M s p E xs (t0 + (k : ℝ) * (E : ℝ))
      (t0 + ((k + 1 : Nat) : ℝ) * (E : ℝ)) hM hs hthr hlast (by rw [hdiff]; linarith)
    rw [hdiff] at hb
    refine ⟨xs.drop (xs.length + 1 - M.toNat) ++ [(E : ℝ)], ?_, ?_,
      SuffixMeanGE_step hsuf _, by simp⟩
    · have hc : cadence t0 E (k + 1) =
          cadence t0 E k ++ [t0 + ((k + 1 : Nat) : ℝ) * (E : ℝ)] := by
        simp only [cadence]
        rw [List.range_succ, List.map_append]
        rfl
      rw [hc]
      exact runHeartbeats_append _ _ _ _ _ _ hrun hb
    · rw [List.replicate_succ']
      exact addIntervals_append _ _ _ _ _ hadd (AddInterval_windowOf M xs (E : ℝ) hM)

/-- In exact arithmetic (a `float64` read as a real number): for every valid configuration with `Threshold > ln 2` and every `t0 > 0`, when
heartbeats are recorded at `t0, t0 + d, ..., t0 + k·d` with
`d = FirstHeartbeatEstimateMilliseconds`, the run returns, the detector is available at each
heartbeat time after the first, every one of the `k` intervals is learned (the final window
is the bootstrap window with `k` intervals `d` added by `AddInterval`), and after the last
heartbeat `isAvailable(t)` is true for every `t` with `t0 + k·d ≤ t ≤ t0 + (k+1)·d`. -/
theorem exact_steady_cadence (threshold : ℝ) (M s p E : Int) (hthr : Real.log 2 < threshold)
    (hM : 0 < M) (hs : 0 < s) (hp : 0 ≤ p) (hE : 0 < E) (t0 : ℝ) (ht0 : 0 < t0) (k : Nat) :
    ∃ fd0 fdk b w, NewFailureDetector threshold M s p E = some (Except.ok fd0) ∧
      runHeartbeats fd0 (cadence t0 E k) = some fdk ∧
      fdk.state.LatestTimestamp = t0 + (k : ℝ) * (E : ℝ) ∧
      firstHeartbeat E M = some (Except.ok b) ∧ fdk.state.History = some w ∧
      addIntervals b (List.replicate k (E : ℝ)) = some w ∧
      (∀ j : Nat, j < k → ∃ fdj, runHeartbeats fd0 (cadence t0 E j) = some fdj ∧
        isAvailable fdj (t0 + ((j + 1 : Nat) : ℝ) * (E : ℝ)) = some true) ∧
      (∀ t : ℝ, t0 + (k : ℝ) * (E : ℝ) ≤ t → t ≤ t0 + ((k : ℝ) + 1) * (E : ℝ) →
        isAvailable fdk t = some true) := by
  have hthr0 : 0 < threshold := lt_trans (Real.log_pos (by norm_num)) hthr
  have hpR : (0 : ℝ) ≤ (p : ℝ) := by exact_mod_cast hp
  have hgrace : ∀ (j : Nat) (xs : List ℝ), SuffixMeanGE (E : ℝ) xs → xs ≠ [] → ∀ t : ℝ,
      t ≤ t0 + ((j : ℝ) + 1) * (E : ℝ) →
      isAvailable (detectorOf threshold M s p E xs (t0 + (j : ℝ) * (E : ℝ))) t =
        some true := by
    intro j xs hsuf hne t ht
    have hmean := mean_ge_of_SuffixMeanGE hsuf hne
    apply isAvailable_detectorOf_grace threshold M s p E xs _ t hs hthr
    have : t - (t0 + (j : ℝ) * (E : ℝ)) ≤ (E : ℝ) := by linarith
    linarith
  obtain ⟨xs, hrun, hadd, hsuf, hne⟩ := steady_run threshold M s p E hthr hM hs hp hE t0 ht0 k
  refine ⟨_, _, _, _, NewFailureDetector_detectorOf threshold M s p E hthr0 hM hs hp hE, hrun,
    rfl, firstHeartbeat_windowOf E M hM, rfl, hadd, ?_, ?_⟩
  · intro j _
    obtain ⟨ys, hrunj, _, hsufj, hnej⟩ :=
      steady_run threshold M s p E hthr hM hs hp hE t0 ht0 j
    refine ⟨_, hrunj, hgrace j ys hsufj hnej _ ?_⟩
    push_cast
    exact le_refl _
  · intro t _ ht
    exact hgrace k xs hsuf hne t ht

/-- The exact-arithmetic steady cadence, checked on the run of the tests: configuration `(8, 3, 10, 0, 10)`, heartbeats
every 10 ms from 1000 to 1050; the detector is available at the end of the run. -/
theorem exact_steady_cadence_witness :
    ∃ fd0 fdk, NewFailureDetector 8 3 10 0 10 = some (Except.ok fd0) ∧
      runHeartbeats fd0 (cadence 1000 ((10 : Int) : ℝ) 5) = some fdk ∧
      fdk.state.LatestTimestamp = 1050 ∧ isAvailable fdk 1050 = some true ∧
      isAvailable fdk 1060 = some true := by
  have h8 : Real.log 2 < 8 := lt_trans Real.log_two_lt_d9 (by norm_num)
  obtain ⟨fd0, fdk, b, w, h0, hrun, hlast, _, _, _, _, hav⟩ :=
    exact_steady_cadence 8 3 10 0 10 h8 (by decide) (by decide) (by decide) (by decide) 1000
      (by norm_num) 5
  refine ⟨fd0, fdk, h0, hrun, ?_, hav 1050 (by norm_num) (by norm_num),
    hav 1060 (by norm_num) (by norm_num)⟩
  rw [hlast]
  norm_num

/-! ## Recovery -/

theorem bootstrapIntervals_nonneg (E M : Int) (hE : 0 < E) :
    ∀ x ∈ bootstrapIntervals E M, (0 : ℝ) ≤ x := by
  have hq0 : 0 ≤ Int.tdiv E 4 := Int.tdiv_nonneg hE.le (by decide)
  have hqE : Int.tdiv E 4 ≤ E := by
    have h : Int.tdiv E 4 = E / 4 := Int.tdiv_eq_ediv hE.le (by decide)
    omega
  have hq0R : (0 : ℝ) ≤ (Int.tdiv E 4 : ℝ) := by exact_mod_cast hq0
  have hqER : (Int.tdiv E 4 : ℝ) ≤ (E : ℝ) := by exact_mod_cast hqE
  intro x hx
  unfold bootstrapIntervals at hx
  have hx2 := List.mem_of_mem_drop hx
  simp only [List.mem_cons, List.mem_singleton, List.not_mem_nil, or_false] at hx2
  rcases hx2 with rfl | rfl <;> linarith

/-- After a heartbeat at a timestamp not before the latest one, on a state whose window
holds no negative interval, the window still holds no negative interval and the detector is
available at that timestamp, whatever it was before. -/
theorem recovery_step (fd : FailureDetector) (hinv : DetectorInv fd)
    (hthr : Real.log 2 < fd.Threshold)
    (hnn : ∀ w, fd.state.History = some w → ∀ x ∈ w.Intervals, (0 : ℝ) ≤ x) (t : ℝ)
    (ht : fd.state.LatestTimestamp ≤ t) :
    ∃ fd1, Heartbeat fd t = some (fd1, none) ∧ DetectorInv fd1 ∧
      fd1.Threshold = fd.Threshold ∧ fd1.state.LatestTimestamp = t ∧
      (∀ w, fd1.state.History = some w → ∀ x ∈ w.Intervals, (0 : ℝ) ≤ x) ∧
      isAvailable fd1 t = some true := by
  obtain ⟨fd1, h1, hinv1, hlast1, hthr1, hM1, hs1, hp1, hE1⟩ := DetectorInv_Heartbeat hinv t
  have hnn1 : ∀ w, fd1.state.History = some w → ∀ x ∈ w.Intervals, (0 : ℝ) ≤ x := by
    obtain ⟨hcfg, w, hw, hM, hlen, hcap, hS⟩ := hinv
    by_cases h0 : fd.state.LatestTimestamp = 0
    · rw [Heartbeat_of_unseeded fd t h0 _
        (firstHeartbeat_windowOf fd.FirstHeartbeatEstimateMilliseconds fd.MaxSamples
          hcfg.2.1)] at h1
      cases h1
      intro w2 hw2
      cases hw2
      exact bootstrapIntervals_nonneg _ _ hcfg.2.2.2.2
    · rcases isAvailable_cases fd w t hw with hav | hav
      · have hpos : 0 < w.MaxSamples := by rw [hM]; exact hcfg.2.1
        obtain ⟨w1, hadd, _, hI, _⟩ :=
          AddInterval_spec _ w (t - fd.state.LatestTimestamp) rfl hpos
        rw [Heartbeat_of_available fd w w1 t h0 hw hav hadd] at h1
        cases h1
        intro w2 hw2
        cases hw2
        intro x hx
        rw [hI, List.mem_append] at hx
        rcases hx with hx | hx
        · exact hnn w hw x (List.mem_of_mem_drop hx)
        · rw [List.mem_singleton] at hx
          rw [hx]
          linarith
      · rw [Heartbeat_of_unavailable fd t h0 hav] at h1
        cases h1
        exact hnn
  refine ⟨fd1, h1, hinv1, hthr1, hlast1, hnn1, ?_⟩
  obtain ⟨hcfg1, w1, hw1, _, hlen1, _, hS1⟩ := hinv1
  have hmean : 0 ≤ Mean w1 := by
    unfold Mean
    rw [hS1.1]
    apply div_nonneg
    · exact List.sum_nonneg (hnn1 w1 hw1)
    · exact Nat.cast_nonneg _
  have hpR : (0 : ℝ) ≤ (fd1.AcceptableHeartbeatPauseMilliseconds : ℝ) := by
    exact_mod_cast hcfg1.2.2.2.1
  have hstd : (0 : ℝ) < ensureValidStdDev fd1 (StdDev w1) := by
    unfold ensureValidStdDev
    apply lt_max_of_lt_right
    exact_mod_cast hcfg1.2.2.1
  have hle := calcPhi_le_log_two (t - fd1.state.LatestTimestamp)
    (Mean w1 + (fd1.AcceptableHeartbeatPauseMilliseconds : ℝ)) _
    (by rw [hlast1]; linarith) hstd
  rw [isAvailable_of_history fd1 w1 t hw1]
  have hlt : calcPhi (t - fd1.state.LatestTimestamp)
      (Mean w1 + (fd1.AcceptableHeartbeatPauseMilliseconds : ℝ))
      (ensureValidStdDev fd1 (StdDev w1)) < fd1.Threshold := by
    rw [hthr1]
    exact lt_of_le_of_lt hle hthr
  simp [hlt]

theorem recovery_run : ∀ (ts : List ℝ) (fd : FailureDetector), DetectorInv fd →
    Real.log 2 < fd.Threshold →
    (∀ w, fd.state.History = some w → ∀ x ∈ w.Intervals, (0 : ℝ) ≤ x) →
    (∀ x ∈ ts, fd.state.LatestTimestamp ≤ x) → ts.Pairwise (fun a b => a ≤ b) →
    ∃ fd1, runHeartbeats fd ts = some fd1 ∧ DetectorInv fd1 ∧
      Real.log 2 < fd1.Threshold ∧
      (∀ w, fd1.state.History = some w → ∀ x ∈ w.Intervals, (0 : ℝ) ≤ x) := by
  intro ts
  induction ts with
  | nil =>
    intro fd hinv hthr hnn _ _
    exact ⟨fd, rfl, hinv, hthr, hnn⟩
  | cons t ts ih =>
    intro fd hinv hthr hnn hge hpw
    obtain ⟨fd2, h2, hinv2, hthr2, hlast2, hnn2, _⟩ :=
      recovery_step fd hinv hthr hnn t (hge t (List.mem_cons_self t ts))
    rw [List.pairwise_cons] at hpw
    obtain ⟨fd1, h1, r⟩ := ih fd2 hinv2 (hthr2 ▸ hthr) hnn2
      (fun x hx => by rw [hlast2]; exact hpw.1 x hx) hpw.2
    refine ⟨fd1, ?_, r⟩
    simp only [runHeartbeats, h2]
    exact h1

/-- In exact arithmetic (a `float64` read as a real number): for every detector with `Threshold > ln 2` whose heartbeats were recorded at
non-decreasing positive timestamps, and every further timestamp `t ≥ LatestTimestamp`, the
heartbeat at `t` returns and the state after it satisfies `isAvailable(t) = true`, whether or
not the detector was available at `t` before that heartbeat. -/
theorem exact_recovery_after_heartbeat (threshold : ℝ) (M s p E : Int)
    (hthr : Real.log 2 < threshold) (hM : 0 < M) (hs : 0 < s) (hp : 0 ≤ p) (hE : 0 < E)
    (ts : List ℝ) (hpos : ∀ x ∈ ts, (0 : ℝ) < x) (hmono : ts.Pairwise (fun a b => a ≤ b)) :
    ∃ fd0 fd, NewFailureDetector threshold M s p E = some (Except.ok fd0) ∧
      runHeartbeats fd0 ts = some fd ∧
      ∀ t : ℝ, fd.state.LatestTimestamp ≤ t →
        ∃ fd1, Heartbeat fd t = some (fd1, none) ∧ fd1.state.LatestTimestamp = t ∧
          isAvailable fd1 t = some true := by
  have hthr0 : 0 < threshold := lt_trans (Real.log_pos (by norm_num)) hthr
  have hnew := NewFailureDetector_detectorOf threshold M s p E hthr0 hM hs hp hE
  have hinv0 := (DetectorInv_of_new hnew).1
  have hnn0 : ∀ w, (detectorOf threshold M s p E (bootstrapIntervals E M) 0).state.History =
      some w → ∀ x ∈ w.Intervals, (0 : ℝ) ≤ x := by
    intro w hw
    cases hw
    exact bootstrapIntervals_nonneg E M hE
  obtain ⟨fd, hrun, hinv, hthr1, hnn⟩ := recovery_run ts _ hinv0 hthr hnn0
    (fun x hx => le_of_lt (hpos x hx)) hmono
  refine ⟨_, fd, hnew, hrun, ?_⟩
  intro t ht
  obtain ⟨fd1, h1, _, _, hlast1, _, hav⟩ := recovery_step fd hinv hthr1 hnn t ht
  exact ⟨fd1, h1, hlast1, hav⟩

/-- The exact-arithmetic recovery, checked on the run of the example program: configuration `(8, 10, 10, 0, 100)`,
heartbeats at 1000 and 1100, then silence until 1400; the detector is unavailable at 1400,
and available at 1400 once the heartbeat at 1400 is recorded. -/
theorem exact_recovery_after_heartbeat_witness :
    ∃ fd0 fd fd1, NewFailureDetector 8 10 10 0 100 = some (Except.ok fd0) ∧
      runHeartbeats fd0 [1000, 1100] = some fd ∧
      isAvailable fd 1400 = some false ∧
      Heartbeat fd 1400 = some (fd1, none) ∧ isAvailable fd1 1400 = some true := by
  have h8 : Real.log 2 < 8 := lt_trans Real.log_two_lt_d9 (by norm_num)
  have hboot : bootstrapIntervals 100 10 = [75, 125] := by
    have hq : Int.tdiv 100 4 = 25 := by decide
    simp only [bootstrapIntervals, hq]
    norm_num
  have hnew := NewFailureDetector_detectorOf 8 10 10 0 100 (by norm_num) (by decide)
    (by decide) (by decide) (by decide)
  rw [hboot] at hnew
  have hb1 := Heartbeat_detectorOf_unseeded 8 10 10 0 100 [75, 125] 1000 (by decide)
  rw [hboot] at hb1
  have hb2 : Heartbeat (detectorOf 8 10 10 0 100 [75, 125] 1000) 1100 =
      some (detectorOf 8 10 10 0 100 [75, 125, 100] 1100, none) := by
    rw [Heartbeat_detectorOf_grace 8 10 10 0 100 [75, 125] 1000 1100 (by decide) (by decide)
      h8 (by norm_num) (by norm_num)]
    norm_num
  have hrun : runHeartbeats (detectorOf 8 10 10 0 100 [75, 125] 0) [1000, 1100] =
      some (detectorOf 8 10 10 0 100 [75, 125, 100] 1100) := by
    simp only [runHeartbeats, hb1, hb2]
  obtain ⟨fd0, fd, h0, hr, hrec⟩ := exact_recovery_after_heartbeat 8 10 10 0 100 h8 (by decide)
    (by decide) (by decide) (by decide) [1000, 1100] (by simp) (by simp; norm_num)
  rw [hnew] at h0
  cases h0
  rw [hrun] at hr
  cases hr
  obtain ⟨fd1, h1, _, hav⟩ := hrec 1400 (by simp only [detectorOf]; norm_num)
  refine ⟨_, _, fd1, hnew, hrun, ?_, h1, hav⟩
  rw [isAvailable_of_history _ (windowOf 10 [75, 125, 100]) 1400 rfl]
  have hmean : Mean (windowOf 10 [75, 125, 100]) = 100 := by
    simp only [Mean, windowOf]
    norm_num
  have hvar : Variance (windowOf 10 [75, 125, 100]) = 1250 / 3 := by
    simp only [Variance, Mean, windowOf]
    norm_num
  have hsd : StdDev (windowOf 10 [75, 125, 100]) ≤ 21 := by
    unfold StdDev
    rw [hvar, Real.sqrt_le_left (by norm_num)]
    norm_num
  have hstd : ensureValidStdDev (detectorOf 8 10 10 0 100 [75, 125, 100] 1100)
      (StdDev (windowOf 10 [75, 125, 100])) ≤ 21 := by
    unfold ensureValidStdDev
    apply max_le hsd
    simp only [detectorOf]
    norm_num
  have hpos : (0 : ℝ) < ensureValidStdDev (detectorOf 8 10 10 0 100 [75, 125, 100] 1100)
      (StdDev (windowOf 10 [75, 125, 100])) := by
    unfold ensureValidStdDev
    apply lt_max_of_lt_right
    simp only [detectorOf]
    norm_num
  generalize ensureValidStdDev (detectorOf 8 10 10 0 100 [75, 125, 100] 1100)
    (StdDev (windowOf 10 [75, 125, 100])) = sd at hstd hpos ⊢
  rw [hmean]
  simp only [detectorOf]
  have hge := calcPhi_ge 8 9.5 (1400 - 1100) (100 + ((0 : Int) : ℝ)) sd (by norm_num)
    (by norm_num) (by norm_num) hpos (by norm_num; linarith)
  simp only [Int.cast_zero, add_zero] at hge
  simpa using hge

/-! ## The two branches of `calcPhi` -/

/-- Past the mean `calcPhi` is the upstream logistic method. -/
theorem calcPhi_eq_logisticPhi_of_gt (timeDiff mean stdDev : ℝ) (h : timeDiff > mean) :
    calcPhi timeDiff mean stdDev = logisticPhi timeDiff mean stdDev := by
  rw [calcPhi_of_gt _ _ _ h]
  simp only [logisticPhi]
  have h10 : (1.0 : ℝ) = 1 := by norm_num
  rw [h10]
  have hexp : -((timeDiff - mean) / stdDev) *
      (1.5976 + 0.07056 * ((timeDiff - mean) / stdDev) * ((timeDiff - mean) / stdDev)) =
      -((timeDiff - mean) / stdDev) * (1.5976 + 0.07056 * ((timeDiff - mean) / stdDev) ^ 2) := by
    ring
  rw [hexp]
  set e := Real.exp (-((timeDiff - mean) / stdDev) *
    (1.5976 + 0.07056 * ((timeDiff - mean) / stdDev) ^ 2)) with hedef
  have he : 0 < e := Real.exp_pos _
  have : 1 - 1 / (1 + e) = e / (1 + e) := by
    field_simp
  rw [this]

/-- Up to the mean `calcPhi` takes the natural logarithm where the upstream method takes the
decimal one: it is `ln 10` times the upstream value. -/
theorem calcPhi_eq_mul_logisticPhi_of_le (timeDiff mean stdDev : ℝ) (h : timeDiff ≤ mean) :
    calcPhi timeDiff mean stdDev = Real.log 10 * logisticPhi timeDiff mean stdDev := by
  rw [calcPhi_of_le _ _ _ h]
  simp only [logisticPhi]
  have h10 : (1.0 : ℝ) = 1 := by norm_num
  rw [h10]
  have hexp : -((timeDiff - mean) / stdDev) *
      (1.5976 + 0.07056 * ((timeDiff - mean) / stdDev) * ((timeDiff - mean) / stdDev)) =
      -((timeDiff - mean) / stdDev) * (1.5976 + 0.07056 * ((timeDiff - mean) / stdDev) ^ 2) := by
    ring
  rw [hexp]
  have hl10 : Real.log 10 ≠ 0 := ne_of_gt (Real.log_pos (by norm_num))
  rw [Real.logb]
  generalize Real.log (1 - 1 / (1 + Real.exp (-((timeDiff - mean) / stdDev) *
    (1.5976 + 0.07056 * ((timeDiff - mean) / stdDev) ^ 2)))) = L
  field_simp
  ring

/-- C16, evaluated at `calcPhi(10, 10, 1)`: the time difference equals the mean, so `y = 0`
and `e = 1`; the code returns `−ln(1/2) = ln 2`, the upstream logistic method gives
`−log10(1/2) = ln 2 / ln 10`, and the two differ. -/
theorem C16_calcPhi_differs_from_logistic_method :
    calcPhi 10 10 1 = Real.log 2 ∧
      logisticPhi 10 10 1 = Real.log 2 / Real.log 10 ∧
      calcPhi 10 10 1 ≠ logisticPhi 10 10 1 := by
  have hc : calcPhi 10 10 1 = Real.log 2 := by
    rw [calcPhi_of_le 10 10 1 (le_refl _)]
    norm_num
    rw [Real.log_div (by norm_num) (by norm_num)]
    simp
  have hl : logisticPhi 10 10 1 = Real.log 2 / Real.log 10 := by
    simp only [logisticPhi, Real.logb]
    norm_num
    rw [Real.log_div (by norm_num) (by norm_num)]
    simp
    ring
  refine ⟨hc, hl, ?_⟩
  rw [hc, hl]
  have h2 : 0 < Real.log 2 := Real.log_pos (by norm_num)
  have h10 : 2 < Real.log 10 := by
    have h8 : Real.log 8 ≤ Real.log 10 := Real.log_le_log (by norm_num) (by norm_num)
    have h83 : Real.log 8 = 3 * Real.log 2 := by
      rw [show (8 : ℝ) = 2 ^ 3 by norm_num, Real.log_pow]
      norm_num
    have := Real.log_two_gt_d9
    linarith
  intro heq
  have h10pos : 0 < Real.log 10 := by linarith
  rw [eq_div_iff (ne_of_gt h10pos)] at heq
  nlinarith

theorem calcPhi_at_mean (mean stdDev : ℝ) : calcPhi mean mean stdDev = Real.log 2 := by
  rw [calcPhi_of_le mean mean stdDev (le_refl _)]
  norm_num
  rw [Real.log_div (by norm_num) (by norm_num)]
  simp

/-- Just past the mean (up to 0.4 standard deviations) the suspicion level is below `1/2`,
hence below the value `ln 2` that it has at the mean. -/
theorem calcPhi_lt_half (timeDiff mean stdDev : ℝ) (hs : 0 < stdDev) (hgt : timeDiff > mean)
    (h : timeDiff ≤ mean + 0.4 * stdDev) : calcPhi timeDiff mean stdDev < 1 / 2 := by
  rw [calcPhi_of_gt _ _ _ hgt]
  have hy0 : 0 < (timeDiff - mean) / stdDev := div_pos (by linarith) hs
  have hy : (timeDiff - mean) / stdDev ≤ 0.4 := by
    rw [div_le_iff₀ hs]
    linarith
  set y := (timeDiff - mean) / stdDev with hydef
  have hz : y * (1.5976 + 0.07056 * y * y) ≤ 0.6931471803 := by
    have hyy : y * y ≤ 0.4 * 0.4 := mul_le_mul hy hy hy0.le (by norm_num)
    have hyyy : y * (y * y) ≤ 0.4 * (0.4 * 0.4) :=
      mul_le_mul hy hyy (mul_nonneg hy0.le hy0.le) (by norm_num)
    nlinarith
  have hlog2 := Real.log_two_gt_d9
  have he : 1 / 2 ≤ Real.exp (-y * (1.5976 + 0.07056 * y * y)) := by
    have h1 : Real.exp (-Real.log 2) ≤ Real.exp (-y * (1.5976 + 0.07056 * y * y)) := by
      apply Real.exp_le_exp.mpr
      linarith
    rw [Real.exp_neg, Real.exp_log (by norm_num)] at h1
    linarith
  set e := Real.exp (-y * (1.5976 + 0.07056 * y * y)) with hedef
  have h10 : (1.0 : ℝ) = 1 := by norm_num
  rw [h10]
  have hthird : (1 : ℝ) / 3 ≤ e / (1 + e) := by
    rw [le_div_iff₀ (by linarith)]
    linarith
  have hlogb := Real.logb_le_logb_of_le (b := 10) (by norm_num) (by norm_num) hthird
  have h3 : Real.logb 10 (1 / 3) > -(1 / 2) := by
    have hl10pos : 0 < Real.log 10 := Real.log_pos (by norm_num)
    have h9 : Real.log 9 < Real.log 10 := Real.log_lt_log (by norm_num) (by norm_num)
    have h93 : Real.log 9 = 2 * Real.log 3 := by
      rw [show (9 : ℝ) = 3 ^ 2 by norm_num, Real.log_pow]
      norm_num
    rw [Real.logb, Real.log_div (by norm_num) (by norm_num), Real.log_one, gt_iff_lt,
      lt_div_iff₀ hl10pos]
    linarith
  linarith

/-- Within one branch (both time differences up to the mean, or both past it) `calcPhi` does
not fall when the time difference grows. -/
theorem calcPhi_mono_in_branch (td1 td2 mean stdDev : ℝ) (hs : 0 < stdDev) (h : td1 ≤ td2)
    (hb : td2 ≤ mean ∨ mean < td1) :
    calcPhi td1 mean stdDev ≤ calcPhi td2 mean stdDev := by
  have hy : (td1 - mean) / stdDev ≤ (td2 - mean) / stdDev :=
    div_le_div_of_nonneg_right (by linarith) hs.le
  have hmono : ∀ a b : ℝ, a ≤ b →
      Real.exp (-b * (1.5976 + 0.07056 * b * b)) / (1 + Real.exp (-b * (1.5976 + 0.07056 * b * b)))
        ≤ Real.exp (-a * (1.5976 + 0.07056 * a * a)) /
          (1 + Real.exp (-a * (1.5976 + 0.07056 * a * a))) := by
    intro a b hab
    have hz : -b * (1.5976 + 0.07056 * b * b) ≤ -a * (1.5976 + 0.07056 * a * a) := by
      nlinarith [sq_nonneg (a + b), sq_nonneg a, sq_nonneg b, sq_nonneg (a - b),
        mul_nonneg (sub_nonneg.mpr hab) (sq_nonneg (a + b)),
        mul_nonneg (sub_nonneg.mpr hab) (sq_nonneg a),
        mul_nonneg (sub_nonneg.mpr hab) (sq_nonneg b)]
    have he := Real.exp_le_exp.mpr hz
    have hpa : 0 < Real.exp (-a * (1.5976 + 0.07056 * a * a)) := Real.exp_pos _
    have hpb : 0 < Real.exp (-b * (1.5976 + 0.07056 * b * b)) := Real.exp_pos _
    rw [div_le_div_iff₀ (by linarith) (by linarith)]
    nlinarith
  have hfr := hmono _ _ hy
  have hpos : ∀ a : ℝ, 0 < Real.exp (-a * (1.5976 + 0.07056 * a * a)) /
      (1 + Real.exp (-a * (1.5976 + 0.07056 * a * a))) := by
    intro a
    have := Real.exp_pos (-a * (1.5976 + 0.07056 * a * a))
    exact div_pos this (by linarith)
  have h10 : (1.0 : ℝ) = 1 := by norm_num
  have hrew : ∀ e : ℝ, 0 < e → 1 - 1 / (1 + e) = e / (1 + e) := by
    intro e he
    field_simp
  rcases hb with hb | hb
  · rw [calcPhi_of_le _ _ _ (le_trans h hb), calcPhi_of_le _ _ _ hb, h10,
      hrew _ (Real.exp_pos _), hrew _ (Real.exp_pos _)]
    have := Real.log_le_log (hpos _) hfr
    linarith
  · rw [calcPhi_of_gt _ _ _ hb, calcPhi_of_gt _ _ _ (lt_of_lt_of_le hb h), h10]
    have := Real.logb_le_logb_of_le (b := 10) (by norm_num) (hpos _) hfr
    linarith

/-- C20, evaluated on the detector of `NewFailureDetector(0.5, 3, 10, 0, 10)` after one
heartbeat at 100 (window `[8, 12]`, mean 10, floored standard deviation 10): at `t1 = 110` the
time difference equals the mean and `phi` is `ln 2`; at the later `t2 = 114` the other branch
of `calcPhi` gives a `phi` below `1/2 < ln 2`.  The detector is unavailable at 110 and
available at 114 although no heartbeat was recorded in between. -/
theorem C20_phi_falls_just_past_the_mean :
    ∃ fd0 fd, NewFailureDetector (1 / 2) 3 10 0 10 = some (Except.ok fd0) ∧
      runHeartbeats fd0 [100] = some fd ∧
      phi fd 110 = some (Real.log 2) ∧
      (∃ p, phi fd 114 = some p ∧ p < Real.log 2) ∧
      isAvailable fd 110 = some false ∧ isAvailable fd 114 = some true ∧
      calcPhi 14 10 10 < calcPhi 10 10 10 := by
  have hnew := NewFailureDetector_detectorOf (1 / 2) 3 10 0 10 (by norm_num) (by decide)
    (by decide) (by decide) (by decide)
  rw [bootstrapIntervals_ten 3 (by decide)] at hnew
  have hb := Heartbeat_detectorOf_unseeded (1 / 2) 3 10 0 10 [8, 12] 100 (by decide)
  rw [bootstrapIntervals_ten 3 (by decide)] at hb
  have hrun : runHeartbeats (detectorOf (1 / 2) 3 10 0 10 [8, 12] 0) [100] =
      some (detectorOf (1 / 2) 3 10 0 10 [8, 12] 100) := by
    simp only [runHeartbeats, hb]
  have hlog2 := Real.log_two_gt_d9
  have hmean : Mean (windowOf 3 [8, 12]) = 10 := by
    simp only [Mean, windowOf]
    norm_num
  have hsd10 : (10 : ℝ) ≤ ensureValidStdDev (detectorOf (1 / 2) 3 10 0 10 [8, 12] 100)
      (StdDev (windowOf 3 [8, 12])) := by
    unfold ensureValidStdDev
    apply le_max_of_le_right
    simp only [detectorOf]
    norm_num
  have hphi110 : phi (detectorOf (1 / 2) 3 10 0 10 [8, 12] 100) 110 = some (Real.log 2) := by
    rw [phi_of_history _ (windowOf 3 [8, 12]) 110 rfl, hmean]
    have : (110 : ℝ) - (detectorOf (1 / 2) 3 10 0 10 [8, 12] 100).state.LatestTimestamp =
        10 + ((detectorOf (1 / 2) 3 10 0 10 [8, 12] 100).AcceptableHeartbeatPauseMilliseconds
          : ℝ) := by
      simp only [detectorOf]
      norm_num
    rw [this, calcPhi_at_mean]
  have hlt114 : calcPhi
      (114 - (detectorOf (1 / 2) 3 10 0 10 [8, 12] 100).state.LatestTimestamp)
      (Mean (windowOf 3 [8, 12]) +
        ((detectorOf (1 / 2) 3 10 0 10 [8, 12] 100).AcceptableHeartbeatPauseMilliseconds : ℝ))
      (ensureValidStdDev (detectorOf (1 / 2) 3 10 0 10 [8, 12] 100)
        (StdDev (windowOf 3 [8, 12]))) < 1 / 2 := by
    apply calcPhi_lt_half _ _ _ (by linarith)
    · rw [hmean]
      simp only [detectorOf]
      norm_num
    · rw [hmean]
      have h1 : (114 : ℝ) - (detectorOf (1 / 2) 3 10 0 10 [8, 12] 100).state.LatestTimestamp =
          14 := by
        simp only [detectorOf]
        norm_num
      have h2 : ((detectorOf (1 / 2) 3 10 0 10 [8, 12] 100).AcceptableHeartbeatPauseMilliseconds
          : ℝ) = 0 := by
        simp only [detectorOf]
        norm_num
      rw [h1, h2]
      linarith
  refine ⟨_, _, hnew, hrun, hphi110, ⟨_, phi_of_history _ (windowOf 3 [8, 12]) 114 rfl,
    by linarith⟩, ?_, ?_, ?_⟩
  · unfold isAvailable
    rw [hphi110]
    have : ¬ Real.log 2 < (detectorOf (1 / 2) 3 10 0 10 [8, 12] 100).Threshold := by
      simp only [detectorOf]
      linarith
    show some (decide (Real.log 2 < (detectorOf (1 / 2) 3 10 0 10 [8, 12] 100).Threshold)) =
      some false
    rw [decide_eq_false this]
  · rw [isAvailable_of_history _ (windowOf 3 [8, 12]) 114 rfl]
    have hlt : calcPhi
        (114 - (detectorOf (1 / 2) 3 10 0 10 [8, 12] 100).state.LatestTimestamp)
        (Mean (windowOf 3 [8, 12]) +
          ((detectorOf (1 / 2) 3 10 0 10 [8, 12] 100).AcceptableHeartbeatPauseMilliseconds
            : ℝ))
        (ensureValidStdDev (detectorOf (1 / 2) 3 10 0 10 [8, 12] 100)
          (StdDev (windowOf 3 [8, 12]))) <
        (detectorOf (1 / 2) 3 10 0 10 [8, 12] 100).Threshold := hlt114
    rw [decide_eq_true hlt]
  · rw [calcPhi_at_mean]
    have := calcPhi_lt_half 14 10 10 (by norm_num) (by norm_num) (by norm_num)
    linarith

/-! ## Interleaved heartbeats -/

theorem racingAt_view (xs : List ℝ) (last : ℝ) (c0 c1 : Caller) :
    (racingAt xs last c0 c1).view = detectorOf 8 3 10 0 10 xs last := rfl

theorem racing_load0 (xs : List ℝ) (last t : ℝ) (c0 c1 : Caller) (h : c0.pc = Pc.start) :
    stepEvent (racingAt xs last c0 c1) (Event.load 0 t) =
      some (racingAt xs last
        { c0 with pc := Pc.loaded, timestamp := t,
                  oldState := { History := some 0, LatestTimestamp := last } } c1) := by
  simp [stepEvent, racingAt, h]

theorem racing_load1 (xs : List ℝ) (last t : ℝ) (c0 c1 : Caller) (h : c1.pc = Pc.start) :
    stepEvent (racingAt xs last c0 c1) (Event.load 1 t) =
      some (racingAt xs last c0
        { c1 with pc := Pc.loaded, timestamp := t,
                  oldState := { History := some 0, LatestTimestamp := last } }) := by
  simp [stepEvent, racingAt, h]

theorem racing_update0 (xs : List ℝ) (last l0 : ℝ) (c0 c1 : Caller)
    (h : c0.pc = Pc.loaded)
    (hold : c0.oldState = { History := some 0, LatestTimestamp := l0 }) (hl0 : l0 ≠ 0)
    (hgrace : c0.timestamp - last ≤ xs.sum / (xs.length : ℝ) + ((0 : Int) : ℝ)) :
    stepEvent (racingAt xs last c0 c1) (Event.update 0) =
      some (racingAt (xs.drop (xs.length + 1 - (3 : Int).toNat) ++ [c0.timestamp - l0]) last
        { c0 with pc := Pc.updated, history := some 0 } c1) := by
  have h8 : Real.log 2 < 8 := lt_trans Real.log_two_lt_d9 (by norm_num)
  have hav : isAvailable (racingAt xs last c0 c1).view c0.timestamp = some true := by
    rw [racingAt_view]
    exact isAvailable_detectorOf_grace 8 3 10 0 10 xs last c0.timestamp (by decide) h8 hgrace
  have hadd := AddInterval_windowOf 3 xs (c0.timestamp - l0) (by decide)
  have hc : (racingAt xs last c0 c1).callers[0]? = some c0 := rfl
  have hheap : (racingAt xs last c0 c1).heap[0]? = some (windowOf 3 xs) := rfl
  simp only [stepEvent, hc, h, if_true, hold, if_neg hl0, hav, hheap, hadd]
  rfl

theorem racing_update1 (xs : List ℝ) (last l0 : ℝ) (c0 c1 : Caller)
    (h : c1.pc = Pc.loaded)
    (hold : c1.oldState = { History := some 0, LatestTimestamp := l0 }) (hl0 : l0 ≠ 0)
    (hgrace : c1.timestamp - last ≤ xs.sum / (xs.length : ℝ) + ((0 : Int) : ℝ)) :
    stepEvent (racingAt xs last c0 c1) (Event.update 1) =
      some (racingAt (xs.drop (xs.length + 1 - (3 : Int).toNat) ++ [c1.timestamp - l0]) last
        c0 { c1 with pc := Pc.updated, history := some 0 }) := by
  have h8 : Real.log 2 < 8 := lt_trans Real.log_two_lt_d9 (by norm_num)
  have hav : isAvailable (racingAt xs last c0 c1).view c1.timestamp = some true := by
    rw [racingAt_view]
    exact isAvailable_detectorOf_grace 8 3 10 0 10 xs last c1.timestamp (by decide) h8 hgrace
  have hadd := AddInterval_windowOf 3 xs (c1.timestamp - l0) (by decide)
  have hc : (racingAt xs last c0 c1).callers[1]? = some c1 := rfl
  have hheap : (racingAt xs last c0 c1).heap[0]? = some (windowOf 3 xs) := rfl
  simp only [stepEvent, hc, h, if_true, hold, if_neg hl0, hav, hheap, hadd]
  rfl

theorem racing_swap_won0 (xs : List ℝ) (last : ℝ) (c0 c1 : Caller) (h : c0.pc = Pc.updated)
    (hold : c0.oldState = { History := some 0, LatestTimestamp := last })
    (hh : c0.history = some 0) :
    stepEvent (racingAt xs last c0 c1) (Event.swap 0) =
      some (racingAt xs c0.timestamp { c0 with pc := Pc.returned } c1) := by
  have hc : (racingAt xs last c0 c1).callers[0]? = some c0 := rfl
  simp only [stepEvent, hc, h, if_true, hold]
  simp [racingAt, hh]

theorem racing_swap_won1 (xs : List ℝ) (last : ℝ) (c0 c1 : Caller) (h : c1.pc = Pc.updated)
    (hold : c1.oldState = { History := some 0, LatestTimestamp := last })
    (hh : c1.history = some 0) :
    stepEvent (racingAt xs last c0 c1) (Event.swap 1) =
      some (racingAt xs c1.timestamp c0 { c1 with pc := Pc.returned }) := by
  have hc : (racingAt xs last c0 c1).callers[1]? = some c1 := rfl
  simp only [stepEvent, hc, h, if_true, hold]
  simp [racingAt, hh]

theorem racing_swap_lost0 (xs : List ℝ) (last l0 : ℝ) (c0 c1 : Caller)
    (h : c0.pc = Pc.updated)
    (hold : c0.oldState = { History := some 0, LatestTimestamp := l0 }) (hne : last ≠ l0) :
    stepEvent (racingAt xs last c0 c1) (Event.swap 0) =
      some (racingAt xs last { c0 with pc := Pc.start, lostSwaps := c0.lostSwaps + 1 } c1) := by
  have hc : (racingAt xs last c0 c1).callers[0]? = some c0 := rfl
  simp only [stepEvent, hc, h, if_true, hold]
  simp [racingAt, hne]

/-- C18, evaluated on a run of two concurrent `Heartbeat` calls on the detector
`(8, 3, 10, 0, 10)` whose window is `[8, 12]` with the latest heartbeat at 100.  Caller 0
reads the clock at 109 and caller 1 at 110, both load the state, caller 1 adds its interval 10
to the shared window and caller 0 adds its interval 9; the compare-and-swap of caller 1 wins
and that of caller 0 loses.  The published window is then `[12, 10, 9]`: it retains the
interval 9 of the caller whose swap lost.  Caller 0 starts over at 111, adds the interval 1
and its swap wins: both calls have returned and the published window is `[10, 9, 1]`, where
the sequential run of the two committed heartbeats (110 and 111) gives `[12, 10, 1]`. -/
theorem C18_lost_swap_leaves_its_interval :
    runEvents racingDetector
        [Event.load 0 109, Event.load 1 110, Event.update 1, Event.update 0, Event.swap 1,
          Event.swap 0] =
      some (racingAt [12, 10, 9] 110 ⟨Pc.start, 109, ⟨some 0, 100⟩, some 0, 1⟩
        ⟨Pc.returned, 110, ⟨some 0, 100⟩, some 0, 0⟩) ∧
    runEvents racingDetector
        [Event.load 0 109, Event.load 1 110, Event.update 1, Event.update 0, Event.swap 1,
          Event.swap 0, Event.load 0 111, Event.update 0, Event.swap 0] =
      some (racingAt [10, 9, 1] 111 ⟨Pc.returned, 111, ⟨some 0, 110⟩, some 0, 1⟩
        ⟨Pc.returned, 110, ⟨some 0, 100⟩, some 0, 0⟩) ∧
    (racingAt [10, 9, 1] 111 ⟨Pc.returned, 111, ⟨some 0, 110⟩, some 0, 1⟩
        ⟨Pc.returned, 110, ⟨some 0, 100⟩, some 0, 0⟩).view =
      detectorOf 8 3 10 0 10 [10, 9, 1] 111 ∧
    runHeartbeats (detectorOf 8 3 10 0 10 [8, 12] 100) [110, 111] =
      some (detectorOf 8 3 10 0 10 [12, 10, 1] 111) ∧
    ([10, 9, 1] : List ℝ) ≠ [12, 10, 1] := by
  have h8 : Real.log 2 < 8 := lt_trans Real.log_two_lt_d9 (by norm_num)
  have e1 : stepEvent racingDetector (Event.load 0 109) =
      some (racingAt [8, 12] 100 ⟨Pc.loaded, 109, ⟨some 0, 100⟩, none, 0⟩ freshCaller) :=
    racing_load0 [8, 12] 100 109 freshCaller freshCaller rfl
  have e2 : stepEvent
      (racingAt [8, 12] 100 ⟨Pc.loaded, 109, ⟨some 0, 100⟩, none, 0⟩ freshCaller)
      (Event.load 1 110) =
      some (racingAt [8, 12] 100 ⟨Pc.loaded, 109, ⟨some 0, 100⟩, none, 0⟩
        ⟨Pc.loaded, 110, ⟨some 0, 100⟩, none, 0⟩) :=
    racing_load1 [8, 12] 100 110 _ freshCaller rfl
  have e3 : stepEvent
      (racingAt [8, 12] 100 ⟨Pc.loaded, 109, ⟨some 0, 100⟩, none, 0⟩
        ⟨Pc.loaded, 110, ⟨some 0, 100⟩, none, 0⟩)
      (Event.update 1) =
      some (racingAt [8, 12, 10] 100 ⟨Pc.loaded, 109, ⟨some 0, 100⟩, none, 0⟩
        ⟨Pc.updated, 110, ⟨some 0, 100⟩, some 0, 0⟩) := by
    rw [racing_update1 [8, 12] 100 100 _ _ rfl rfl (by norm_num) (by norm_num)]
    norm_num
  have e4 : stepEvent
      (racingAt [8, 12, 10] 100 ⟨Pc.loaded, 109, ⟨some 0, 100⟩, none, 0⟩
        ⟨Pc.updated, 110, ⟨some 0, 100⟩, some 0, 0⟩)
      (Event.update 0) =
      some (racingAt [12, 10, 9] 100 ⟨Pc.updated, 109, ⟨some 0, 100⟩, some 0, 0⟩
        ⟨Pc.updated, 110, ⟨some 0, 100⟩, some 0, 0⟩) := by
    rw [racing_update0 [8, 12, 10] 100 100 _ _ rfl rfl (by norm_num) (by norm_num)]
    norm_num
    rfl
  have e5 : stepEvent
      (racingAt [12, 10, 9] 100 ⟨Pc.updated, 109, ⟨some 0, 100⟩, some 0, 0⟩
        ⟨Pc.updated, 110, ⟨some 0, 100⟩, some 0, 0⟩)
      (Event.swap 1) =
      some (racingAt [12, 10, 9] 110 ⟨Pc.updated, 109, ⟨some 0, 100⟩, some 0, 0⟩
        ⟨Pc.returned, 110, ⟨some 0, 100⟩, some 0, 0⟩) :=
    racing_swap_won1 [12, 10, 9] 100 _ _ rfl rfl rfl
  have e6 : stepEvent
      (racingAt [12, 10, 9] 110 ⟨Pc.updated, 109, ⟨some 0, 100⟩, some 0, 0⟩
        ⟨Pc.returned, 110, ⟨some 0, 100⟩, some 0, 0⟩)
      (Event.swap 0) =
      some (racingAt [12, 10, 9] 110 ⟨Pc.start, 109, ⟨some 0, 100⟩, some 0, 1⟩
        ⟨Pc.returned, 110, ⟨some 0, 100⟩, some 0, 0⟩) :=
    racing_swap_lost0 [12, 10, 9] 110 100 _ _ rfl rfl (by norm_num)
  have e7 : stepEvent
      (racingAt [12, 10, 9] 110 ⟨Pc.start, 109, ⟨some 0, 100⟩, some 0, 1⟩
        ⟨Pc.returned, 110, ⟨some 0, 100⟩, some 0, 0⟩)
      (Event.load 0 111) =
      some (racingAt [12, 10, 9] 110 ⟨Pc.loaded, 111, ⟨some 0, 110⟩, some 0, 1⟩
        ⟨Pc.returned, 110, ⟨some 0, 100⟩, some 0, 0⟩) :=
    racing_load0 [12, 10, 9] 110 111 _ _ rfl
  have e8 : stepEvent
      (racingAt [12, 10, 9] 110 ⟨Pc.loaded, 111, ⟨some 0, 110⟩, some 0, 1⟩
        ⟨Pc.returned, 110, ⟨some 0, 100⟩, some 0, 0⟩)
      (Event.update 0) =
      some (racingAt [10, 9, 1] 110 ⟨Pc.updated, 111, ⟨some 0, 110⟩, some 0, 1⟩
        ⟨Pc.returned, 110, ⟨some 0, 100⟩, some 0, 0⟩) := by
    rw [racing_update0 [12, 10, 9] 110 110 _ _ rfl rfl (by norm_num) (by norm_num)]
    norm_num
    rfl
  have e9 : stepEvent
      (racingAt [10, 9, 1] 110 ⟨Pc.updated, 111, ⟨some 0, 110⟩, some 0, 1⟩
        ⟨Pc.returned, 110, ⟨some 0, 100⟩, some 0, 0⟩)
      (Event.swap 0) =
      some (racingAt [10, 9, 1] 111 ⟨Pc.returned, 111, ⟨some 0, 110⟩, some 0, 1⟩
        ⟨Pc.returned, 110, ⟨some 0, 100⟩, some 0, 0⟩) :=
    racing_swap_won0 [10, 9, 1] 110 _ _ rfl rfl rfl
  have s1 : Heartbeat (detectorOf 8 3 10 0 10 [8, 12] 100) 110 =
      some (detectorOf 8 3 10 0 10 [8, 12, 10] 110, none) := by
    rw [Heartbeat_detectorOf_grace 8 3 10 0 10 [8, 12] 100 110 (by decide) (by decide) h8
      (by norm_num) (by norm_num)]
    norm_num
  have s2 : Heartbeat (detectorOf 8 3 10 0 10 [8, 12, 10] 110) 111 =
      some (detectorOf 8 3 10 0 10 [12, 10, 1] 111, none) := by
    rw [Heartbeat_detectorOf_grace 8 3 10 0 10 [8, 12, 10] 110 111 (by decide) (by decide) h8
      (by norm_num) (by norm_num)]
    have h3 : (3 : Int).toNat = 3 := rfl
    rw [h3]
    norm_num
  refine ⟨?_, ?_, rfl, ?_, ?_⟩
  · simp only [runEvents, e1, e2, e3, e4, e5, e6]
  · simp only [runEvents, e1, e2, e3, e4, e5, e6, e7, e8, e9]
  · simp only [runHeartbeats, s1, s2]
  · intro h
    simp at h

/-! ## The detector on IEEE-754 doubles -/

namespace Float64

set_option maxRecDepth 1000000

theorem tableMath_SpecialCases : tableMath.SpecialCases where
  Sqrt_neg := by intro m e h; simp [tableMath, h]
  Sqrt_zero := by decide
  Sqrt_nan := rfl
  Exp_nan := rfl
  Exp_overflow := by intro m e h; simp [tableMath, h]
  Log_nan := rfl
  Log_one := by decide
  Log10_nan := rfl

theorem tableMath_Accurate : tableMath.Accurate where
  Exp_zero := by decide
  Log_half := by decide
  Sqrt_a1 := by decide
  Sqrt_a2 := by decide
  Sqrt_a3 := by decide
  Sqrt_b1 := by decide
  Sqrt_b2 := by decide
  Sqrt_b3 := by decide
  early_a := by decide
  early_b := by decide

theorem Heartbeat_adds_interval (lib : MathLib) (fd : FailureDetector) (t : F64)
    (w w1 : HeartbeatHistory) (hseeded : eq fd.state.LatestTimestamp (F64.fin 0 0) = false)
    (hw : fd.state.History = some w) (hav : isAvailable lib fd t = some true)
    (hadd : AddInterval w (sub t fd.state.LatestTimestamp) = some w1) :
    Heartbeat lib fd t =
      some ({ fd with state := { History := some w1, LatestTimestamp := t } }, none) := by
  simp [Heartbeat, hseeded, hav, hw, hadd]

theorem Heartbeat_keeps_window (lib : MathLib) (fd : FailureDetector) (t : F64)
    (hseeded : eq fd.state.LatestTimestamp (F64.fin 0 0) = false)
    (hav : isAvailable lib fd t = some false) :
    Heartbeat lib fd t =
      some ({ fd with state := { History := fd.state.History, LatestTimestamp := t } },
        none) := by
  simp [Heartbeat, hseeded, hav]

/-- With a standard deviation that is not a number, `calcPhi` is not a number. -/
theorem calcPhi_nan_stdDev (lib : MathLib) (hS : lib.SpecialCases) (timeDiff mean : F64) :
    calcPhi lib timeDiff mean F64.nan = F64.nan := by
  have hdiv : div (sub timeDiff mean) F64.nan = F64.nan := by
    cases sub timeDiff mean <;> rfl
  have hexp : lib.Exp (mul (neg (div (sub timeDiff mean) F64.nan))
      (add (ofRatio 15976 10000)
        (mul (mul (ofRatio 7056 100000) (div (sub timeDiff mean) F64.nan))
          (div (sub timeDiff mean) F64.nan)))) = F64.nan := by
    rw [hdiv]; exact hS.Exp_nan
  unfold calcPhi
  simp only [hexp]
  split
  · have : div F64.nan (add (F64.fin 1 0) F64.nan) = F64.nan := rfl
    rw [this, hS.Log10_nan]; rfl
  · have : sub (F64.fin 1 0) (div (F64.fin 1 0) (add (F64.fin 1 0) F64.nan)) = F64.nan := rfl
    rw [this, hS.Log_nan]; rfl

/-- Run A: the first heartbeat, at the clock reading 1700000000000. -/
theorem runA_step1 (lib : MathLib) :
    Heartbeat lib
      (detectorAt (ofInt 8) 3 10 0 100000001 [ofInt 75000001, ofInt 125000001]
      (ofInt 200000002) (F64.fin 20751953515625 10) (ofInt 0)) (ofInt 1700000000000) =
    some (detectorAt (ofInt 8) 3 10 0 100000001 [ofInt 75000001, ofInt 125000001]
      (ofInt 200000002) (F64.fin 20751953515625 10) (ofInt 1700000000000), none) := by
  rfl

/-- Run A: the heartbeat at the clock reading 1700100000001 finds the detector available and adds
its interval to the window. -/
theorem runA_step2 (lib : MathLib) (hA : lib.Accurate) :
    Heartbeat lib
      (detectorAt (ofInt 8) 3 10 0 100000001 [ofInt 75000001, ofInt 125000001]
      (ofInt 200000002) (F64.fin 20751953515625 10) (ofInt 1700000000000)) (ofInt 1700100000001) =
    some (detectorAt (ofInt 8) 3 10 0 100000001 [ofInt 75000001, ofInt 125000001, ofInt 100000001]
      (ofInt 300000003) (F64.fin 61035157421875 9) (ofInt 1700100000001), none) := by
  have hav : isAvailable lib
      (detectorAt (ofInt 8) 3 10 0 100000001 [ofInt 75000001, ofInt 125000001]
      (ofInt 200000002) (F64.fin 20751953515625 10) (ofInt 1700000000000)) (ofInt 1700100000001) = some true := by
    have h1 : isAvailable lib
        (detectorAt (ofInt 8) 3 10 0 100000001 [ofInt 75000001, ofInt 125000001]
      (ofInt 200000002) (F64.fin 20751953515625 10) (ofInt 1700000000000)) (ofInt 1700100000001) =
        some (lt (calcPhi lib (ofInt 100000001) (ofInt 100000001) (Max (lib.Sqrt (ofInt 625000000000000)) (ofInt 10))) (ofInt 8)) := rfl
    rw [h1, hA.Sqrt_a1]
    have h2 : calcPhi lib (ofInt 100000001) (ofInt 100000001) (Max (ofInt 25000000) (ofInt 10)) =
        neg (lib.Log (sub (F64.fin 1 0) (div (F64.fin 1 0) (add (F64.fin 1 0)
          (lib.Exp (F64.fin 0 0)))))) := rfl
    rw [h2, hA.Exp_zero]
    exact congrArg some hA.Log_half
  exact (Heartbeat_adds_interval lib _ _
    { MaxSamples := 3, Intervals := [ofInt 75000001, ofInt 125000001], intervalSum := ofInt 200000002, squaredIntervalSum := F64.fin 20751953515625 10 }
    { MaxSamples := 3, Intervals := [ofInt 75000001, ofInt 125000001, ofInt 100000001], intervalSum := ofInt 300000003, squaredIntervalSum := F64.fin 61035157421875 9 }
    (by rfl) (by rfl) hav (by rfl)).trans rfl

/-- Run A: the heartbeat at the clock reading 1700200000002 finds the detector available and adds
its interval to the window. -/
theorem runA_step3 (lib : MathLib) (hA : lib.Accurate) :
    Heartbeat lib
      (detectorAt (ofInt 8) 3 10 0 100000001 [ofInt 75000001, ofInt 125000001, ofInt 100000001]
      (ofInt 300000003) (F64.fin 61035157421875 9) (ofInt 1700100000001)) (ofInt 1700200000002) =
    some (detectorAt (ofInt 8) 3 10 0 100000001 [ofInt 125000001, ofInt 100000001, ofInt 100000001]
      (ofInt 325000003) (F64.fin 278320317578125 7) (ofInt 1700200000002), none) := by
  have hav : isAvailable lib
      (detectorAt (ofInt 8) 3 10 0 100000001 [ofInt 75000001, ofInt 125000001, ofInt 100000001]
      (ofInt 300000003) (F64.fin 61035157421875 9) (ofInt 1700100000001)) (ofInt 1700200000002) = some true := by
    have h1 : isAvailable lib
        (detectorAt (ofInt 8) 3 10 0 100000001 [ofInt 75000001, ofInt 125000001, ofInt 100000001]
      (ofInt 300000003) (F64.fin 61035157421875 9) (ofInt 1700100000001)) (ofInt 1700200000002) =
        some (lt (calcPhi lib (ofInt 100000001) (ofInt 100000001) (Max (lib.Sqrt (ofInt 416666666666666)) (ofInt 10))) (ofInt 8)) := rfl
    rw [h1, hA.Sqrt_a2]
    have h2 : calcPhi lib (ofInt 100000001) (ofInt 100000001) (Max (F64.fin 1369853950148593 (-26)) (ofInt 10)) =
        neg (lib.Log (sub (F64.fin 1 0) (div (F64.fin 1 0) (add (F64.fin 1 0)
          (lib.Exp (F64.fin 0 0)))))) := rfl
    rw [h2, hA.Exp_zero]
    exact congrArg some hA.Log_half
  exact (Heartbeat_adds_interval lib _ _
    { MaxSamples := 3, Intervals := [ofInt 75000001, ofInt 125000001, ofInt 100000001], intervalSum := ofInt 300000003, squaredIntervalSum := F64.fin 61035157421875 9 }
    { MaxSamples := 3, Intervals := [ofInt 125000001, ofInt 100000001, ofInt 100000001], intervalSum := ofInt 325000003, squaredIntervalSum := F64.fin 278320317578125 7 }
    (by rfl) (by rfl) hav (by rfl)).trans rfl

/-- Run A: the heartbeat at the clock reading 1700300000005 finds the detector available and adds
its interval to the window. -/
theorem runA_step4 (lib : MathLib) (hA : lib.Accurate) :
    Heartbeat lib
      (detectorAt (ofInt 8) 3 10 0 100000001 [ofInt 125000001, ofInt 100000001, ofInt 100000001]
      (ofInt 325000003) (F64.fin 278320317578125 7) (ofInt 1700200000002)) (ofInt 1700300000005) =
    some (detectorAt (ofInt 8) 3 10 0 100000001 [ofInt 100000001, ofInt 100000001, ofInt 100000003]
      (ofInt 300000005) (F64.fin 3750000125000001 3) (ofInt 1700300000005), none) := by
  have hav : isAvailable lib
      (detectorAt (ofInt 8) 3 10 0 100000001 [ofInt 125000001, ofInt 100000001, ofInt 100000001]
      (ofInt 325000003) (F64.fin 278320317578125 7) (ofInt 1700200000002)) (ofInt 1700300000005) = some true := by
    have h1 : isAvailable lib
        (detectorAt (ofInt 8) 3 10 0 100000001 [ofInt 125000001, ofInt 100000001, ofInt 100000001]
      (ofInt 325000003) (F64.fin 278320317578125 7) (ofInt 1700200000002)) (ofInt 1700300000005) =
        some (lt (calcPhi lib (ofInt 100000003) (F64.fin 7270127000442197 (-26)) (Max (lib.Sqrt (ofInt 138888888888888)) (ofInt 10))) (ofInt 8)) := rfl
    rw [h1, hA.Sqrt_a3]
    have h2 : calcPhi lib (ofInt 100000003) (F64.fin 7270127000442197 (-26)) (Max (F64.fin 6327084374950083 (-29)) (ofInt 10)) =
        neg (lib.Log (sub (F64.fin 1 0) (div (F64.fin 1 0) (add (F64.fin 1 0)
          (lib.Exp (F64.fin 2599973622800645 (-51))))))) := rfl
    rw [h2]
    exact congrArg some hA.early_a
  exact (Heartbeat_adds_interval lib _ _
    { MaxSamples := 3, Intervals := [ofInt 125000001, ofInt 100000001, ofInt 100000001], intervalSum := ofInt 325000003, squaredIntervalSum := F64.fin 278320317578125 7 }
    { MaxSamples := 3, Intervals := [ofInt 100000001, ofInt 100000001, ofInt 100000003], intervalSum := ofInt 300000005, squaredIntervalSum := F64.fin 3750000125000001 3 }
    (by rfl) (by rfl) hav (by rfl)).trans rfl

/-- Run A: the heartbeat at the clock reading 1700400000006 finds the detector unavailable and
leaves the window as it is. -/
theorem runA_step5 (lib : MathLib) (hS : lib.SpecialCases) :
    Heartbeat lib
      (detectorAt (ofInt 8) 3 10 0 100000001 [ofInt 100000001, ofInt 100000001, ofInt 100000003]
      (ofInt 300000005) (F64.fin 3750000125000001 3) (ofInt 1700300000005)) (ofInt 1700400000006) =
    some (detectorAt (ofInt 8) 3 10 0 100000001 [ofInt 100000001, ofInt 100000001, ofInt 100000003]
      (ofInt 300000005) (F64.fin 3750000125000001 3) (ofInt 1700400000006), none) := by
  have hav : isAvailable lib
      (detectorAt (ofInt 8) 3 10 0 100000001 [ofInt 100000001, ofInt 100000001, ofInt 100000003]
      (ofInt 300000005) (F64.fin 3750000125000001 3) (ofInt 1700300000005)) (ofInt 1700400000006) = some false := by
    have h1 : isAvailable lib
        (detectorAt (ofInt 8) 3 10 0 100000001 [ofInt 100000001, ofInt 100000001, ofInt 100000003]
      (ofInt 300000005) (F64.fin 3750000125000001 3) (ofInt 1700300000005)) (ofInt 1700400000006) =
        some (lt (calcPhi lib (ofInt 100000001) (F64.fin 6710886511848107 (-26)) (Max (lib.Sqrt (F64.fin (-1) 1)) (ofInt 10))) (ofInt 8)) := rfl
    rw [h1, hS.Sqrt_neg _ _ (by decide)]
    have h2 : Max F64.nan (ofInt 10) = F64.nan := rfl
    rw [h2, calcPhi_nan_stdDev lib hS]
    rfl

  exact (Heartbeat_keeps_window lib _ _ (by rfl) hav).trans rfl

/-- Run A: the detector after its first 4 heartbeats. -/
theorem runA_4 (lib : MathLib) (hA : lib.Accurate) :
    runHeartbeats lib
      (detectorAt (ofInt 8) 3 10 0 100000001 [ofInt 75000001, ofInt 125000001]
      (ofInt 200000002) (F64.fin 20751953515625 10) (ofInt 0))
      [ofInt 1700000000000, ofInt 1700100000001, ofInt 1700200000002, ofInt 1700300000005] =
    some (detectorAt (ofInt 8) 3 10 0 100000001 [ofInt 100000001, ofInt 100000001, ofInt 100000003]
      (ofInt 300000005) (F64.fin 3750000125000001 3) (ofInt 1700300000005)) := by
  simp only [runHeartbeats, runA_step1 lib, runA_step2 lib hA, runA_step3 lib hA, runA_step4 lib hA]

/-- Run B: the first heartbeat, at the clock reading 1700000000000. -/
theorem runB_step1 (lib : MathLib) :
    Heartbeat lib
      (detectorAt (ofInt 8) 3 10 0 60000005 [ofInt 45000004, ofInt 75000006]
      (ofInt 120000010) (ofInt 7650001260000052) (ofInt 0)) (ofInt 1700000000000) =
    some (detectorAt (ofInt 8) 3 10 0 60000005 [ofInt 45000004, ofInt 75000006]
      (ofInt 120000010) (ofInt 7650001260000052) (ofInt 1700000000000), none) := by
  rfl

/-- Run B: the heartbeat at the clock reading 1700060000005 finds the detector available and adds
its interval to the window. -/
theorem runB_step2 (lib : MathLib) (hA : lib.Accurate) :
    Heartbeat lib
      (detectorAt (ofInt 8) 3 10 0 60000005 [ofInt 45000004, ofInt 75000006]
      (ofInt 120000010) (ofInt 7650001260000052) (ofInt 1700000000000)) (ofInt 1700060000005) =
    some (detectorAt (ofInt 8) 3 10 0 60000005 [ofInt 45000004, ofInt 75000006, ofInt 60000005]
      (ofInt 180000015) (F64.fin 2812500465000019 2) (ofInt 1700060000005), none) := by
  have hav : isAvailable lib
      (detectorAt (ofInt 8) 3 10 0 60000005 [ofInt 45000004, ofInt 75000006]
      (ofInt 120000010) (ofInt 7650001260000052) (ofInt 1700000000000)) (ofInt 1700060000005) = some true := by
    have h1 : isAvailable lib
        (detectorAt (ofInt 8) 3 10 0 60000005 [ofInt 45000004, ofInt 75000006]
      (ofInt 120000010) (ofInt 7650001260000052) (ofInt 1700000000000)) (ofInt 1700060000005) =
        some (lt (calcPhi lib (ofInt 60000005) (ofInt 60000005) (Max (lib.Sqrt (ofInt 225000030000001)) (ofInt 10))) (ofInt 8)) := rfl
    rw [h1, hA.Sqrt_b1]
    have h2 : calcPhi lib (ofInt 60000005) (ofInt 60000005) (Max (ofInt 15000001) (ofInt 10)) =
        neg (lib.Log (sub (F64.fin 1 0) (div (F64.fin 1 0) (add (F64.fin 1 0)
          (lib.Exp (F64.fin 0 0)))))) := rfl
    rw [h2, hA.Exp_zero]
    exact congrArg some hA.Log_half
  exact (Heartbeat_adds_interval lib _ _
    { MaxSamples := 3, Intervals := [ofInt 45000004, ofInt 75000006], intervalSum := ofInt 120000010, squaredIntervalSum := ofInt 7650001260000052 }
    { MaxSamples := 3, Intervals := [ofInt 45000004, ofInt 75000006, ofInt 60000005], intervalSum := ofInt 180000015, squaredIntervalSum := F64.fin 2812500465000019 2 }
    (by rfl) (by rfl) hav (by rfl)).trans rfl

/-- Run B: the heartbeat at the clock reading 1700120000010 finds the detector available and adds
its interval to the window. -/
theorem runB_step3 (lib : MathLib) (hA : lib.Accurate) :
    Heartbeat lib
      (detectorAt (ofInt 8) 3 10 0 60000005 [ofInt 45000004, ofInt 75000006, ofInt 60000005]
      (ofInt 180000015) (F64.fin 2812500465000019 2) (ofInt 1700060000005)) (ofInt 1700120000010) =
    some (detectorAt (ofInt 8) 3 10 0 60000005 [ofInt 75000006, ofInt 60000005, ofInt 60000005]
      (ofInt 195000016) (F64.fin 3206250525000021 2) (ofInt 1700120000010), none) := by
  have hav : isAvailable lib
      (detectorAt (ofInt 8) 3 10 0 60000005 [ofInt 45000004, ofInt 75000006, ofInt 60000005]
      (ofInt 180000015) (F64.fin 2812500465000019 2) (ofInt 1700060000005)) (ofInt 1700120000010) = some true := by
    have h1 : isAvailable lib
        (detectorAt (ofInt 8) 3 10 0 60000005 [ofInt 45000004, ofInt 75000006, ofInt 60000005]
      (ofInt 180000015) (F64.fin 2812500465000019 2) (ofInt 1700060000005)) (ofInt 1700120000010) =
        some (lt (calcPhi lib (ofInt 60000005) (ofInt 60000005) (Max (lib.Sqrt (F64.fin 300000040000001 (-1))) (ofInt 10))) (ofInt 8)) := rfl
    rw [h1, hA.Sqrt_b2]
    have h2 : calcPhi lib (ofInt 60000005) (ofInt 60000005) (Max (F64.fin 410956212441657 (-25)) (ofInt 10)) =
        neg (lib.Log (sub (F64.fin 1 0) (div (F64.fin 1 0) (add (F64.fin 1 0)
          (lib.Exp (F64.fin 0 0)))))) := rfl
    rw [h2, hA.Exp_zero]
    exact congrArg some hA.Log_half
  exact (Heartbeat_adds_interval lib _ _
    { MaxSamples := 3, Intervals := [ofInt 45000004, ofInt 75000006, ofInt 60000005], intervalSum := ofInt 180000015, squaredIntervalSum := F64.fin 2812500465000019 2 }
    { MaxSamples := 3, Intervals := [ofInt 75000006, ofInt 60000005, ofInt 60000005], intervalSum := ofInt 195000016, squaredIntervalSum := F64.fin 3206250525000021 2 }
    (by rfl) (by rfl) hav (by rfl)).trans rfl

/-- Run B: the heartbeat at the clock reading 1700180000015 finds the detector available and adds
its interval to the window. -/
theorem runB_step4 (lib : MathLib) (hA : lib.Accurate) :
    Heartbeat lib
      (detectorAt (ofInt 8) 3 10 0 60000005 [ofInt 75000006, ofInt 60000005, ofInt 60000005]
      (ofInt 195000016) (F64.fin 3206250525000021 2) (ofInt 1700120000010)) (ofInt 1700180000015) =
    some (detectorAt (ofInt 8) 3 10 0 60000005 [ofInt 60000005, ofInt 60000005, ofInt 60000005]
      (ofInt 180000015) (F64.fin 1350000225000009 3) (ofInt 1700180000015), none) := by
  have hav : isAvailable lib
      (detectorAt (ofInt 8) 3 10 0 60000005 [ofInt 75000006, ofInt 60000005, ofInt 60000005]
      (ofInt 195000016) (F64.fin 3206250525000021 2) (ofInt 1700120000010)) (ofInt 1700180000015) = some true := by
    have h1 : isAvailable lib
        (detectorAt (ofInt 8) 3 10 0 60000005 [ofInt 75000006, ofInt 60000005, ofInt 60000005]
      (ofInt 195000016) (F64.fin 3206250525000021 2) (ofInt 1700120000010)) (ofInt 1700180000015) =
        some (lt (calcPhi lib (ofInt 60000005) (F64.fin 8724153035827883 (-27)) (Max (lib.Sqrt (ofInt 50000006666666)) (ofInt 10))) (ofInt 8)) := rfl
    rw [h1, hA.Sqrt_b3]
    have h2 : calcPhi lib (ofInt 60000005) (F64.fin 8724153035827883 (-27)) (Max (F64.fin 7592501756106807 (-30)) (ofInt 10)) =
        neg (lib.Log (sub (F64.fin 1 0) (div (F64.fin 1 0) (add (F64.fin 1 0)
          (lib.Exp (F64.fin 81249196054953 (-46))))))) := rfl
    rw [h2]
    exact congrArg some hA.early_b
  exact (Heartbeat_adds_interval lib _ _
    { MaxSamples := 3, Intervals := [ofInt 75000006, ofInt 60000005, ofInt 60000005], intervalSum := ofInt 195000016, squaredIntervalSum := F64.fin 3206250525000021 2 }
    { MaxSamples := 3, Intervals := [ofInt 60000005, ofInt 60000005, ofInt 60000005], intervalSum := ofInt 180000015, squaredIntervalSum := F64.fin 1350000225000009 3 }
    (by rfl) (by rfl) hav (by rfl)).trans rfl

/-- Run B: the heartbeat at the clock reading 1700240000020 finds the detector unavailable and
leaves the window as it is. -/
theorem runB_step5 (lib : MathLib) (hS : lib.SpecialCases) :
    Heartbeat lib
      (detectorAt (ofInt 8) 3 10 0 60000005 [ofInt 60000005, ofInt 60000005, ofInt 60000005]
      (ofInt 180000015) (F64.fin 1350000225000009 3) (ofInt 1700180000015)) (ofInt 1700240000020) =
    some (detectorAt (ofInt 8) 3 10 0 60000005 [ofInt 60000005, ofInt 60000005, ofInt 60000005]
      (ofInt 180000015) (F64.fin 1350000225000009 3) (ofInt 1700240000020), none) := by
  have hav : isAvailable lib
      (detectorAt (ofInt 8) 3 10 0 60000005 [ofInt 60000005, ofInt 60000005, ofInt 60000005]
      (ofInt 180000015) (F64.fin 1350000225000009 3) (ofInt 1700180000015)) (ofInt 1700240000020) = some false := by
    have h1 : isAvailable lib
        (detectorAt (ofInt 8) 3 10 0 60000005 [ofInt 60000005, ofInt 60000005, ofInt 60000005]
      (ofInt 180000015) (F64.fin 1350000225000009 3) (ofInt 1700180000015)) (ofInt 1700240000020) =
        some (lt (calcPhi lib (ofInt 60000005) (ofInt 60000005) (Max (lib.Sqrt (F64.fin (-1) 0)) (ofInt 10))) (ofInt 8)) := rfl
    rw [h1, hS.Sqrt_neg _ _ (by decide)]
    have h2 : Max F64.nan (ofInt 10) = F64.nan := rfl
    rw [h2, calcPhi_nan_stdDev lib hS]
    rfl

  exact (Heartbeat_keeps_window lib _ _ (by rfl) hav).trans rfl

/-- Run B: the detector after its first 4 heartbeats. -/
theorem runB_4 (lib : MathLib) (hA : lib.Accurate) :
    runHeartbeats lib
      (detectorAt (ofInt 8) 3 10 0 60000005 [ofInt 45000004, ofInt 75000006]
      (ofInt 120000010) (ofInt 7650001260000052) (ofInt 0))
      [ofInt 1700000000000, ofInt 1700060000005, ofInt 1700120000010, ofInt 1700180000015] =
    some (detectorAt (ofInt 8) 3 10 0 60000005 [ofInt 60000005, ofInt 60000005, ofInt 60000005]
      (ofInt 180000015) (F64.fin 1350000225000009 3) (ofInt 1700180000015)) := by
  simp only [runHeartbeats, runB_step1 lib, runB_step2 lib hA, runB_step3 lib hA, runB_step4 lib hA]

/-- With a window whose `Variance()` is negative, the standard deviation that `phi` passes
to `calcPhi` is not a number: `math.Sqrt` of the negative variance is not a number and
`math.Max` passes it on. -/
theorem ensureValidStdDev_of_negative_variance (lib : MathLib) (hS : lib.SpecialCases)
    (fd : FailureDetector) (w : HeartbeatHistory) (m e : Int) (hm : m < 0)
    (hv : Variance w = F64.fin m e) : ensureValidStdDev fd (StdDev lib w) = F64.nan := by
  unfold ensureValidStdDev StdDev
  rw [hv, hS.Sqrt_neg m e hm]
  cases ofInt fd.MinStdDevMilliseconds <;> rfl

/-- With a window whose `Variance()` is negative, `phi` is not a number at every
timestamp. -/
theorem phi_of_negative_variance (lib : MathLib) (hS : lib.SpecialCases) (fd : FailureDetector)
    (w : HeartbeatHistory) (t : F64) (m e : Int) (hw : fd.state.History = some w)
    (hm : m < 0) (hv : Variance w = F64.fin m e) : phi lib fd t = some F64.nan := by
  unfold phi
  simp only [hw, ensureValidStdDev_of_negative_variance lib hS fd w m e hm hv,
    calcPhi_nan_stdDev lib hS]

/-- With a window whose `Variance()` is negative, the detector is unavailable at every
timestamp. -/
theorem isAvailable_of_negative_variance (lib : MathLib) (hS : lib.SpecialCases)
    (fd : FailureDetector) (w : HeartbeatHistory) (t : F64) (m e : Int)
    (hw : fd.state.History = some w) (hm : m < 0) (hv : Variance w = F64.fin m e) :
    isAvailable lib fd t = some false := by
  unfold isAvailable
  rw [phi_of_negative_variance lib hS fd w t m e hw hm hv]
  cases fd.Threshold <;> rfl

/-- C11, evaluated on doubles at `NewFailureDetector(8, 200, 1, 100, 3)` with one heartbeat
at the clock reading 1700000000000 and `phi` read in the same millisecond: the window is
`[3, 3]`, the standard deviation is raised to 1, `y = (0 - 103) / 1`, `math.Exp` overflows to
`+Inf`, `1 - 1/(1 + Inf)` is exactly 1 and `phi` is `-math.Log(1)`, a zero. -/
theorem C11_phi_is_zero_on_doubles (lib : MathLib) (hS : lib.SpecialCases) :
    ∃ fd0 fd,
      NewFailureDetector (ofInt 8) 200 1 100 3 = some (Except.ok fd0) ∧
      runHeartbeats lib fd0 [ofInt 1700000000000] = some fd ∧
      fd.state.History = some
        { MaxSamples := 200, Intervals := [ofInt 3, ofInt 3], intervalSum := ofInt 6,
          squaredIntervalSum := ofInt 18 } ∧
      phi lib fd (ofInt 1700000000000) = some (ofInt 0) ∧
      eq (ofInt 0) (ofInt 0) = true := by
  refine ⟨detectorAt (ofInt 8) 200 1 100 3 [ofInt 3, ofInt 3] (ofInt 6) (ofInt 18) (ofInt 0),
    detectorAt (ofInt 8) 200 1 100 3 [ofInt 3, ofInt 3] (ofInt 6) (ofInt 18)
      (ofInt 1700000000000), rfl, rfl, rfl, ?_, rfl⟩
  have h1 : phi lib (detectorAt (ofInt 8) 200 1 100 3 [ofInt 3, ofInt 3] (ofInt 6) (ofInt 18)
      (ofInt 1700000000000)) (ofInt 1700000000000) =
      some (calcPhi lib (F64.fin 0 0) (F64.fin 103 0)
        (Max (lib.Sqrt (F64.fin 0 0)) (F64.fin 1 0))) := rfl
  rw [h1, hS.Sqrt_zero]
  have h2 : calcPhi lib (F64.fin 0 0) (F64.fin 103 0) (Max (F64.fin 0 0) (F64.fin 1 0)) =
      neg (lib.Log (sub (F64.fin 1 0) (div (F64.fin 1 0) (add (F64.fin 1 0)
        (lib.Exp (F64.fin 5309773229669345 (-36))))))) := rfl
  rw [h2, hS.Exp_overflow _ _ (by decide)]
  have h3 : sub (F64.fin 1 0) (div (F64.fin 1 0) (add (F64.fin 1 0) (F64.inf false))) =
      F64.fin 1 0 := by decide
  rw [h3, hS.Log_one]
  rfl

/-- C11 on doubles, checked with the table of the `math` functions. -/
theorem C11_phi_is_zero_on_doubles_witness :
    tableMath.SpecialCases ∧
    ∃ fd0 fd,
      NewFailureDetector (ofInt 8) 200 1 100 3 = some (Except.ok fd0) ∧
      runHeartbeats tableMath fd0 [ofInt 1700000000000] = some fd ∧
      fd.state.History = some
        { MaxSamples := 200, Intervals := [ofInt 3, ofInt 3], intervalSum := ofInt 6,
          squaredIntervalSum := ofInt 18 } ∧
      phi tableMath fd (ofInt 1700000000000) = some (ofInt 0) ∧
      eq (ofInt 0) (ofInt 0) = true :=
  ⟨tableMath_SpecialCases, C11_phi_is_zero_on_doubles tableMath tableMath_SpecialCases⟩

/-- C12, evaluated on doubles at `NewFailureDetector(8, 3, 10, 0, 100000001)` after the
heartbeats at 1700000000000, 1700100000001, 1700200000002 and 1700300000005, each of which
finds the detector available: the window is `[100000001, 100000001, 100000003]`, its
`Variance()` is `-2`, and at the time of the last heartbeat, inside the grace period
(`0 < Mean() + pause`), `phi` is not a number and the detector is unavailable. -/
theorem C12_grace_period_fails_on_doubles (lib : MathLib) (hS : lib.SpecialCases)
    (hA : lib.Accurate) :
    ∃ fd0 fd w,
      NewFailureDetector (ofInt 8) 3 10 0 100000001 = some (Except.ok fd0) ∧
      runHeartbeats lib fd0 [ofInt 1700000000000, ofInt 1700100000001, ofInt 1700200000002,
        ofInt 1700300000005] = some fd ∧
      fd.state.History = some w ∧
      w.Intervals = [ofInt 100000001, ofInt 100000001, ofInt 100000003] ∧
      Variance w = ofInt (-2) ∧
      lt (sub (ofInt 1700300000005) fd.state.LatestTimestamp)
        (add (Mean w) (ofInt fd.AcceptableHeartbeatPauseMilliseconds)) = true ∧
      phi lib fd (ofInt 1700300000005) = some F64.nan ∧
      isAvailable lib fd (ofInt 1700300000005) = some false := by
  refine ⟨_, _, _, rfl, runA_4 lib hA, rfl, rfl, by decide, by decide, ?_, ?_⟩
  · exact phi_of_negative_variance lib hS _ _ _ (-1) 1 rfl (by decide) (by decide)
  · exact isAvailable_of_negative_variance lib hS _ _ _ (-1) 1 rfl (by decide) (by decide)

/-- C12 on doubles, checked with the table of the `math` functions. -/
theorem C12_grace_period_fails_on_doubles_witness :
    tableMath.SpecialCases ∧ tableMath.Accurate ∧
    ∃ fd0 fd w,
      NewFailureDetector (ofInt 8) 3 10 0 100000001 = some (Except.ok fd0) ∧
      runHeartbeats tableMath fd0 [ofInt 1700000000000, ofInt 1700100000001,
        ofInt 1700200000002, ofInt 1700300000005] = some fd ∧
      fd.state.History = some w ∧
      w.Intervals = [ofInt 100000001, ofInt 100000001, ofInt 100000003] ∧
      Variance w = ofInt (-2) ∧
      lt (sub (ofInt 1700300000005) fd.state.LatestTimestamp)
        (add (Mean w) (ofInt fd.AcceptableHeartbeatPauseMilliseconds)) = true ∧
      phi tableMath fd (ofInt 1700300000005) = some F64.nan ∧
      isAvailable tableMath fd (ofInt 1700300000005) = some false :=
  ⟨tableMath_SpecialCases, tableMath_Accurate,
    C12_grace_period_fails_on_doubles tableMath tableMath_SpecialCases tableMath_Accurate⟩

/-- C13, evaluated on doubles at `NewFailureDetector(8, 3, 10, 0, 60000005)` with heartbeats
at `t0 + k * d` for `t0 = 1700000000000`, `d = 60000005` (the estimate) and `k = 0, 1, 2, 3`,
each of which finds the detector available: the window is three times `60000005`, its
`Variance()` is `-1`, the detector is unavailable at `t0 + 3 * d` and at `t0 + 4 * d`, and the
heartbeat at `t0 + 4 * d` does not add its interval. -/
theorem C13_steady_cadence_fails_on_doubles (lib : MathLib) (hS : lib.SpecialCases)
    (hA : lib.Accurate) :
    ∃ fd0 fd fd1 w,
      NewFailureDetector (ofInt 8) 3 10 0 60000005 = some (Except.ok fd0) ∧
      runHeartbeats lib fd0 [ofInt 1700000000000, ofInt 1700060000005, ofInt 1700120000010,
        ofInt 1700180000015] = some fd ∧
      fd.state.History = some w ∧
      w.Intervals = [ofInt 60000005, ofInt 60000005, ofInt 60000005] ∧
      Variance w = ofInt (-1) ∧
      isAvailable lib fd (ofInt 1700180000015) = some false ∧
      isAvailable lib fd (ofInt 1700240000020) = some false ∧
      Heartbeat lib fd (ofInt 1700240000020) = some (fd1, none) ∧
      fd1.state.History = some w := by
  refine ⟨_, _, _, _, rfl, runB_4 lib hA, rfl, rfl, by decide, ?_, ?_, runB_step5 lib hS, rfl⟩
  · exact isAvailable_of_negative_variance lib hS _ _ _ (-1) 0 rfl (by decide) (by decide)
  · exact isAvailable_of_negative_variance lib hS _ _ _ (-1) 0 rfl (by decide) (by decide)

/-- C13 on doubles, checked with the table of the `math` functions. -/
theorem C13_steady_cadence_fails_on_doubles_witness :
    tableMath.SpecialCases ∧ tableMath.Accurate ∧
    ∃ fd0 fd fd1 w,
      NewFailureDetector (ofInt 8) 3 10 0 60000005 = some (Except.ok fd0) ∧
      runHeartbeats tableMath fd0 [ofInt 1700000000000, ofInt 1700060000005,
        ofInt 1700120000010, ofInt 1700180000015] = some fd ∧
      fd.state.History = some w ∧
      w.Intervals = [ofInt 60000005, ofInt 60000005, ofInt 60000005] ∧
      Variance w = ofInt (-1) ∧
      isAvailable tableMath fd (ofInt 1700180000015) = some false ∧
      isAvailable tableMath fd (ofInt 1700240000020) = some false ∧
      Heartbeat tableMath fd (ofInt 1700240000020) = some (fd1, none) ∧
      fd1.state.History = some w :=
  ⟨tableMath_SpecialCases, tableMath_Accurate,
    C13_steady_cadence_fails_on_doubles tableMath tableMath_SpecialCases tableMath_Accurate⟩

/-- C15, evaluated on doubles at `NewFailureDetector(8, 3, 10, 0, 100000001)` with
heartbeats at the increasing clock readings 1700000000000, 1700100000001, 1700200000002,
1700300000005 and 1700400000006: the detector is unavailable at 1700400000006 before the
fifth heartbeat, which drops its interval, and still unavailable at 1700400000006 after
it. -/
theorem C15_no_recovery_on_doubles (lib : MathLib) (hS : lib.SpecialCases)
    (hA : lib.Accurate) :
    ∃ fd0 fd4 fd,
      NewFailureDetector (ofInt 8) 3 10 0 100000001 = some (Except.ok fd0) ∧
      runHeartbeats lib fd0 [ofInt 1700000000000, ofInt 1700100000001, ofInt 1700200000002,
        ofInt 1700300000005] = some fd4 ∧
      isAvailable lib fd4 (ofInt 1700400000006) = some false ∧
      Heartbeat lib fd4 (ofInt 1700400000006) = some (fd, none) ∧
      fd.state.History = fd4.state.History ∧
      fd.state.LatestTimestamp = ofInt 1700400000006 ∧
      isAvailable lib fd (ofInt 1700400000006) = some false := by
  refine ⟨_, _, _, rfl, runA_4 lib hA, ?_, runA_step5 lib hS, rfl, rfl, ?_⟩
  · exact isAvailable_of_negative_variance lib hS _ _ _ (-1) 1 rfl (by decide) (by decide)
  · exact isAvailable_of_negative_variance lib hS _ _ _ (-1) 1 rfl (by decide) (by decide)

/-- C15 on doubles, checked with the table of the `math` functions. -/
theorem C15_no_recovery_on_doubles_witness :
    tableMath.SpecialCases ∧ tableMath.Accurate ∧
    ∃ fd0 fd4 fd,
      NewFailureDetector (ofInt 8) 3 10 0 100000001 = some (Except.ok fd0) ∧
      runHeartbeats tableMath fd0 [ofInt 1700000000000, ofInt 1700100000001,
        ofInt 1700200000002, ofInt 1700300000005] = some fd4 ∧
      isAvailable tableMath fd4 (ofInt 1700400000006) = some false ∧
      Heartbeat tableMath fd4 (ofInt 1700400000006) = some (fd, none) ∧
      fd.state.History = fd4.state.History ∧
      fd.state.LatestTimestamp = ofInt 1700400000006 ∧
      isAvailable tableMath fd (ofInt 1700400000006) = some false :=
  ⟨tableMath_SpecialCases, tableMath_Accurate,
    C15_no_recovery_on_doubles tableMath tableMath_SpecialCases tableMath_Accurate⟩

/-- C19, evaluated on doubles at `NewFailureDetector(8, 3, 10, 0, 60000005)` after the
heartbeats at 1700000000000, 1700060000005, 1700120000010 and 1700180000015: the window
holds 3 intervals, within its capacity of 3, but the standard deviation that `phi` passes to
`calcPhi` is not a number, so it is neither above nor equal to `MinStdDevMilliseconds`. -/
theorem C19_stdDev_not_a_number_on_doubles (lib : MathLib) (hS : lib.SpecialCases)
    (hA : lib.Accurate) :
    ∃ fd0 fd w,
      NewFailureDetector (ofInt 8) 3 10 0 60000005 = some (Except.ok fd0) ∧
      runHeartbeats lib fd0 [ofInt 1700000000000, ofInt 1700060000005, ofInt 1700120000010,
        ofInt 1700180000015] = some fd ∧
      fd.state.History = some w ∧
      w.Intervals.length = 3 ∧ fd.MaxSamples = 3 ∧
      ensureValidStdDev fd (StdDev lib w) = F64.nan ∧
      lt (ofInt fd.MinStdDevMilliseconds) (ensureValidStdDev fd (StdDev lib w)) = false ∧
      eq (ensureValidStdDev fd (StdDev lib w)) (ofInt fd.MinStdDevMilliseconds) = false := by
  have h := ensureValidStdDev_of_negative_variance lib hS
    (detectorAt (ofInt 8) 3 10 0 60000005 [ofInt 60000005, ofInt 60000005, ofInt 60000005]
      (ofInt 180000015) (F64.fin 1350000225000009 3) (ofInt 1700180000015))
    { MaxSamples := 3, Intervals := [ofInt 60000005, ofInt 60000005, ofInt 60000005],
      intervalSum := ofInt 180000015, squaredIntervalSum := F64.fin 1350000225000009 3 }
    (-1) 0 (by decide) (by decide)
  refine ⟨_, _, _, rfl, runB_4 lib hA, rfl, rfl, rfl, h, ?_, ?_⟩
  · rw [h]; rfl
  · rw [h]; rfl

/-- C19 on doubles, checked with the table of the `math` functions. -/
theorem C19_stdDev_not_a_number_on_doubles_witness :
    tableMath.SpecialCases ∧ tableMath.Accurate ∧
    ∃ fd0 fd w,
      NewFailureDetector (ofInt 8) 3 10 0 60000005 = some (Except.ok fd0) ∧
      runHeartbeats tableMath fd0 [ofInt 1700000000000, ofInt 1700060000005,
        ofInt 1700120000010, ofInt 1700180000015] = some fd ∧
      fd.state.History = some w ∧
      w.Intervals.length = 3 ∧ fd.MaxSamples = 3 ∧
      ensureValidStdDev fd (StdDev tableMath w) = F64.nan ∧
      lt (ofInt fd.MinStdDevMilliseconds) (ensureValidStdDev fd (StdDev tableMath w)) = false ∧
      eq (ensureValidStdDev fd (StdDev tableMath w)) (ofInt fd.MinStdDevMilliseconds) = false :=
  ⟨tableMath_SpecialCases, tableMath_Accurate,
    C19_stdDev_not_a_number_on_doubles tableMath tableMath_SpecialCases tableMath_Accurate⟩

end Float64

end Detector
